import Mathlib

/-!
# Shiksha: authentication and account security

A shallow embedding of the authentication core of the Shiksha server
(`server/models/User.js`, `server/utils/jwt.js`, `server/routes/auth.js`).

Modelling conventions.

* Time stamps (`Date`, `Date.now()`) are natural numbers of milliseconds.  One
  request is handled at one instant `now`: every `Date.now()` read inside a
  handler returns that value.
* The collection is a list of documents, `_id` being the primary key
  (`UniqueIds`).  `findOne` returns the first match, and `updateOne` rewrites
  the first document carrying the given `_id`.
* A loaded mongoose document is a copy of the stored one.  `doc.updateOne(..)`
  writes to the store only, the copy keeps its old values; `doc.save()` runs
  the `pre('save')` hook and writes the modified paths only.
* Library calls (`bcrypt`, `jsonwebtoken`, `speakeasy`) are the fields of an
  environment `Env`.  They are total: the `catch` branch of a handler, which
  answers 500 when a library or the store throws, is not part of the model.
  Four throws are modelled: the failure of `jwt.verify`, the failure of a mail
  sender, the validation error of `User.create`, and the error of
  `bcrypt.compare` on a candidate that is not a string (`notEmpty()` lets a
  number or an object through), which `comparePassword` throws again.
  The bookkeeping fields `createdAt`, `updatedAt` and `__v` that mongoose
  maintains by itself are not part of the model either.
* An assignment to a path of a loaded document marks the path as modified.
  (Mongoose does not mark a path whose new value is the one already there,
  which makes no difference to the write for a document that agrees with the
  stored one.)  The path `password` is the exception, since the `pre('save')`
  hook asks whether it is modified: reset-password marks it only when the new
  value differs from the loaded one.
* The arguments of the calls to the mail senders are an output of the four
  handlers that issue an opaque token: their `Traced` form returns them next
  to the response and the store.
* `loginAttempts` is a natural number (no floating point saturation).
-/

namespace Shiksha

/-! ## Data model (`server/models/User.js`) -/

/-- The `preferences` sub-document of the user schema. -/
structure Preferences where
  emailNotifications : Bool
  courseUpdates : Bool
deriving DecidableEq, Repr

/-- A document of the `User` collection (`userSchema`).  An absent optional
path is `none`; `password` holds what is stored, that is the bcrypt hash. -/
structure User where
  _id : Nat
  name : String
  email : String
  password : String
  avatar : String
  role : String
  isEmailVerified : Bool
  emailVerificationToken : Option String
  emailVerificationExpire : Option Nat
  resetPasswordToken : Option String
  resetPasswordExpire : Option Nat
  twoFactorSecret : Option String
  twoFactorEnabled : Bool
  twoFactorBackupCodes : Option (List String)
  googleId : Option String
  githubId : Option String
  refreshToken : Option String
  lastLogin : Option Nat
  loginAttempts : Nat
  lockUntil : Option Nat
  preferences : Preferences
  wishlist : List Nat
  cart : List Nat
deriving DecidableEq, Repr

/-- The external libraries and the process configuration the handlers use. -/
structure Env where
  /-- The call `bcrypt.compare(candidate, hash)` on two strings. -/
  bcryptCompare : String → String → Bool
  /-- The message of the error that `bcrypt.compare` throws for a candidate
  that is not a string, given the JSON text of the candidate. -/
  bcryptCompareError : String → String
  /-- The call `bcrypt.hash(plaintext, salt)`. -/
  bcryptHash : String → String → String
  /-- The call `bcrypt.genSalt(10)`, as drawn at a given instant. -/
  bcryptGenSalt : Nat → String
  /-- The call `jwt.sign({id}, secret, {expiresIn})` at a given instant:
  payload id, secret, lifetime, time of signing. -/
  jwtSign : Nat → String → String → Nat → String
  /-- The call `speakeasy.totp.verify` with base32 encoding and window 2:
  secret, token, time of the check. -/
  totpVerify : Option String → String → Nat → Bool
  JWT_SECRET : String
  JWT_REFRESH_SECRET : String
  JWT_EXPIRE : Option String
  JWT_REFRESH_EXPIRE : Option String

/-! ## Lockout guard (`server/models/User.js`, methods) -/

/-- A value of `req.body.password` where the validation chain is `notEmpty()`
only (login, 2fa/disable): a string, or a JSON value of another type (a number,
a boolean, an array, an object) given by its text; the validator looks at the
text of the value, so both kinds pass. -/
inductive BodyValue where
  | string (s : String)
  | other (json : String)
deriving DecidableEq, Repr

deriving instance DecidableEq for Except

/-- `userSchema.methods.comparePassword`: what `bcrypt.compare` returns, or
the error it throws, thrown again as `new Error(error)`. -/
def User.comparePassword (env : Env) (this : User) (candidatePassword : BodyValue) :
    Except String Bool :=
  match candidatePassword with
  | .string s => .ok (env.bcryptCompare s this.password)
  | .other json => .error ("Error: " ++ env.bcryptCompareError json)

/-- `userSchema.methods.isLocked`: `!!(this.lockUntil && this.lockUntil > Date.now())`.
A `Date` is always truthy, so the first conjunct says that the path is set. -/
def User.isLocked (this : User) (now : Nat) : Bool :=
  match this.lockUntil with
  | none => false
  | some lockUntil => decide (lockUntil > now)

/-- The update documents the lockout methods hand to `updateOne`: the
operators `$set`, `$unset` and `$inc` on the two lockout paths. -/
structure Update where
  setLoginAttempts : Option Nat := none
  incLoginAttempts : Option Nat := none
  setLockUntil : Option Nat := none
  unsetLockUntil : Bool := false
deriving DecidableEq, Repr

/-- What MongoDB does with an `Update` on the stored document. -/
def Update.apply (u : Update) (stored : User) : User :=
  let loginAttempts :=
    match u.setLoginAttempts with
    | some n => n
    | none =>
      match u.incLoginAttempts with
      | some k => stored.loginAttempts + k
      | none => stored.loginAttempts
  let lockUntil :=
    if u.unsetLockUntil then none
    else
      match u.setLockUntil with
      | some t => some t
      | none => stored.lockUntil
  { stored with loginAttempts := loginAttempts, lockUntil := lockUntil }

def maxAttempts : Nat := 5

/-- The lock time, 2 hours in milliseconds. -/
def lockTime : Nat := 2 * 60 * 60 * 1000

/-- The update document built by `userSchema.methods.incLoginAttempts`. -/
def User.incLoginAttemptsUpdate (this : User) (now : Nat) : Update :=
  -- this.lockUntil && this.lockUntil < Date.now()
  let expired :=
    match this.lockUntil with
    | none => false
    | some lockUntil => decide (lockUntil < now)
  if expired then
    { setLoginAttempts := some 1, unsetLockUntil := true }
  else
    let updates : Update := { incLoginAttempts := some 1 }
    if this.loginAttempts + 1 ≥ maxAttempts && !this.isLocked now then
      { updates with setLockUntil := some (now + lockTime) }
    else
      updates

/-- The update document built by `userSchema.methods.resetLoginAttempts`. -/
def User.resetLoginAttemptsUpdate (_this : User) : Update :=
  { setLoginAttempts := some 0, unsetLockUntil := true }

/-! ## The store -/

/-- The `User` collection. -/
abbrev Db := List User

/-- The primary key constraint on `_id`. -/
def UniqueIds (db : Db) : Prop := (db.map (fun u => u._id)).Nodup

instance (db : Db) : Decidable (UniqueIds db) := by
  unfold UniqueIds; infer_instance

/-- `User.findOne(filter)`: the first document that matches. -/
def findOne (filter : User → Bool) (db : Db) : Option User :=
  db.find? filter

/-- `User.updateOne({_id}, update)`: rewrites the first document with that `_id`. -/
def updateOne (id : Nat) (update : User → User) : Db → Db
  | [] => []
  | u :: rest => if u._id = id then update u :: rest else u :: updateOne id update rest

/-- `this.updateOne(..)` as called by `incLoginAttempts`. -/
def User.incLoginAttempts (this : User) (now : Nat) (db : Db) : Db :=
  updateOne this._id (this.incLoginAttemptsUpdate now).apply db

/-- `this.updateOne(..)` as called by `resetLoginAttempts`. -/
def User.resetLoginAttempts (this : User) (db : Db) : Db :=
  updateOne this._id this.resetLoginAttemptsUpdate.apply db

/-- The paths of a document that the auth routes assign to. -/
inductive Path where
  | name | email | password | isEmailVerified
  | emailVerificationToken | emailVerificationExpire
  | resetPasswordToken | resetPasswordExpire
  | twoFactorSecret | twoFactorEnabled | twoFactorBackupCodes
  | refreshToken | lastLogin
deriving DecidableEq, Repr

/-- Writes one path of the loaded document into the stored one. -/
def Path.write (p : Path) (doc stored : User) : User :=
  match p with
  | .name => { stored with name := doc.name }
  | .email => { stored with email := doc.email }
  | .password => { stored with password := doc.password }
  | .isEmailVerified => { stored with isEmailVerified := doc.isEmailVerified }
  | .emailVerificationToken => { stored with emailVerificationToken := doc.emailVerificationToken }
  | .emailVerificationExpire => { stored with emailVerificationExpire := doc.emailVerificationExpire }
  | .resetPasswordToken => { stored with resetPasswordToken := doc.resetPasswordToken }
  | .resetPasswordExpire => { stored with resetPasswordExpire := doc.resetPasswordExpire }
  | .twoFactorSecret => { stored with twoFactorSecret := doc.twoFactorSecret }
  | .twoFactorEnabled => { stored with twoFactorEnabled := doc.twoFactorEnabled }
  | .twoFactorBackupCodes => { stored with twoFactorBackupCodes := doc.twoFactorBackupCodes }
  | .refreshToken => { stored with refreshToken := doc.refreshToken }
  | .lastLogin => { stored with lastLogin := doc.lastLogin }

/-- The hook `userSchema.pre('save')`: the password is hashed only when the
path `password` is modified. -/
def preSave (env : Env) (now : Nat) (modified : List Path) (this : User) : User :=
  if Path.password ∈ modified then
    { this with password := env.bcryptHash this.password (env.bcryptGenSalt now) }
  else
    this

/-- What `save` sends to the store: the modified paths of the document. -/
def saveDelta (modified : List Path) (doc stored : User) : User :=
  modified.foldl (fun acc p => p.write doc acc) stored

/-- The call `doc.save()` with the given modified paths: returns the document
after the hook and the store after the write. -/
def save (env : Env) (now : Nat) (modified : List Path) (doc : User) (db : Db) : User × Db :=
  let doc := preSave env now modified doc
  (doc, updateOne doc._id (saveDelta modified doc) db)

/-- `userSchema.methods.updateLastLogin`. -/
def User.updateLastLogin (env : Env) (this : User) (now : Nat) (db : Db) : User × Db :=
  save env now [Path.lastLogin] { this with lastLogin := some now } db

/-! ## Token service (`server/utils/jwt.js`) -/

/-- `generateAccessToken`: signed with `JWT_SECRET`, lifetime `JWT_EXPIRE || '7d'`. -/
def generateAccessToken (env : Env) (now : Nat) (userId : Nat) : String :=
  env.jwtSign userId env.JWT_SECRET (env.JWT_EXPIRE.getD "7d") now

/-- `generateRefreshToken`: signed with `JWT_REFRESH_SECRET`, lifetime
`JWT_REFRESH_EXPIRE || '30d'`. -/
def generateRefreshToken (env : Env) (now : Nat) (userId : Nat) : String :=
  env.jwtSign userId env.JWT_REFRESH_SECRET (env.JWT_REFRESH_EXPIRE.getD "30d") now

/-- The source of `crypto.randomBytes`: the byte drawn at each position of the
stream (read modulo 256). -/
abbrev RandomSource := Nat → Nat

/-- `crypto.randomBytes(n)`, reading the stream from position `pos`. -/
def randomBytes (rng : RandomSource) (pos n : Nat) : List Nat :=
  (List.range n).map (fun k => rng (pos + k) % 256)

/-- One lower-case hexadecimal digit. -/
def hexDigit (d : Nat) : Char :=
  if d < 10 then Char.ofNat (48 + d) else Char.ofNat (87 + d)

/-- `buffer.toString('hex')`: two lower-case digits per byte. -/
def toHex (bytes : List Nat) : String :=
  String.mk (bytes.flatMap (fun b => [hexDigit (b / 16), hexDigit (b % 16)]))

/-- `String.prototype.toUpperCase` on the ASCII letters. -/
def toUpperCase (s : String) : String :=
  String.mk (s.data.map Char.toUpper)

/-- The loop of `generateBackupCodes`: `remaining` iterations are left, `i` is
the loop counter, `codes` the array built so far. -/
def generateBackupCodesLoop (rng : RandomSource) : (remaining i : Nat) → List String → List String
  | 0, _, codes => codes
  | remaining + 1, i, codes =>
    let code := toUpperCase (toHex (randomBytes rng (4 * i) 4))
    generateBackupCodesLoop rng remaining (i + 1) (codes ++ [code])

/-- `generateBackupCodes(count = 10)`. -/
def generateBackupCodes (rng : RandomSource) (count : Nat := 10) : List String :=
  generateBackupCodesLoop rng count 0 []

/-! ## Requests and responses (`server/routes/auth.js`) -/

/-- The account summary returned under `data.user`; registration leaves
`twoFactorEnabled` out. -/
structure UserSummary where
  id : Nat
  name : String
  email : String
  avatar : String
  role : String
  isEmailVerified : Bool
  twoFactorEnabled : Option Bool
deriving DecidableEq, Repr

/-- The status and JSON body of an HTTP response. -/
structure Response where
  status : Nat
  success : Bool
  message : Option String := none
  errors : List String := []
  requiresTwoFactor : Option Bool := none
  user : Option UserSummary := none
  accessToken : Option String := none
  refreshToken : Option String := none
  secret : Option String := none
  qrCode : Option String := none
  backupCodes : Option (List String) := none
  error : Option String := none
deriving DecidableEq, Repr

/-- The body of `POST /api/auth/login` after the `validateLogin` chain of
express-validator has run: `validationErrors` is `validationResult(req)`,
`email` is the sanitised address and `password` the value of the body as it
came (the chain tests `notEmpty()` and does not ask for a string). -/
structure LoginRequest where
  validationErrors : List String
  email : String
  password : BodyValue
  twoFactorCode : Option String
deriving DecidableEq, Repr

/-- `Array.prototype.indexOf` on strings; `none` stands for `-1`. -/
def indexOf : List String → String → Option Nat
  | [], _ => none
  | x :: xs, s => if x = s then some 0 else (indexOf xs s).map (· + 1)

/-- `array.splice(start, 1)` for an index inside the array: what is left in the array. -/
def splice1 : List String → Nat → List String
  | [], _ => []
  | _ :: xs, 0 => xs
  | x :: xs, start + 1 => x :: splice1 xs start

/-- JavaScript truthiness of an optional string: absent and empty are falsy. -/
def truthy : Option String → Bool
  | none => false
  | some s => s != ""

def invalidCredentials : Response :=
  { status := 401, success := false, message := some "Invalid credentials" }

def accountLocked : Response :=
  { status := 423, success := false,
    message := some "Account is temporarily locked due to too many failed login attempts. Please try again later." }

def requiresTwoFactorResponse : Response :=
  { status := 200, success := true, requiresTwoFactor := some true,
    message := some "Please provide your 2FA code" }

def invalidTwoFactorCode : Response :=
  { status := 401, success := false, message := some "Invalid 2FA code" }

/-- The block `if (user.twoFactorEnabled) ...` of the login handler
(lines 163 to 199): either an early response with the store it leaves, or the
document and the store with which the handler goes on. -/
def twoFactorChallenge (env : Env) (now : Nat) (twoFactorCode : Option String)
    (user : User) (db : Db) : Except (Response × Db) (User × Db) :=
  if user.twoFactorEnabled then
    if !truthy twoFactorCode then
      .error (requiresTwoFactorResponse, db)
    else
      let code := twoFactorCode.getD ""
      let verified := env.totpVerify user.twoFactorSecret code now
      -- Check backup codes if TOTP fails
      let backup : Option (User × Db) :=
        match user.twoFactorBackupCodes with
        | none => none
        | some codes =>
          if !verified && codes.length > 0 then
            match indexOf codes code with
            | none => none
            | some backupIndex =>
              some (save env now [Path.twoFactorBackupCodes]
                { user with twoFactorBackupCodes := some (splice1 codes backupIndex) } db)
          else none
      let usedBackupCode := backup.isSome
      if !verified && !usedBackupCode then
        .error (invalidTwoFactorCode, user.incLoginAttempts now db)
      else
        .ok (backup.getD (user, db))
  else
    .ok (user, db)

/-- The filter of `User.findOne({email})`. -/
def byEmail (email : String) : User → Bool := fun u => u.email == email

/-- The handler of `POST /api/auth/login`. -/
def login (env : Env) (now : Nat) (req : LoginRequest) (db : Db) : Response × Db :=
  if !req.validationErrors.isEmpty then
    ({ status := 400, success := false, errors := req.validationErrors }, db)
  else
    -- Find user and include password
    match findOne (byEmail req.email) db with
    | none => (invalidCredentials, db)
    | some user =>
      -- Check if account is locked
      if user.isLocked now then
        (accountLocked, db)
      else
        -- Check password
        match user.comparePassword env req.password with
        | .error message =>
          -- caught by the handler
          ({ status := 500, success := false, message := some "Server error during login",
             error := some message }, db)
        | .ok isMatch =>
          if !isMatch then
            (invalidCredentials, user.incLoginAttempts now db)
          else
            match twoFactorChallenge env now req.twoFactorCode user db with
            | .error early => early
            | .ok (user, db) =>
              -- Reset login attempts on successful login
              let db := user.resetLoginAttempts db
              let (user, db) := user.updateLastLogin env now db
              -- Generate tokens
              let accessToken := generateAccessToken env now user._id
              let refreshToken := generateRefreshToken env now user._id
              -- Save refresh token
              let (user, db) := save env now [Path.refreshToken] { user with refreshToken := some refreshToken } db
              ({ status := 200, success := true, message := some "Login successful",
                 user := some { id := user._id, name := user.name, email := user.email,
                                avatar := user.avatar, role := user.role,
                                isEmailVerified := user.isEmailVerified,
                                twoFactorEnabled := some user.twoFactorEnabled },
                 accessToken := some accessToken, refreshToken := some refreshToken }, db)

/-! ## The services of the other routes -/

/-- The mail settings of the process and the two nodemailer calls of
`server/utils/email.js`.  A call either returns or throws an error message. -/
structure Mailer where
  EMAIL_USER : Option String
  EMAIL_PASSWORD : Option String
  NODE_ENV : Option String
  /-- The call `nodemailer.createTransporter(..)` made by `createTransporter`. -/
  createTransporter : Except String Unit
  /-- The call `transporter.sendMail(mailOptions)`: recipient, subject, and
  the token or codes that the HTML body carries. -/
  sendMail : String → String → String → Except String Unit

/-- What `speakeasy.generateSecret` returns. -/
structure GeneratedSecret where
  base32 : String
  otpauth_url : String
deriving DecidableEq, Repr

/-- The environment of the whole auth router: the libraries of `Env` and those
the other routes call. -/
structure AuthEnv extends Env where
  /-- The call `jwt.verify(token, secret)` at a given instant: the `id` of the
  payload, or `none` when the call throws (bad signature, expired). -/
  jwtVerify : String → String → Nat → Option Nat
  /-- The call `crypto.createHash('sha256').update(token).digest('hex')`. -/
  sha256Hex : String → String
  /-- The call `speakeasy.generateSecret` with the given `name`, as drawn at a
  given instant. -/
  speakeasyGenerateSecret : String → Nat → GeneratedSecret
  /-- The call `QRCode.toDataURL`. -/
  qrCodeToDataURL : String → String
  /-- The builtin `encodeURIComponent`. -/
  encodeURIComponent : String → String
  /-- The test of the `match` regular expression of the schema path `email`. -/
  emailMatch : String → Bool
  mail : Mailer

/-- Whether the mail settings are there: `EMAIL_USER && EMAIL_PASSWORD`. -/
def Mailer.configured (m : Mailer) : Bool :=
  truthy m.EMAIL_USER && truthy m.EMAIL_PASSWORD

/-- The `try` block around `transporter.sendMail` in the three senders of
`server/utils/email.js`: a failure is thrown again in production only. -/
def Mailer.trySend (m : Mailer) (recipient subject body failure : String) : Except String Unit :=
  match m.sendMail recipient subject body with
  | .ok () => .ok ()
  | .error _ =>
    if m.NODE_ENV == some "production" then .error failure else .ok ()

/-- `sendVerificationEmail(email, name, token)`; the transporter is created
outside the `try` block. -/
def sendVerificationEmail (m : Mailer) (email _name token : String) : Except String Unit :=
  if !m.configured then .ok ()
  else
    match m.createTransporter with
    | .error e => .error e
    | .ok () =>
      m.trySend email "Verify Your Email - Shiksha" token "Failed to send verification email"

/-- `sendPasswordResetEmail(email, name, token)`. -/
def sendPasswordResetEmail (m : Mailer) (email _name token : String) : Except String Unit :=
  if !m.configured then .ok ()
  else
    match m.createTransporter with
    | .error e => .error e
    | .ok () =>
      m.trySend email "Password Reset Request - Shiksha" token
        "Failed to send password reset email"

/-- `send2FASetupEmail(email, name, backupCodes)`; `backupCodes.map` throws on
an absent array, after the transporter is created. -/
def send2FASetupEmail (m : Mailer) (email _name : String) (backupCodes : Option (List String)) :
    Except String Unit :=
  if !m.configured then .ok ()
  else
    match m.createTransporter with
    | .error e => .error e
    | .ok () =>
      match backupCodes with
      | none => .error "Cannot read properties of undefined"
      | some codes =>
        m.trySend email "Two-Factor Authentication Enabled - Shiksha" (String.join codes)
          "Failed to send 2FA setup email"

/-- `verifyToken(token, secret)` of `server/utils/jwt.js`. -/
def verifyToken (env : AuthEnv) (now : Nat) (token secret : String) : Except String Nat :=
  match env.jwtVerify token secret now with
  | some id => .ok id
  | none => .error "Invalid or expired token"

/-- `generateRandomToken()`: 32 random bytes in hexadecimal. -/
def generateRandomToken (rng : RandomSource) : String :=
  toHex (randomBytes rng 0 32)

/-- `hashToken(token)`. -/
def hashToken (env : AuthEnv) (token : String) : String :=
  env.sha256Hex token

/-- The filter of `User.findById(id)`. -/
def byId (id : Nat) : User → Bool := fun u => u._id == id

/-- The `length` of a JavaScript string, in UTF-16 code units. -/
def jsLength (s : String) : Nat :=
  (s.data.map (fun c => if c.toNat < 65536 then 1 else 2)).sum

/-! ### `POST /api/auth/refresh-token` -/

structure RefreshRequest where
  refreshToken : Option String
deriving DecidableEq, Repr

def refreshTokenRequired : Response :=
  { status := 401, success := false, message := some "Refresh token required" }

def invalidRefreshToken : Response :=
  { status := 401, success := false, message := some "Invalid refresh token" }

/-- The handler of `POST /api/auth/refresh-token`; it writes nothing. -/
def refreshTokenRoute (env : AuthEnv) (now : Nat) (req : RefreshRequest) (db : Db) :
    Response × Db :=
  if !truthy req.refreshToken then
    (refreshTokenRequired, db)
  else
    let refreshToken := req.refreshToken.getD ""
    -- Verify refresh token
    match verifyToken env now refreshToken env.JWT_REFRESH_SECRET with
    | .error message =>
      ({ status := 401, success := false, message := some "Invalid or expired refresh token",
         error := some message }, db)
    | .ok decodedId =>
      -- Find user
      match findOne (byId decodedId) db with
      | none => (invalidRefreshToken, db)
      | some user =>
        if user.refreshToken != some refreshToken then
          (invalidRefreshToken, db)
        else
          ({ status := 200, success := true,
             accessToken := some (generateAccessToken env.toEnv now user._id) }, db)

/-! ### `POST /api/auth/logout` -/

/-- The handler of `POST /api/auth/logout`; `user` is `req.user`, the document
that the `protect` middleware loaded. -/
def logout (env : AuthEnv) (now : Nat) (user : User) (db : Db) : Response × Db :=
  -- Clear refresh token
  let (_, db) := save env.toEnv now [Path.refreshToken] { user with refreshToken := none } db
  ({ status := 200, success := true, message := some "Logged out successfully" }, db)

/-! ### `POST /api/auth/verify-email/:token` -/

/-- The Mongo filter `{emailVerificationToken: hashedToken,
emailVerificationExpire: {$gt: now}}`. -/
def verificationFilter (hashedToken : String) (now : Nat) : User → Bool := fun u =>
  u.emailVerificationToken == some hashedToken &&
    (match u.emailVerificationExpire with
     | some expire => decide (expire > now)
     | none => false)

def invalidVerificationToken : Response :=
  { status := 400, success := false, message := some "Invalid or expired verification token" }

/-- The handler of `POST /api/auth/verify-email/:token`. -/
def verifyEmail (env : AuthEnv) (now : Nat) (token : String) (db : Db) : Response × Db :=
  let hashedToken := hashToken env token
  match findOne (verificationFilter hashedToken now) db with
  | none => (invalidVerificationToken, db)
  | some user =>
    let (_, db) := save env.toEnv now
      [Path.isEmailVerified, Path.emailVerificationToken, Path.emailVerificationExpire]
      { user with isEmailVerified := true, emailVerificationToken := none,
                  emailVerificationExpire := none } db
    ({ status := 200, success := true, message := some "Email verified successfully" }, db)

/-! ### `POST /api/auth/reset-password/:token` -/

/-- The request of reset-password after its validation chain (`password` of
length at least 6): `token` is `req.params.token`. -/
structure ResetPasswordRequest where
  validationErrors : List String
  token : String
  password : String
deriving DecidableEq, Repr

/-- The Mongo filter `{resetPasswordToken: hashedToken,
resetPasswordExpire: {$gt: now}}`. -/
def resetFilter (hashedToken : String) (now : Nat) : User → Bool := fun u =>
  u.resetPasswordToken == some hashedToken &&
    (match u.resetPasswordExpire with
     | some expire => decide (expire > now)
     | none => false)

def invalidResetToken : Response :=
  { status := 400, success := false, message := some "Invalid or expired reset token" }

/-- The handler of `POST /api/auth/reset-password/:token`. -/
def resetPassword (env : AuthEnv) (now : Nat) (req : ResetPasswordRequest) (db : Db) :
    Response × Db :=
  if !req.validationErrors.isEmpty then
    ({ status := 400, success := false, errors := req.validationErrors }, db)
  else
    let hashedToken := hashToken env req.token
    match findOne (resetFilter hashedToken now) db with
    | none => (invalidResetToken, db)
    | some user =>
      -- `user.password = req.body.password` marks the path as modified when
      -- the value differs from the loaded one
      let (_, db) := save env.toEnv now
        ((if req.password != user.password then [Path.password] else []) ++
          [Path.resetPasswordToken, Path.resetPasswordExpire, Path.refreshToken])
        { user with password := req.password, resetPasswordToken := none,
                    resetPasswordExpire := none, refreshToken := none } db
      ({ status := 200, success := true,
         message := some "Password reset successful. Please login with your new password." }, db)

/-! ### `POST /api/auth/register` -/

/-- The body of register after the `validateRegistration` chain: `name` is
trimmed and `email` is the sanitised address, so that the `trim` and
`lowercase` setters of the schema leave them as they are. -/
structure RegisterRequest where
  validationErrors : List String
  name : String
  email : String
  password : String
deriving DecidableEq, Repr

/-- The validators of `userSchema` that `User.create` runs on the paths it is
given: `required` on the three paths, `maxlength` 50 on `name`, the `match`
expression on `email`, `minlength` 6 on `password`. -/
def schemaAccepts (env : AuthEnv) (name email password : String) : Bool :=
  name != "" && decide (jsLength name ≤ 50) &&
  email != "" && env.emailMatch email &&
  password != "" && decide (6 ≤ jsLength password)

/-- `User.create({name, email, password, avatar})` for a document that the
validators accept: the schema defaults are filled in, the `pre('save')` hook
hashes the password, and the document is inserted under the fresh `_id`. -/
def User.create (env : AuthEnv) (now newId : Nat) (name email password avatar : String)
    (db : Db) : User × Db :=
  let doc : User :=
    preSave env.toEnv now [Path.password]
      { _id := newId, name := name, email := email, password := password, avatar := avatar,
        role := "user", isEmailVerified := false,
        emailVerificationToken := none, emailVerificationExpire := none,
        resetPasswordToken := none, resetPasswordExpire := none,
        twoFactorSecret := none, twoFactorEnabled := false, twoFactorBackupCodes := some [],
        googleId := none, githubId := none, refreshToken := none, lastLogin := none,
        loginAttempts := 0, lockUntil := none,
        preferences := { emailNotifications := true, courseUpdates := true },
        wishlist := [], cart := [] }
  (doc, db ++ [doc])

def userAlreadyExists : Response :=
  { status := 400, success := false, message := some "User already exists with this email" }

/-- The end of the register handler, from `// Generate tokens` on. -/
def registerTokens (env : AuthEnv) (now : Nat) (user : User) (db : Db) : Response × Db :=
  -- Generate tokens
  let accessToken := generateAccessToken env.toEnv now user._id
  let refreshToken := generateRefreshToken env.toEnv now user._id
  -- Save refresh token
  let (user, db) := save env.toEnv now [Path.refreshToken]
    { user with refreshToken := some refreshToken } db
  ({ status := 201, success := true,
     message := some
       "User registered successfully. Please check your email to verify your account.",
     user := some { id := user._id, name := user.name, email := user.email,
                    avatar := user.avatar, role := user.role,
                    isEmailVerified := user.isEmailVerified, twoFactorEnabled := none },
     accessToken := some accessToken, refreshToken := some refreshToken }, db)

/-- The handler of `POST /api/auth/register`; `rng` is the stream that
`crypto.randomBytes` reads during the request and `newId` the `_id` that the
driver gives to the new document. -/
def register (env : AuthEnv) (now : Nat) (rng : RandomSource) (newId : Nat)
    (req : RegisterRequest) (db : Db) : Response × Db :=
  if !req.validationErrors.isEmpty then
    ({ status := 400, success := false, errors := req.validationErrors }, db)
  else
    -- Check if user already exists
    match findOne (byEmail req.email) db with
    | some _ => (userAlreadyExists, db)
    | none =>
      if !schemaAccepts env req.name req.email req.password then
        -- `User.create` throws a validation error, caught by the handler
        -- (the text of the mongoose message is abridged)
        ({ status := 500, success := false, message := some "Server error during registration",
           error := some "User validation failed" }, db)
      else
        -- Create user
        let (user, db) := User.create env now newId req.name req.email req.password
          ("https://api.dicebear.com/7.x/avataaars/svg?seed=" ++ env.encodeURIComponent req.email)
          db
        -- Generate email verification token
        let verificationToken := generateRandomToken rng
        let hashedToken := hashToken env verificationToken
        let (user, db) := save env.toEnv now
          [Path.emailVerificationToken, Path.emailVerificationExpire]
          { user with emailVerificationToken := some hashedToken,
                      emailVerificationExpire := some (now + 24 * 60 * 60 * 1000) } db
        -- Send verification email
        match sendVerificationEmail env.mail user.email user.name verificationToken with
        | .ok () => registerTokens env now user db
        | .error _emailError =>
          -- Continue even if email fails
          registerTokens env now user db

/-! ### `POST /api/auth/forgot-password` -/

structure ForgotPasswordRequest where
  validationErrors : List String
  email : String
deriving DecidableEq, Repr

def resetLinkSent : Response :=
  { status := 200, success := true,
    message := some "If an account exists with this email, a password reset link has been sent" }

/-- The handler of `POST /api/auth/forgot-password`.  The sender is called
outside any inner `try`, so what it throws reaches the `catch` of the handler. -/
def forgotPassword (env : AuthEnv) (now : Nat) (rng : RandomSource)
    (req : ForgotPasswordRequest) (db : Db) : Response × Db :=
  if !req.validationErrors.isEmpty then
    ({ status := 400, success := false, errors := req.validationErrors }, db)
  else
    match findOne (byEmail req.email) db with
    | none =>
      -- Don't reveal if user exists
      (resetLinkSent, db)
    | some user =>
      let resetToken := generateRandomToken rng
      let hashedToken := hashToken env resetToken
      let (user, db) := save env.toEnv now [Path.resetPasswordToken, Path.resetPasswordExpire]
        { user with resetPasswordToken := some hashedToken,
                    resetPasswordExpire := some (now + 60 * 60 * 1000) } db
      match sendPasswordResetEmail env.mail user.email user.name resetToken with
      | .ok () => (resetLinkSent, db)
      | .error message =>
        ({ status := 500, success := false,
           message := some "Failed to process password reset request",
           error := some message }, db)

/-! ### `POST /api/auth/2fa/setup` and `POST /api/auth/2fa/verify` -/

def twoFactorAlreadyEnabled : Response :=
  { status := 400, success := false, message := some "2FA is already enabled" }

/-- The handler of `POST /api/auth/2fa/setup`; `user` is `req.user`. -/
def twoFactorSetup (env : AuthEnv) (now : Nat) (rng : RandomSource) (user : User) (db : Db) :
    Response × Db :=
  if user.twoFactorEnabled then
    (twoFactorAlreadyEnabled, db)
  else
    -- Generate secret
    let secret := env.speakeasyGenerateSecret ("Shiksha (" ++ user.email ++ ")") now
    -- Generate QR code
    let qrCode := env.qrCodeToDataURL secret.otpauth_url
    -- Generate backup codes
    let backupCodes := generateBackupCodes rng
    -- Save secret (but don't enable yet)
    let (_, db) := save env.toEnv now [Path.twoFactorSecret, Path.twoFactorBackupCodes]
      { user with twoFactorSecret := some secret.base32,
                  twoFactorBackupCodes := some backupCodes } db
    ({ status := 200, success := true,
       message := some "2FA setup initiated. Please scan the QR code and verify with a code.",
       secret := some secret.base32, qrCode := some qrCode,
       backupCodes := some backupCodes }, db)

/-- The body of 2fa/verify after its validation chain (`code` not empty). -/
structure TwoFactorVerifyRequest where
  validationErrors : List String
  code : String
deriving DecidableEq, Repr

def setupTwoFactorFirst : Response :=
  { status := 400, success := false, message := some "Please setup 2FA first" }

def invalidTwoFactorVerifyCode : Response :=
  { status := 400, success := false, message := some "Invalid 2FA code" }

def twoFactorEnabledResponse : Response :=
  { status := 200, success := true, message := some "2FA enabled successfully" }

/-- The handler of `POST /api/auth/2fa/verify`; `user` is `req.user`. -/
def twoFactorVerify (env : AuthEnv) (now : Nat) (req : TwoFactorVerifyRequest) (user : User)
    (db : Db) : Response × Db :=
  if !req.validationErrors.isEmpty then
    ({ status := 400, success := false, errors := req.validationErrors }, db)
  else if !truthy user.twoFactorSecret then
    (setupTwoFactorFirst, db)
  else if !env.totpVerify user.twoFactorSecret req.code now then
    (invalidTwoFactorVerifyCode, db)
  else
    let (user, db) := save env.toEnv now [Path.twoFactorEnabled]
      { user with twoFactorEnabled := true } db
    -- Send confirmation email
    match send2FASetupEmail env.mail user.email user.name user.twoFactorBackupCodes with
    | .ok () => (twoFactorEnabledResponse, db)
    | .error _emailError => (twoFactorEnabledResponse, db)

/-! ### `PUT /api/auth/profile` and `POST /api/auth/resend-verification` -/

/-- A call to a mail sender of `server/utils/email.js` with its arguments. -/
inductive MailCall where
  | verification (email name token : String)
  | passwordReset (email name token : String)
deriving DecidableEq, Repr

/-- The body of the profile update after its validation chain; both fields are
optional. -/
structure ProfileRequest where
  validationErrors : List String
  name : Option String
  email : Option String
deriving DecidableEq, Repr

def emailInUse : Response :=
  { status := 400, success := false, message := some "Email is already in use" }

/-- The end of the profile handler, from `if (name)` on.  `user.save()` runs
the validators of the modified paths (`maxlength` 50 on `name`, the `match`
expression on `email`) before it writes; their error is caught by the handler. -/
def profileSave (env : AuthEnv) (now : Nat) (name : Option String) (user : User)
    (modified : List Path) (db : Db) : Response × Db :=
  let user : User := if truthy name then { user with name := name.getD "" } else user
  let modified := if truthy name then Path.name :: modified else modified
  if (decide (Path.name ∈ modified) && !(user.name != "" && decide (jsLength user.name ≤ 50))) ||
     (decide (Path.email ∈ modified) && !(user.email != "" && env.emailMatch user.email)) then
    ({ status := 500, success := false, message := some "Failed to update profile",
       error := some "User validation failed" }, db)
  else
    let (user, db) := save env.toEnv now modified user db
    ({ status := 200, success := true, message := some "Profile updated successfully",
       user := some { id := user._id, name := user.name, email := user.email,
                      avatar := user.avatar, role := user.role,
                      isEmailVerified := user.isEmailVerified,
                      twoFactorEnabled := some user.twoFactorEnabled } }, db)

/-- The handler of `PUT /api/auth/profile` with the sender calls it makes;
`user` is `req.user`. -/
def updateProfileTraced (env : AuthEnv) (now : Nat) (rng : RandomSource) (req : ProfileRequest)
    (user : User) (db : Db) : (Response × Db) × List MailCall :=
  if !req.validationErrors.isEmpty then
    (({ status := 400, success := false, errors := req.validationErrors }, db), [])
  else if truthy req.email && req.email != some user.email then
    -- Check if email is being changed and if it's already taken
    let email := req.email.getD ""
    match findOne (byEmail email) db with
    | some _ => ((emailInUse, db), [])
    | none =>
      -- If email is changed, mark as unverified and send verification email
      let verificationToken := generateRandomToken rng
      let hashedToken := hashToken env verificationToken
      let user : User :=
        { user with email := email, isEmailVerified := false,
                    emailVerificationToken := some hashedToken,
                    emailVerificationExpire := some (now + 24 * 60 * 60 * 1000) }
      let recipientName := if truthy req.name then req.name.getD "" else user.name
      let outcome :=
        profileSave env now req.name user
          [Path.email, Path.isEmailVerified, Path.emailVerificationToken,
           Path.emailVerificationExpire] db
      match sendVerificationEmail env.mail email recipientName verificationToken with
      | .ok () => (outcome, [MailCall.verification email recipientName verificationToken])
      | .error _emailError =>
        (outcome, [MailCall.verification email recipientName verificationToken])
  else
    (profileSave env now req.name user [] db, [])

/-- The handler of `PUT /api/auth/profile`. -/
def updateProfile (env : AuthEnv) (now : Nat) (rng : RandomSource) (req : ProfileRequest)
    (user : User) (db : Db) : Response × Db :=
  (updateProfileTraced env now rng req user db).1

def emailAlreadyVerified : Response :=
  { status := 400, success := false, message := some "Email is already verified" }

/-- The handler of `POST /api/auth/resend-verification` with the sender calls
it makes; `user` is `req.user`.  The sender is called outside any inner `try`. -/
def resendVerificationTraced (env : AuthEnv) (now : Nat) (rng : RandomSource) (user : User)
    (db : Db) : (Response × Db) × List MailCall :=
  if user.isEmailVerified then
    ((emailAlreadyVerified, db), [])
  else
    let verificationToken := generateRandomToken rng
    let hashedToken := hashToken env verificationToken
    let (user, db) := save env.toEnv now
      [Path.emailVerificationToken, Path.emailVerificationExpire]
      { user with emailVerificationToken := some hashedToken,
                  emailVerificationExpire := some (now + 24 * 60 * 60 * 1000) } db
    match sendVerificationEmail env.mail user.email user.name verificationToken with
    | .ok () =>
      (({ status := 200, success := true, message := some "Verification email sent" }, db),
       [MailCall.verification user.email user.name verificationToken])
    | .error message =>
      (({ status := 500, success := false, message := some "Failed to send verification email",
          error := some message }, db),
       [MailCall.verification user.email user.name verificationToken])

/-- The handler of `POST /api/auth/resend-verification`. -/
def resendVerification (env : AuthEnv) (now : Nat) (rng : RandomSource) (user : User)
    (db : Db) : Response × Db :=
  (resendVerificationTraced env now rng user db).1

/-- The register handler with the sender calls it makes. -/
def registerTraced (env : AuthEnv) (now : Nat) (rng : RandomSource) (newId : Nat)
    (req : RegisterRequest) (db : Db) : (Response × Db) × List MailCall :=
  if !req.validationErrors.isEmpty then
    (({ status := 400, success := false, errors := req.validationErrors }, db), [])
  else
    match findOne (byEmail req.email) db with
    | some _ => ((userAlreadyExists, db), [])
    | none =>
      if !schemaAccepts env req.name req.email req.password then
        (({ status := 500, success := false, message := some "Server error during registration",
            error := some "User validation failed" }, db), [])
      else
        let (user, db) := User.create env now newId req.name req.email req.password
          ("https://api.dicebear.com/7.x/avataaars/svg?seed=" ++ env.encodeURIComponent req.email)
          db
        let verificationToken := generateRandomToken rng
        let hashedToken := hashToken env verificationToken
        let (user, db) := save env.toEnv now
          [Path.emailVerificationToken, Path.emailVerificationExpire]
          { user with emailVerificationToken := some hashedToken,
                      emailVerificationExpire := some (now + 24 * 60 * 60 * 1000) } db
        match sendVerificationEmail env.mail user.email user.name verificationToken with
        | .ok () =>
          (registerTokens env now user db,
           [MailCall.verification user.email user.name verificationToken])
        | .error _emailError =>
          (registerTokens env now user db,
           [MailCall.verification user.email user.name verificationToken])

/-- The forgot-password handler with the sender calls it makes. -/
def forgotPasswordTraced (env : AuthEnv) (now : Nat) (rng : RandomSource)
    (req : ForgotPasswordRequest) (db : Db) : (Response × Db) × List MailCall :=
  if !req.validationErrors.isEmpty then
    (({ status := 400, success := false, errors := req.validationErrors }, db), [])
  else
    match findOne (byEmail req.email) db with
    | none => ((resetLinkSent, db), [])
    | some user =>
      let resetToken := generateRandomToken rng
      let hashedToken := hashToken env resetToken
      let (user, db) := save env.toEnv now [Path.resetPasswordToken, Path.resetPasswordExpire]
        { user with resetPasswordToken := some hashedToken,
                    resetPasswordExpire := some (now + 60 * 60 * 1000) } db
      match sendPasswordResetEmail env.mail user.email user.name resetToken with
      | .ok () => ((resetLinkSent, db), [MailCall.passwordReset user.email user.name resetToken])
      | .error message =>
        (({ status := 500, success := false,
            message := some "Failed to process password reset request",
            error := some message }, db),
         [MailCall.passwordReset user.email user.name resetToken])

/-! ### `POST /api/auth/2fa/disable` -/

/-- The body of 2fa/disable after its validation chain (`password` not empty,
of any JSON type). -/
structure TwoFactorDisableRequest where
  validationErrors : List String
  password : BodyValue
deriving DecidableEq, Repr

def invalidPassword : Response :=
  { status := 401, success := false, message := some "Invalid password" }

def twoFactorDisabledResponse : Response :=
  { status := 200, success := true, message := some "2FA disabled successfully" }

/-- The handler of `POST /api/auth/2fa/disable`; `reqUser` is `req.user`, from
which only the `_id` is read: the document is loaded again with its password.
When no document has that `_id`, the call on `null` throws and the handler
answers 500. -/
def twoFactorDisable (env : AuthEnv) (now : Nat) (req : TwoFactorDisableRequest)
    (reqUser : User) (db : Db) : Response × Db :=
  if !req.validationErrors.isEmpty then
    ({ status := 400, success := false, errors := req.validationErrors }, db)
  else
    match findOne (byId reqUser._id) db with
    | none =>
      ({ status := 500, success := false, message := some "Failed to disable 2FA",
         error := some "Cannot read properties of null" }, db)
    | some user =>
      match user.comparePassword env.toEnv req.password with
      | .error message =>
        -- caught by the handler
        ({ status := 500, success := false, message := some "Failed to disable 2FA",
           error := some message }, db)
      | .ok isMatch =>
        if !isMatch then
          (invalidPassword, db)
        else
          let (_, db) := save env.toEnv now
            [Path.twoFactorEnabled, Path.twoFactorSecret, Path.twoFactorBackupCodes]
            { user with twoFactorEnabled := false, twoFactorSecret := none,
                        twoFactorBackupCodes := none } db
          (twoFactorDisabledResponse, db)

/-! ## The auth operations as one transition system -/

/-- A request to one of the twelve auth operations, with what the handler
reads besides the store: the request body, `req.user`, the random stream and
the `_id` of a new document. -/
inductive AuthOp where
  | register (rng : RandomSource) (newId : Nat) (req : RegisterRequest)
  | login (req : LoginRequest)
  | refreshToken (req : RefreshRequest)
  | updateProfile (rng : RandomSource) (req : ProfileRequest) (user : User)
  | logout (user : User)
  | verifyEmail (token : String)
  | resendVerification (rng : RandomSource) (user : User)
  | forgotPassword (rng : RandomSource) (req : ForgotPasswordRequest)
  | resetPassword (req : ResetPasswordRequest)
  | twoFactorSetup (rng : RandomSource) (user : User)
  | twoFactorVerify (req : TwoFactorVerifyRequest) (user : User)
  | twoFactorDisable (req : TwoFactorDisableRequest) (user : User)

/-- Runs an operation at the instant `now`. -/
def AuthOp.run (env : AuthEnv) (now : Nat) : AuthOp → Db → Response × Db
  | .register rng newId req, db => Shiksha.register env now rng newId req db
  | .login req, db => Shiksha.login env.toEnv now req db
  | .refreshToken req, db => refreshTokenRoute env now req db
  | .updateProfile rng req user, db => Shiksha.updateProfile env now rng req user db
  | .logout user, db => Shiksha.logout env now user db
  | .verifyEmail token, db => Shiksha.verifyEmail env now token db
  | .resendVerification rng user, db => Shiksha.resendVerification env now rng user db
  | .forgotPassword rng req, db => Shiksha.forgotPassword env now rng req db
  | .resetPassword req, db => Shiksha.resetPassword env now req db
  | .twoFactorSetup rng user, db => Shiksha.twoFactorSetup env now rng user db
  | .twoFactorVerify req user, db => Shiksha.twoFactorVerify env now req user db
  | .twoFactorDisable req user, db => Shiksha.twoFactorDisable env now req user db

/-! ## Notions used in the statements -/

/-- The response of a successful login of `user` at `now`. -/
def loginSuccessful (env : Env) (now : Nat) (user : User) : Response :=
  { status := 200, success := true, message := some "Login successful",
    user := some { id := user._id, name := user.name, email := user.email,
                   avatar := user.avatar, role := user.role,
                   isEmailVerified := user.isEmailVerified,
                   twoFactorEnabled := some user.twoFactorEnabled },
    accessToken := some (generateAccessToken env now user._id),
    refreshToken := some (generateRefreshToken env now user._id) }

/-- What the tail of a successful login (lines 201 to 211) writes to the
stored document of the account `id`. -/
def loginSuccessWrite (env : Env) (now id : Nat) (stored : User) : User :=
  { stored with
    loginAttempts := 0, lockUntil := none, lastLogin := some now,
    refreshToken := some (generateRefreshToken env now id) }

/-- What an accepted reset-password writes to the stored document: `password`
is `req.body.password` and `loaded` the password hash of the loaded document.
The hook hashes the new password unless it is the loaded value itself, in
which case the path is not modified and the stored hash stays. -/
def resetWrite (env : AuthEnv) (now : Nat) (password loaded : String) (stored : User) : User :=
  { stored with
    password := if password = loaded then stored.password
                else env.bcryptHash password (env.bcryptGenSalt now),
    resetPasswordToken := none, resetPasswordExpire := none, refreshToken := none }

/-- A response that logs the caller in: status 200 with both tokens. -/
def loggedIn (r : Response) : Bool :=
  r.status == 200 && r.success && r.accessToken.isSome && r.refreshToken.isSome

/-- Runs login requests one after another, each at its own time, and returns
the store they leave. -/
def loginSequence (env : Env) : List (Nat × LoginRequest) → Db → Db
  | [], db => db
  | (now, req) :: rest, db => loginSequence env rest (login env now req db).2

/-- A well-formed login request for the account `u` that carries a password
which `comparePassword` rejects. -/
def WrongPassword (env : Env) (u : User) (req : LoginRequest) : Prop :=
  req.validationErrors = [] ∧ req.email = u.email ∧
    u.comparePassword env req.password = .ok false

instance (env : Env) (u : User) (req : LoginRequest) : Decidable (WrongPassword env u req) := by
  unfold WrongPassword; infer_instance

/-- A well-formed login request for the account `u` that carries a password
which `comparePassword` accepts. -/
def CorrectPassword (env : Env) (u : User) (req : LoginRequest) : Prop :=
  req.validationErrors = [] ∧ req.email = u.email ∧
    u.comparePassword env req.password = .ok true

instance (env : Env) (u : User) (req : LoginRequest) : Decidable (CorrectPassword env u req) := by
  unfold CorrectPassword; infer_instance

/-- The document `user` is what the `protect` middleware loaded for the
account stored as `stored`: the stored document, with or without its
`password` path. -/
def LoadedFrom (user stored : User) : Prop :=
  user = { stored with password := user.password }

instance (user stored : User) : Decidable (LoadedFrom user stored) := by
  unfold LoadedFrom; infer_instance

/-- The refresh token `r` names the account `id`: whenever it passes
`jwt.verify` under the refresh secret, its payload carries that id. -/
def NamesAccount (env : AuthEnv) (r : String) (id : Nat) : Prop :=
  ∀ now decoded, env.jwtVerify r env.JWT_REFRESH_SECRET now = some decoded → decoded = id

/-- The document that `User.create` inserts. -/
def createdDocument (env : AuthEnv) (now newId : Nat) (name email password avatar : String) :
    User :=
  { _id := newId, name := name, email := email,
    password := env.bcryptHash password (env.bcryptGenSalt now), avatar := avatar,
    role := "user", isEmailVerified := false,
    emailVerificationToken := none, emailVerificationExpire := none,
    resetPasswordToken := none, resetPasswordExpire := none,
    twoFactorSecret := none, twoFactorEnabled := false, twoFactorBackupCodes := some [],
    googleId := none, githubId := none, refreshToken := none, lastLogin := none,
    loginAttempts := 0, lockUntil := none,
    preferences := { emailNotifications := true, courseUpdates := true },
    wishlist := [], cart := [] }

/-- The account that a successful registration leaves in the store. -/
def registeredAccount (env : AuthEnv) (now : Nat) (rng : RandomSource) (newId : Nat)
    (req : RegisterRequest) : User :=
  { _id := newId, name := req.name, email := req.email,
    password := env.bcryptHash req.password (env.bcryptGenSalt now),
    avatar := "https://api.dicebear.com/7.x/avataaars/svg?seed=" ++ env.encodeURIComponent req.email,
    role := "user", isEmailVerified := false,
    emailVerificationToken := some (hashToken env (generateRandomToken rng)),
    emailVerificationExpire := some (now + 86400000),
    resetPasswordToken := none, resetPasswordExpire := none,
    twoFactorSecret := none, twoFactorEnabled := false, twoFactorBackupCodes := some [],
    googleId := none, githubId := none,
    refreshToken := some (generateRefreshToken env.toEnv now newId), lastLogin := none,
    loginAttempts := 0, lockUntil := none,
    preferences := { emailNotifications := true, courseUpdates := true },
    wishlist := [], cart := [] }

/-- The response of a successful registration. -/
def registered (env : AuthEnv) (now newId : Nat) (req : RegisterRequest) : Response :=
  { status := 201, success := true,
    message := some
      "User registered successfully. Please check your email to verify your account.",
    user := some { id := newId, name := req.name, email := req.email,
                   avatar := "https://api.dicebear.com/7.x/avataaars/svg?seed="
                     ++ env.encodeURIComponent req.email,
                   role := "user", isEmailVerified := false, twoFactorEnabled := none },
    accessToken := some (generateAccessToken env.toEnv now newId),
    refreshToken := some (generateRefreshToken env.toEnv now newId) }

/-- The 2FA invariant on one account: an enabled account has its secret. -/
def TwoFactorOk (u : User) : Prop :=
  u.twoFactorEnabled = true → u.twoFactorSecret ≠ none

instance (u : User) : Decidable (TwoFactorOk u) := by
  unfold TwoFactorOk; infer_instance

/-- The 2FA invariant on the store. -/
def TwoFactorInv (db : Db) : Prop :=
  ∀ u ∈ db, TwoFactorOk u

instance (db : Db) : Decidable (TwoFactorInv db) := by
  unfold TwoFactorInv; infer_instance

/-- What the driver and the `protect` middleware guarantee about an operation:
the `_id` of a new document is fresh, and `req.user` was loaded from the store. -/
def AuthOp.Admissible (db : Db) : AuthOp → Prop
  | .register _ newId _ => ∀ v ∈ db, v._id ≠ newId
  | .updateProfile _ _ user => ∃ stored, findOne (byId stored._id) db = some stored ∧ LoadedFrom user stored
  | .logout user => ∃ stored, findOne (byId stored._id) db = some stored ∧ LoadedFrom user stored
  | .resendVerification _ user => ∃ stored, findOne (byId stored._id) db = some stored ∧ LoadedFrom user stored
  | .twoFactorSetup _ user => ∃ stored, findOne (byId stored._id) db = some stored ∧ LoadedFrom user stored
  | .twoFactorVerify _ user => ∃ stored, findOne (byId stored._id) db = some stored ∧ LoadedFrom user stored
  | .twoFactorDisable _ user => ∃ stored, findOne (byId stored._id) db = some stored ∧ LoadedFrom user stored
  | _ => True

/-- The operations that set a password: register and reset-password. -/
def AuthOp.setsPassword : AuthOp → Bool
  | .register _ _ _ => true
  | .resetPassword _ => true
  | _ => false

def AuthOp.isLogin : AuthOp → Bool
  | .login _ => true
  | _ => false

/-- What an operation may do to the one stored document it writes to: the
`_id` stays; the password hash stays unless the operation sets a password; the
lockout paths stay unless the operation is a login on an account that is not
locked; the 2FA invariant is kept. -/
structure Frame (now : Nat) (op : AuthOp) (s s1 : User) : Prop where
  id : s1._id = s._id
  password : op.setsPassword = false → s1.password = s.password
  lock : (s1.lockUntil = s.lockUntil ∧ s1.loginAttempts = s.loginAttempts) ∨
    (op.isLogin = true ∧ s.isLocked now = false)
  twoFactor : TwoFactorOk s → TwoFactorOk s1

/-- The three shapes of the store after an operation: unchanged, one document
rewritten within its frame, or one registered account added. -/
def Effect (env : AuthEnv) (now : Nat) (op : AuthOp) (db db1 : Db) : Prop :=
  db1 = db ∨
  (∃ (target : User) (f : User → User), findOne (byId target._id) db = some target ∧
    db1 = updateOne target._id f db ∧ Frame now op target (f target)) ∨
  (∃ rng newId req, op = AuthOp.register rng newId req ∧ (∀ v ∈ db, v._id ≠ newId) ∧
    db1 = db ++ [registeredAccount env now rng newId req])

/-- A call of one of the two lockout methods on a freshly loaded account:
`incLoginAttempts` at some instant, or `resetLoginAttempts`. -/
inductive LockCall where
  | inc (now : Nat)
  | reset
deriving DecidableEq, Repr

/-- The account after a lockout call. -/
def LockCall.apply (c : LockCall) (u : User) : User :=
  match c with
  | .inc now => (u.incLoginAttemptsUpdate now).apply u
  | .reset => u.resetLoginAttemptsUpdate.apply u

/-- The account after a sequence of lockout calls, applied one after another. -/
def runLockCalls : List LockCall → User → User
  | [], u => u
  | c :: rest, u => runLockCalls rest (c.apply u)

/-- The characters `0-9` and `A-F`. -/
def isUpperHex (c : Char) : Bool :=
  ('0' ≤ c && c ≤ '9') || ('A' ≤ c && c ≤ 'F')

/-! ## Sample data -/

/-- The account of the scenario of the specification, just registered. -/
def alice : User :=
  { _id := 1, name := "Alice", email := "alice@x.com", password := "hash(secret1)",
    avatar := "https://api.dicebear.com/7.x/avataaars/svg?seed=alice%40x.com",
    role := "user", isEmailVerified := false,
    emailVerificationToken := none, emailVerificationExpire := none,
    resetPasswordToken := none, resetPasswordExpire := none,
    twoFactorSecret := none, twoFactorEnabled := false, twoFactorBackupCodes := some [],
    googleId := none, githubId := none, refreshToken := none, lastLogin := none,
    loginAttempts := 0, lockUntil := none,
    preferences := { emailNotifications := true, courseUpdates := true },
    wishlist := [], cart := [] }

/-- A toy environment: the hash of `p` is `hash(p)`, tokens are constant
strings and no TOTP code is ever accepted. -/
def toyEnv : Env :=
  { bcryptCompare := fun candidate hash => hash == "hash(" ++ candidate ++ ")",
    bcryptCompareError := fun json => "Illegal arguments: " ++ json ++ ", string",
    bcryptHash := fun plaintext _ => "hash(" ++ plaintext ++ ")",
    bcryptGenSalt := fun _ => "salt",
    jwtSign := fun _ secret _ _ => "jwt-" ++ secret,
    totpVerify := fun _ _ _ => false,
    JWT_SECRET := "access", JWT_REFRESH_SECRET := "refresh",
    JWT_EXPIRE := none, JWT_REFRESH_EXPIRE := none }

/-- A login request of Alice with a wrong password. -/
def wrongLogin : LoginRequest :=
  { validationErrors := [], email := "alice@x.com", password := .string "guess",
    twoFactorCode := none }

/-- A login request of Alice with her password. -/
def aliceLogin : LoginRequest :=
  { validationErrors := [], email := "alice@x.com", password := .string "secret1",
    twoFactorCode := none }

/-- Alice, locked until the instant 7,205,000. -/
def lockedAlice : User :=
  { alice with loginAttempts := 5, lockUntil := some 7205000 }

/-- A random source whose first eight draws are the byte 0xAB, so that the
first two backup codes drawn from it collide; from then on the draw at
position `k` is `k`. -/
def collidingSource : RandomSource := fun k => if k < 8 then 171 else k

/-- Alice with 2FA enabled, her backup codes drawn from `collidingSource` by
`generateBackupCodes`, as the 2FA setup does. -/
def twoFactorAlice : User :=
  { alice with
    twoFactorEnabled := true, twoFactorSecret := some "JBSWY3DPEHPK3PXP",
    twoFactorBackupCodes := some (generateBackupCodes collidingSource) }

/-- A login request of Alice with her password and the backup code `ABABABAB`. -/
def backupLogin : LoginRequest :=
  { validationErrors := [], email := "alice@x.com", password := .string "secret1",
    twoFactorCode := some "ABABABAB" }

/-- A mailer without settings: the senders skip the mail. -/
def silentMailer : Mailer :=
  { EMAIL_USER := none, EMAIL_PASSWORD := none, NODE_ENV := none,
    createTransporter := .ok (), sendMail := fun _ _ _ => .ok () }

/-- A configured mailer in production whose `sendMail` is rejected. -/
def failingMailer : Mailer :=
  { EMAIL_USER := some "mailer@x.com", EMAIL_PASSWORD := some "app-password",
    NODE_ENV := some "production",
    createTransporter := .ok (), sendMail := fun _ _ _ => .error "connect ECONNREFUSED" }

/-- A toy environment of the router: a refresh token is accepted when it is
the one `toyEnv` signs and then names the account 1; the hash of `t` is
`sha256(t)`; no mail is configured. -/
def toyAuthEnv : AuthEnv :=
  { toEnv := toyEnv,
    jwtVerify := fun token secret _ => if token == "jwt-" ++ secret then some 1 else none,
    sha256Hex := fun s => "sha256(" ++ s ++ ")",
    speakeasyGenerateSecret := fun name _ =>
      { base32 := "JBSWY3DPEHPK3PXP", otpauth_url := "otpauth://totp/" ++ name },
    qrCodeToDataURL := fun url => "data:image/png;base64," ++ url,
    encodeURIComponent := fun s => s,
    emailMatch := fun _ => true,
    mail := silentMailer }

/-- Alice after a login: she holds the refresh token of `toyEnv`. -/
def loggedInAlice : User :=
  { alice with refreshToken := some "jwt-refresh", lastLogin := some 1000 }

/-- Alice with a pending verification token `v` (until 90,000,000) and a
pending reset token `r` (until 4,000,000). -/
def pendingAlice : User :=
  { loggedInAlice with
    emailVerificationToken := some "sha256(v)", emailVerificationExpire := some 90000000,
    resetPasswordToken := some "sha256(r)", resetPasswordExpire := some 4000000 }

/-- A second account, Bob. -/
def bob : User :=
  { alice with _id := 2, name := "Bob", email := "bob@x.com", password := "hash(hunter22)" }

/-- A reset-password request with the token `r` and the new password `newpass1`. -/
def resetRequest : ResetPasswordRequest :=
  { validationErrors := [], token := "r", password := "newpass1" }

/-- The registration of the scenario of the specification. -/
def aliceRegistration : RegisterRequest :=
  { validationErrors := [], name := "Alice", email := "alice@x.com", password := "secret1" }

/-- A forgot-password request for the address of Alice. -/
def aliceForgot : ForgotPasswordRequest :=
  { validationErrors := [], email := "alice@x.com" }

/-- A configured mailer, outside production, whose transporter cannot be
created: the call `nodemailer.createTransporter` throws. -/
def brokenTransportMailer : Mailer :=
  { EMAIL_USER := some "mailer@x.com", EMAIL_PASSWORD := some "app-password",
    NODE_ENV := some "development",
    createTransporter := .error "nodemailer.createTransporter is not a function",
    sendMail := fun _ _ _ => .ok () }

/-- The toy environment in production, with the failing mailer. -/
def failingAuthEnv : AuthEnv :=
  { toyAuthEnv with mail := failingMailer }

/-- A login request of Alice with the password `newpass1`. -/
def newPasswordLogin : LoginRequest :=
  { validationErrors := [], email := "alice@x.com", password := .string "newpass1",
    twoFactorCode := none }

/-- A 2fa/verify request with the code `123456`. -/
def verifyRequest : TwoFactorVerifyRequest :=
  { validationErrors := [], code := "123456" }

/-- Alice after 2fa/setup and before 2fa/verify. -/
def setupAlice : User :=
  { twoFactorAlice with twoFactorEnabled := false }

/-- A 2fa/disable request with the password of Alice. -/
def disableRequest : TwoFactorDisableRequest :=
  { validationErrors := [], password := .string "secret1" }

/-- A profile update that changes the address of Alice. -/
def emailChange : ProfileRequest :=
  { validationErrors := [], name := none, email := some "alice@y.com" }

/-- A login request of Alice whose password is the JSON number `123456`. -/
def numberLogin : LoginRequest :=
  { validationErrors := [], email := "alice@x.com", password := .other "123456",
    twoFactorCode := none }

/-- A password of 73 characters: 72 times `a`, then `last`. -/
def longPassword (last : Char) : String :=
  String.mk (List.replicate 72 'a' ++ [last])

/-- An environment whose bcrypt reads the first 72 characters of a password
and no more, the way bcryptjs reads the first 72 bytes: the hash of `p` is
`hash(` the first 72 characters of `p` `)`. -/
def truncatingEnv : Env :=
  { toyEnv with
    bcryptCompare := fun candidate hash =>
      hash == "hash(" ++ String.mk (candidate.data.take 72) ++ ")",
    bcryptHash := fun plaintext _ => "hash(" ++ String.mk (plaintext.data.take 72) ++ ")" }

/-- The toy environment of the router with the bcrypt of `truncatingEnv`. -/
def truncatingAuthEnv : AuthEnv :=
  { toyAuthEnv with toEnv := truncatingEnv }

/-- The registration of Alice with the password `longPassword 'X'`. -/
def longRegistration : RegisterRequest :=
  { aliceRegistration with password := longPassword 'X' }

/-- Alice with the password `longPassword 'X'`, as `truncatingEnv` hashes it,
and the pending tokens of `pendingAlice`. -/
def longAlice : User :=
  { pendingAlice with password := truncatingEnv.bcryptHash (longPassword 'X') "salt" }

/-- A reset-password request with the token `r` and the new password
`longPassword 'Y'`. -/
def longReset : ResetPasswordRequest :=
  { validationErrors := [], token := "r", password := longPassword 'Y' }

/-- A reset-password request with the token `r` whose new password is the
stored password hash of Alice. -/
def hashReset : ResetPasswordRequest :=
  { validationErrors := [], token := "r", password := "hash(secret1)" }

/-! ## Lemmas on the store -/

theorem updateOne_map_id (id : Nat) (f : User → User) (hf : ∀ s, (f s)._id = s._id) (db : Db) :
    (updateOne id f db).map (fun u => u._id) = db.map (fun u => u._id) := by
  induction db with
  | nil => rfl
  | cons x xs ih =>
    by_cases hx : x._id = id
    · simp [updateOne, hx, hf]
    · simp [updateOne, hx, ih]

theorem uniqueIds_updateOne (id : Nat) (f : User → User) (hf : ∀ s, (f s)._id = s._id) (db : Db)
    (h : UniqueIds db) : UniqueIds (updateOne id f db) := by
  unfold UniqueIds at *
  rw [updateOne_map_id id f hf db]
  exact h

theorem updateOne_updateOne (id : Nat) (f g : User → User) (hf : ∀ s, (f s)._id = s._id) (db : Db) :
    updateOne id g (updateOne id f db) = updateOne id (fun s => g (f s)) db := by
  induction db with
  | nil => rfl
  | cons x xs ih =>
    by_cases hx : x._id = id
    · simp [updateOne, hx, hf]
    · simp [updateOne, hx, ih]

theorem findOne_mem (p : User → Bool) (db : Db) (u : User) (h : findOne p db = some u) :
    u ∈ db ∧ p u = true := by
  unfold findOne at h
  exact ⟨List.mem_of_find?_eq_some h, List.find?_some h⟩

/-- A write that keeps the filter's verdict on every document is seen by the
next `findOne` with the same filter. -/
theorem findOne_updateOne (p : User → Bool) (f : User → User) (hp : ∀ s, p (f s) = p s)
    (db : Db) (u : User) (hdb : UniqueIds db) (h : findOne p db = some u) :
    findOne p (updateOne u._id f db) = some (f u) := by
  induction db with
  | nil => simp [findOne] at h
  | cons x xs ih =>
    have hnd : x._id ∉ xs.map (fun u => u._id) ∧ UniqueIds xs := by
      simpa [UniqueIds] using hdb
    by_cases hx : p x = true
    · have hxu : x = u := by simpa [findOne, List.find?, hx] using h
      subst hxu
      simp [updateOne, findOne, List.find?, hp, hx]
    · have hxs : findOne p xs = some u := by simpa [findOne, List.find?, hx] using h
      have hmem : u ∈ xs := (findOne_mem p xs u hxs).1
      have hne : x._id ≠ u._id := by
        intro e
        exact hnd.1 (e ▸ List.mem_map_of_mem (fun u => u._id) hmem)
      have ih2 := ih hnd.2 hxs
      simp only [findOne] at ih2
      simp [updateOne, hne, findOne, List.find?, hx, ih2]

/-! ## The lockout guard -/

/-- C4: for every account and every time now, isLocked returns true if and
only if lockUntil is set and strictly later than now; it returns false when
lockUntil is absent. -/
theorem isLocked_iff_lockUntil_in_future (u : User) (now : Nat) :
    (u.isLocked now = true ↔ ∃ t, u.lockUntil = some t ∧ now < t) ∧
    (u.lockUntil = none → u.isLocked now = false) := by
  unfold User.isLocked
  cases h : u.lockUntil with
  | none => simp
  | some t => simp

/-- C5: when lockUntil is set and earlier than now, incLoginAttempts sets
loginAttempts to exactly 1, whatever it was, removes lockUntil and changes
no other field: this is what its update does to any stored document, and the
write rewrites the document of that account only. -/
theorem incLoginAttempts_expired_lock (u : User) (now t : Nat)
    (hset : u.lockUntil = some t) (hpast : t < now) :
    (∀ stored : User, (u.incLoginAttemptsUpdate now).apply stored
        = { stored with loginAttempts := 1, lockUntil := none }) ∧
    (u.incLoginAttemptsUpdate now).apply u = { u with loginAttempts := 1, lockUntil := none } ∧
    (∀ db : Db, u.incLoginAttempts now db
        = updateOne u._id (fun s => { s with loginAttempts := 1, lockUntil := none }) db) := by
  have key : ∀ stored : User, (u.incLoginAttemptsUpdate now).apply stored
      = { stored with loginAttempts := 1, lockUntil := none } := by
    intro stored
    simp [User.incLoginAttemptsUpdate, Update.apply, hset, hpast]
  refine ⟨key, key u, ?_⟩
  intro db
  unfold User.incLoginAttempts
  congr 1
  funext s
  exact key s

theorem incLoginAttempts_expired_lock_witness :
    ({ alice with loginAttempts := 7, lockUntil := some 10 } : User).lockUntil = some 10 ∧ 10 < 11 ∧
    (({ alice with loginAttempts := 7, lockUntil := some 10 } : User).incLoginAttemptsUpdate 11).apply
        { alice with loginAttempts := 7, lockUntil := some 10 }
      = { alice with loginAttempts := 1, lockUntil := none } :=
  ⟨rfl, by decide,
    (incLoginAttempts_expired_lock { alice with loginAttempts := 7, lockUntil := some 10 }
      11 10 rfl (by decide)).2.1⟩

/-- C6: when lockUntil is absent or not earlier than now, incLoginAttempts
adds exactly 1 to loginAttempts, and it sets lockUntil to now + 7,200,000 ms
exactly when the incremented count is at least 5 and the account is not locked
at now; otherwise lockUntil keeps its value.  No other field changes. -/
theorem incLoginAttempts_increments (u : User) (now : Nat)
    (h : u.lockUntil = none ∨ ∃ t, u.lockUntil = some t ∧ now ≤ t) :
    (u.incLoginAttemptsUpdate now).apply u
      = { u with
          loginAttempts := u.loginAttempts + 1,
          lockUntil := if 5 ≤ u.loginAttempts + 1 ∧ u.isLocked now = false
                       then some (now + 7200000) else u.lockUntil } ∧
    (∀ db : Db, u.incLoginAttempts now db
      = updateOne u._id (fun s => { s with
          loginAttempts := s.loginAttempts + 1,
          lockUntil := if 5 ≤ u.loginAttempts + 1 ∧ u.isLocked now = false
                       then some (now + 7200000) else s.lockUntil }) db) := by
  have hexp : (match u.lockUntil with
      | none => false
      | some lockUntil => decide (lockUntil < now)) = false := by
    rcases h with h | ⟨t, h, ht⟩
    · simp [h]
    · simp [h, ht]
  have key : ∀ stored : User, (u.incLoginAttemptsUpdate now).apply stored
      = { stored with
          loginAttempts := stored.loginAttempts + 1,
          lockUntil := if 5 ≤ u.loginAttempts + 1 ∧ u.isLocked now = false
                       then some (now + 7200000) else stored.lockUntil } := by
    intro stored
    unfold User.incLoginAttemptsUpdate
    simp only [hexp]
    by_cases hc : 5 ≤ u.loginAttempts + 1 ∧ u.isLocked now = false
    · have hc1 := hc.1
      have hc2 := hc.2
      simp [Update.apply, maxAttempts, lockTime, hc1, hc2]
    · have : ¬ (4 ≤ u.loginAttempts ∧ u.isLocked now = false) := by
        intro h4; exact hc ⟨by omega, h4.2⟩
      simp [Update.apply, maxAttempts, hc, this]
  refine ⟨key u, ?_⟩
  intro db
  unfold User.incLoginAttempts
  congr 1
  funext s
  exact key s

theorem incLoginAttempts_increments_witness :
    (({ alice with loginAttempts := 4 } : User).lockUntil = none ∨
      ∃ t, ({ alice with loginAttempts := 4 } : User).lockUntil = some t ∧ 1000 ≤ t) ∧
    (({ alice with loginAttempts := 4 } : User).incLoginAttemptsUpdate 1000).apply
        { alice with loginAttempts := 4 }
      = { alice with loginAttempts := 5, lockUntil := some 7201000 } :=
  ⟨Or.inl rfl,
    (incLoginAttempts_increments { alice with loginAttempts := 4 } 1000 (Or.inl rfl)).1.trans
      (by decide)⟩

/-! ## Lemmas on the login handler -/

theorem indexOf_eq_none (xs : List String) (s : String) : indexOf xs s = none ↔ s ∉ xs := by
  induction xs with
  | nil => simp [indexOf]
  | cons x xs ih =>
    by_cases hx : x = s
    · simp [indexOf, hx]
    · have hx2 : ¬ s = x := fun e => hx e.symm
      simp [indexOf, hx, hx2, ih]

theorem splice1_indexOf (xs : List String) (s : String) (i : Nat) (h : indexOf xs s = some i) :
    splice1 xs i = xs.erase s := by
  induction xs generalizing i with
  | nil => simp [indexOf] at h
  | cons x xs ih =>
    by_cases hx : x = s
    · have hi : i = 0 := by simpa [indexOf, hx] using h.symm
      subst hi
      simp [splice1, hx]
    · simp only [indexOf, hx, if_false] at h
      cases hj : indexOf xs s with
      | none => simp [hj] at h
      | some j =>
        have hi : i = j + 1 := by simpa [hj] using h.symm
        subst hi
        have hbeq : (x == s) = false := by simpa using hx
        simp [splice1, List.erase_cons, hbeq, ih j hj]

theorem login_invalid_request (env : Env) (now : Nat) (req : LoginRequest) (db : Db)
    (hv : req.validationErrors ≠ []) :
    login env now req db
      = ({ status := 400, success := false, errors := req.validationErrors }, db) := by
  simp [login, hv]

theorem login_absent (env : Env) (now : Nat) (req : LoginRequest) (db : Db)
    (hv : req.validationErrors = []) (hfind : findOne (byEmail req.email) db = none) :
    login env now req db = (invalidCredentials, db) := by
  simp [login, hv, hfind]

theorem login_locked (env : Env) (now : Nat) (req : LoginRequest) (db : Db) (u : User)
    (hv : req.validationErrors = []) (hfind : findOne (byEmail req.email) db = some u)
    (hlock : u.isLocked now = true) :
    login env now req db = (accountLocked, db) := by
  simp [login, hv, hfind, hlock]

theorem login_wrong_password (env : Env) (now : Nat) (req : LoginRequest) (db : Db) (u : User)
    (hv : req.validationErrors = []) (hfind : findOne (byEmail req.email) db = some u)
    (hlock : u.isLocked now = false) (hpw : u.comparePassword env req.password = .ok false) :
    login env now req db = (invalidCredentials, u.incLoginAttempts now db) := by
  simp [login, hv, hfind, hlock, hpw]

theorem login_requires_two_factor (env : Env) (now : Nat) (req : LoginRequest) (db : Db) (u : User)
    (hv : req.validationErrors = []) (hfind : findOne (byEmail req.email) db = some u)
    (hlock : u.isLocked now = false) (hpw : u.comparePassword env req.password = .ok true)
    (h2fa : u.twoFactorEnabled = true) (hcode : truthy req.twoFactorCode = false) :
    login env now req db = (requiresTwoFactorResponse, db) := by
  simp [login, twoFactorChallenge, hv, hfind, hlock, hpw, h2fa, hcode]

theorem updateLastLogin_eq (env : Env) (u : User) (now : Nat) (db : Db) :
    u.updateLastLogin env now db
      = ({ u with lastLogin := some now },
         updateOne u._id (fun s => { s with lastLogin := some now }) db) := by
  simp only [User.updateLastLogin, save, preSave, List.mem_singleton, reduceCtorEq, if_false]
  rfl

theorem save_refreshToken_eq (env : Env) (now : Nat) (doc : User) (db : Db) :
    save env now [Path.refreshToken] doc db
      = (doc, updateOne doc._id (fun s => { s with refreshToken := doc.refreshToken }) db) := by
  simp only [save, preSave, List.mem_singleton, reduceCtorEq, if_false]
  rfl

theorem save_twoFactorBackupCodes_eq (env : Env) (now : Nat) (doc : User) (db : Db) :
    save env now [Path.twoFactorBackupCodes] doc db
      = (doc, updateOne doc._id
          (fun s => { s with twoFactorBackupCodes := doc.twoFactorBackupCodes }) db) := by
  simp only [save, preSave, List.mem_singleton, reduceCtorEq, if_false]
  rfl

/-- The tail of the handler, once the credentials are accepted: the three
writes amount to one write of `loginSuccessWrite`. -/
theorem login_tail (env : Env) (now : Nat) (u : User) (db : Db) :
    updateOne u._id (fun s => { s with refreshToken := some (generateRefreshToken env now u._id) })
        (updateOne u._id (fun s => { s with lastLogin := some now }) (u.resetLoginAttempts db))
      = updateOne u._id (loginSuccessWrite env now u._id) db := by
  unfold User.resetLoginAttempts
  rw [updateOne_updateOne u._id u.resetLoginAttemptsUpdate.apply _ (fun s => rfl),
    updateOne_updateOne u._id (fun s => { u.resetLoginAttemptsUpdate.apply s with lastLogin := some now })
      _ (fun s => rfl)]
  rfl

theorem login_success_without_two_factor (env : Env) (now : Nat) (req : LoginRequest) (db : Db)
    (u : User)
    (hv : req.validationErrors = []) (hfind : findOne (byEmail req.email) db = some u)
    (hlock : u.isLocked now = false) (hpw : u.comparePassword env req.password = .ok true)
    (h2fa : u.twoFactorEnabled = false) :
    login env now req db
      = (loginSuccessful env now u, updateOne u._id (loginSuccessWrite env now u._id) db) := by
  simp only [login, twoFactorChallenge, hv, hfind, hlock, hpw, h2fa, List.isEmpty_nil,
    Bool.not_true, Bool.false_eq_true, if_false, Bool.not_false, updateLastLogin_eq,
    save_refreshToken_eq, login_tail]
  simp [loginSuccessful, h2fa]

theorem indexOf_some_length (xs : List String) (s : String) (i : Nat) (h : indexOf xs s = some i) :
    0 < xs.length := by
  cases xs with
  | nil => simp [indexOf] at h
  | cons x xs => simp

theorem login_totp_accepted (env : Env) (now : Nat) (req : LoginRequest) (db : Db) (u : User)
    (code : String)
    (hv : req.validationErrors = []) (hfind : findOne (byEmail req.email) db = some u)
    (hlock : u.isLocked now = false) (hpw : u.comparePassword env req.password = .ok true)
    (h2fa : u.twoFactorEnabled = true) (hcode : req.twoFactorCode = some code) (hne : code ≠ "")
    (htotp : env.totpVerify u.twoFactorSecret code now = true) :
    login env now req db
      = (loginSuccessful env now u, updateOne u._id (loginSuccessWrite env now u._id) db) := by
  have htr : truthy (some code) = true := by simpa [truthy] using hne
  simp only [login, twoFactorChallenge, hv, hfind, hlock, hpw, h2fa, hcode, htr, htotp,
    List.isEmpty_nil, Bool.not_true, Bool.false_eq_true, if_false, if_true, Bool.not_false,
    Bool.false_and, Option.getD_some]
  cases hc : u.twoFactorBackupCodes <;>
    simp [updateLastLogin_eq, save_refreshToken_eq, login_tail, loginSuccessful, h2fa]

theorem login_backup_code_accepted (env : Env) (now : Nat) (req : LoginRequest) (db : Db)
    (u : User) (code : String) (codes : List String) (i : Nat)
    (hv : req.validationErrors = []) (hfind : findOne (byEmail req.email) db = some u)
    (hlock : u.isLocked now = false) (hpw : u.comparePassword env req.password = .ok true)
    (h2fa : u.twoFactorEnabled = true) (hcode : req.twoFactorCode = some code) (hne : code ≠ "")
    (htotp : env.totpVerify u.twoFactorSecret code now = false)
    (hcodes : u.twoFactorBackupCodes = some codes) (hidx : indexOf codes code = some i) :
    login env now req db
      = (loginSuccessful env now u,
         updateOne u._id (fun s => loginSuccessWrite env now u._id
           { s with twoFactorBackupCodes := some (splice1 codes i) }) db) := by
  have htr : truthy (some code) = true := by simpa [truthy] using hne
  have hlen : 0 < codes.length := indexOf_some_length codes code i hidx
  simp only [login, twoFactorChallenge, hv, hfind, hlock, hpw, h2fa, hcode, htr, htotp, hcodes,
    hidx, hlen, List.isEmpty_nil, Bool.not_true, Bool.false_eq_true, if_false, if_true,
    Bool.not_false, Bool.true_and, Option.getD_some, decide_True, gt_iff_lt, Option.isSome_some,
    Bool.and_self, Bool.and_false, save_twoFactorBackupCodes_eq, updateLastLogin_eq,
    save_refreshToken_eq]
  simp only [User.resetLoginAttempts, User.resetLoginAttemptsUpdate]
  simp [updateOne_updateOne, loginSuccessful, loginSuccessWrite, h2fa, Update.apply]

theorem login_two_factor_rejected (env : Env) (now : Nat) (req : LoginRequest) (db : Db)
    (u : User) (code : String)
    (hv : req.validationErrors = []) (hfind : findOne (byEmail req.email) db = some u)
    (hlock : u.isLocked now = false) (hpw : u.comparePassword env req.password = .ok true)
    (h2fa : u.twoFactorEnabled = true) (hcode : req.twoFactorCode = some code) (hne : code ≠ "")
    (htotp : env.totpVerify u.twoFactorSecret code now = false)
    (hcodes : ∀ codes, u.twoFactorBackupCodes = some codes → code ∉ codes) :
    login env now req db = (invalidTwoFactorCode, u.incLoginAttempts now db) := by
  have htr : truthy (some code) = true := by simpa [truthy] using hne
  simp only [login, twoFactorChallenge, hv, hfind, hlock, hpw, h2fa, hcode, htr, htotp,
    List.isEmpty_nil, Bool.not_true, Bool.false_eq_true, if_false, if_true, Bool.not_false,
    Bool.true_and, Option.getD_some]
  cases hc : u.twoFactorBackupCodes with
  | none => simp
  | some codes =>
    have hidx : indexOf codes code = none := (indexOf_eq_none codes code).2 (hcodes codes hc)
    simp [hidx]

theorem isLocked_of_no_lock (v : User) (now : Nat) (hl : v.lockUntil = none) :
    v.isLocked now = false := by
  simp [User.isLocked, hl]

theorem incLoginAttempts_below_threshold (v : User) (now : Nat) (hl : v.lockUntil = none)
    (hk : v.loginAttempts < 4) :
    (v.incLoginAttemptsUpdate now).apply v = { v with loginAttempts := v.loginAttempts + 1 } := by
  have h4 : ¬ (4 ≤ v.loginAttempts) := by omega
  simp [User.incLoginAttemptsUpdate, Update.apply, hl, maxAttempts, h4]

theorem incLoginAttempts_at_threshold (v : User) (now : Nat) (hl : v.lockUntil = none)
    (hk : 4 ≤ v.loginAttempts) :
    (v.incLoginAttemptsUpdate now).apply v
      = { v with loginAttempts := v.loginAttempts + 1, lockUntil := some (now + 7200000) } := by
  simp [User.incLoginAttemptsUpdate, Update.apply, hl, maxAttempts, hk, User.isLocked, lockTime]

/-- One failed login on an unlocked account: the answer is 401 and the store
holds the account after `incLoginAttempts`. -/
theorem failed_login_step (env : Env) (now : Nat) (req : LoginRequest) (db : Db) (u : User)
    (hdb : UniqueIds db) (hfind : findOne (byEmail u.email) db = some u)
    (hreq : WrongPassword env u req) (hlock : u.isLocked now = false) :
    (login env now req db).1 = invalidCredentials ∧
    UniqueIds (login env now req db).2 ∧
    findOne (byEmail u.email) (login env now req db).2
      = some ((u.incLoginAttemptsUpdate now).apply u) := by
  obtain ⟨hv, hemail, hpw⟩ := hreq
  have hfind2 : findOne (byEmail req.email) db = some u := by rw [hemail]; exact hfind
  rw [login_wrong_password env now req db u hv hfind2 hlock hpw]
  refine ⟨rfl, ?_, ?_⟩
  · exact uniqueIds_updateOne u._id (u.incLoginAttemptsUpdate now).apply (fun s => rfl) db hdb
  · exact findOne_updateOne (byEmail u.email) (u.incLoginAttemptsUpdate now).apply
      (fun s => rfl) db u hdb hfind

/-- Failed logins that stay below the threshold only count up. -/
theorem failed_logins_below_threshold (env : Env) (reqs : List (Nat × LoginRequest)) :
    ∀ (db : Db) (u : User), UniqueIds db → findOne (byEmail u.email) db = some u →
      u.lockUntil = none → u.loginAttempts + reqs.length < 5 →
      (∀ p ∈ reqs, WrongPassword env u p.2) →
      UniqueIds (loginSequence env reqs db) ∧
      findOne (byEmail u.email) (loginSequence env reqs db)
        = some { u with loginAttempts := u.loginAttempts + reqs.length } := by
  induction reqs with
  | nil =>
    intro db u hdb hfind _ _ _
    exact ⟨hdb, hfind⟩
  | cons p rest ih =>
    intro db u hdb hfind hl hlen hall
    obtain ⟨now, req⟩ := p
    have hlen2 : u.loginAttempts + (rest.length + 1) < 5 := by simpa using hlen
    have hreq : WrongPassword env u req := hall (now, req) (List.mem_cons_self _ _)
    obtain ⟨-, hdb1, hf1⟩ :=
      failed_login_step env now req db u hdb hfind hreq (isLocked_of_no_lock u now hl)
    rw [incLoginAttempts_below_threshold u now hl (by omega)] at hf1
    have hall2 : ∀ q ∈ rest,
        WrongPassword env ({ u with loginAttempts := u.loginAttempts + 1 } : User) q.2 :=
      fun q hq => hall q (List.mem_cons_of_mem _ hq)
    have := ih (login env now req db).2 { u with loginAttempts := u.loginAttempts + 1 }
      hdb1 hf1 hl (by simp only []; omega) hall2
    refine ⟨this.1, ?_⟩
    have e : u.loginAttempts + 1 + rest.length = u.loginAttempts + (rest.length + 1) := by omega
    simpa [loginSequence, e] using this.2

/-! ## Login: lockout -/

/-- C1: starting from an account with loginAttempts = 0 and no lockUntil,
after five consecutive login requests with a wrong password (at any times t1
to t5) the stored account has lockUntil = t5 + 2 hours, so isLocked is true at
every time before that, and a sixth login request inside that window, with
any password and any 2FA code, gets the 423 lockout response without tokens
and leaves the store as it is. -/
theorem five_failed_logins_lock_account (env : Env) (db : Db) (u : User)
    (r1 r2 r3 r4 r5 : LoginRequest) (t1 t2 t3 t4 t5 : Nat)
    (hdb : UniqueIds db) (hfind : findOne (byEmail u.email) db = some u)
    (hattempts : u.loginAttempts = 0) (hnolock : u.lockUntil = none)
    (h1 : WrongPassword env u r1) (h2 : WrongPassword env u r2) (h3 : WrongPassword env u r3)
    (h4 : WrongPassword env u r4) (h5 : WrongPassword env u r5) :
    (∃ u5, findOne (byEmail u.email)
          (loginSequence env [(t1, r1), (t2, r2), (t3, r3), (t4, r4), (t5, r5)] db) = some u5 ∧
        u5.lockUntil = some (t5 + 7200000) ∧
        ∀ t, t < t5 + 7200000 → u5.isLocked t = true) ∧
    (∀ (r6 : LoginRequest) (t6 : Nat), r6.validationErrors = [] → r6.email = u.email →
        t6 < t5 + 7200000 →
        login env t6 r6 (loginSequence env [(t1, r1), (t2, r2), (t3, r3), (t4, r4), (t5, r5)] db)
          = (accountLocked,
             loginSequence env [(t1, r1), (t2, r2), (t3, r3), (t4, r4), (t5, r5)] db)) ∧
    accountLocked.status = 423 ∧ accountLocked.accessToken = none ∧
    accountLocked.refreshToken = none := by
  -- the first four failures only count up
  have hall : ∀ p ∈ [(t1, r1), (t2, r2), (t3, r3), (t4, r4)], WrongPassword env u p.2 := by
    intro p hp
    simp only [List.mem_cons, List.mem_singleton, List.not_mem_nil, or_false] at hp
    rcases hp with rfl | rfl | rfl | rfl <;> assumption
  obtain ⟨hdb4, hf4⟩ := failed_logins_below_threshold env
    [(t1, r1), (t2, r2), (t3, r3), (t4, r4)] db u hdb hfind hnolock
    (by simp [hattempts]) hall
  -- the fifth one sets the lock
  have h5v : WrongPassword env ({ u with loginAttempts := u.loginAttempts + 4 } : User) r5 := h5
  obtain ⟨-, -, hf5⟩ := failed_login_step env t5 r5 _
    { u with loginAttempts := u.loginAttempts + 4 } hdb4 hf4 h5v
    (isLocked_of_no_lock _ t5 hnolock)
  have hthr := incLoginAttempts_at_threshold
    ({ u with loginAttempts := u.loginAttempts + 4 } : User) t5 hnolock (by simp)
  have hf5b : findOne (byEmail u.email)
      (login env t5 r5 (loginSequence env [(t1, r1), (t2, r2), (t3, r3), (t4, r4)] db)).2
      = some ({ u with loginAttempts := u.loginAttempts + 4 + 1,
                       lockUntil := some (t5 + 7200000) } : User) :=
    hf5.trans (congrArg some hthr)
  have hseq : loginSequence env [(t1, r1), (t2, r2), (t3, r3), (t4, r4), (t5, r5)] db
      = (login env t5 r5 (loginSequence env [(t1, r1), (t2, r2), (t3, r3), (t4, r4)] db)).2 := by
    simp [loginSequence]
  rw [hseq]
  have hlocked : ∀ t, t < t5 + 7200000 →
      ({ u with loginAttempts := u.loginAttempts + 4 + 1,
                lockUntil := some (t5 + 7200000) } : User).isLocked t = true := by
    intro t ht
    simp [User.isLocked, ht]
  refine ⟨⟨_, hf5b, rfl, hlocked⟩, ?_, rfl, rfl, rfl⟩
  intro r6 t6 hv hemail ht6
  exact login_locked env t6 r6 _ _ hv (by rw [hemail]; exact hf5b) (hlocked t6 ht6)

theorem five_failed_logins_lock_account_witness :
    login toyEnv 6000 aliceLogin
        (loginSequence toyEnv
          [(1000, wrongLogin), (2000, wrongLogin), (3000, wrongLogin), (4000, wrongLogin),
           (5000, wrongLogin)] [alice])
      = (accountLocked,
         loginSequence toyEnv
          [(1000, wrongLogin), (2000, wrongLogin), (3000, wrongLogin), (4000, wrongLogin),
           (5000, wrongLogin)] [alice]) :=
  (five_failed_logins_lock_account toyEnv [alice] alice
      wrongLogin wrongLogin wrongLogin wrongLogin wrongLogin 1000 2000 3000 4000 5000
      (by decide) (by decide) rfl rfl (by decide) (by decide) (by decide) (by decide)
      (by decide)).2.1 aliceLogin 6000 rfl rfl (by decide)

/-- C3: for every account whose lockUntil is in the future, whatever the
password and the twoFactorCode, login answers 423 with the lockout message,
issues no tokens and leaves the store, hence every field of the stored
account, unchanged. -/
theorem login_locked_account_rejected (env : Env) (now : Nat) (req : LoginRequest) (db : Db)
    (u : User) (t : Nat)
    (hv : req.validationErrors = []) (hfind : findOne (byEmail req.email) db = some u)
    (hset : u.lockUntil = some t) (hfuture : now < t) :
    (login env now req db).1.status = 423 ∧
    (login env now req db).1.message = some
      "Account is temporarily locked due to too many failed login attempts. Please try again later." ∧
    (login env now req db).1.accessToken = none ∧
    (login env now req db).1.refreshToken = none ∧
    (login env now req db).2 = db ∧
    findOne (byEmail req.email) (login env now req db).2 = some u := by
  have hlock : u.isLocked now = true := by simp [User.isLocked, hset, hfuture]
  rw [login_locked env now req db u hv hfind hlock]
  exact ⟨rfl, rfl, rfl, rfl, rfl, hfind⟩

theorem login_locked_account_rejected_witness :
    (login toyEnv 6000 aliceLogin [lockedAlice]).1.status = 423 ∧
    (login toyEnv 6000 aliceLogin [lockedAlice]).2 = [lockedAlice] :=
  have h := login_locked_account_rejected toyEnv 6000 aliceLogin [lockedAlice] lockedAlice
    7205000 rfl (by decide) rfl (by decide)
  ⟨h.1, h.2.2.2.2.1⟩

/-- C2: for every account that is not locked at request time (an account
whose lockUntil has passed included) and has 2FA disabled, a login with the
correct password succeeds with an access token and a refresh token, and the
stored account afterwards is the former one with loginAttempts = 0, no
lockUntil, lastLogin = the request time and refreshToken = the refresh token
of the response. -/
theorem login_correct_password_succeeds (env : Env) (now : Nat) (req : LoginRequest) (db : Db)
    (u : User)
    (hdb : UniqueIds db) (hfind : findOne (byEmail u.email) db = some u)
    (hreq : CorrectPassword env u req)
    (hlock : u.isLocked now = false) (h2fa : u.twoFactorEnabled = false) :
    loggedIn (login env now req db).1 = true ∧
    (login env now req db).1.accessToken = some (generateAccessToken env now u._id) ∧
    (login env now req db).1.refreshToken = some (generateRefreshToken env now u._id) ∧
    findOne (byEmail u.email) (login env now req db).2
      = some { u with
               loginAttempts := 0, lockUntil := none, lastLogin := some now,
               refreshToken := (login env now req db).1.refreshToken } := by
  obtain ⟨hv, hemail, hpw⟩ := hreq
  have hfind2 : findOne (byEmail req.email) db = some u := by rw [hemail]; exact hfind
  rw [login_success_without_two_factor env now req db u hv hfind2 hlock hpw h2fa]
  refine ⟨rfl, rfl, rfl, ?_⟩
  exact findOne_updateOne (byEmail u.email) (loginSuccessWrite env now u._id)
    (fun s => rfl) db u hdb hfind

theorem login_correct_password_succeeds_witness :
    findOne (byEmail "alice@x.com")
        (login toyEnv 8000000 aliceLogin [{ lockedAlice with refreshToken := some "old" }]).2
      = some { alice with
               loginAttempts := 0, lockUntil := none, lastLogin := some 8000000,
               refreshToken := some "jwt-refresh" } :=
  (login_correct_password_succeeds toyEnv 8000000 aliceLogin
    [{ lockedAlice with refreshToken := some "old" }] { lockedAlice with refreshToken := some "old" }
    (by decide) (by decide) (by decide) (by decide) rfl).2.2.2

/-! ## Login: no existence leak -/

/-- C7, counterexample: with a wrong password, the login answer for a locked
account (423, lockout message) differs from the answer when no account has
that email (401, invalid credentials). -/
theorem login_locked_account_leaks_existence :
    WrongPassword toyEnv lockedAlice wrongLogin ∧
    findOne (byEmail wrongLogin.email) [] = none ∧
    findOne (byEmail wrongLogin.email) [lockedAlice] = some lockedAlice ∧
    (login toyEnv 6000 wrongLogin []).1.status = 401 ∧
    (login toyEnv 6000 wrongLogin [lockedAlice]).1.status = 423 ∧
    (login toyEnv 6000 wrongLogin []).1 ≠ (login toyEnv 6000 wrongLogin [lockedAlice]).1 := by
  decide

/-- C7, amended: for every login request whose password is a string that is
not the password of the account (bcrypt.compare returns false), the status and
the body of the response are the same whether no account has that email or an
account with that email exists and is not locked at request time. -/
theorem login_wrong_password_no_existence_leak (env : Env) (now : Nat) (req : LoginRequest)
    (db0 db : Db) (u : User) (p : String)
    (habsent : findOne (byEmail req.email) db0 = none)
    (hfind : findOne (byEmail req.email) db = some u)
    (hlock : u.isLocked now = false)
    (hstring : req.password = .string p)
    (hpw : env.bcryptCompare p u.password = false) :
    (login env now req db).1 = (login env now req db0).1 := by
  have hcompare : u.comparePassword env req.password = .ok false := by
    rw [hstring]
    simp [User.comparePassword, hpw]
  by_cases hv : req.validationErrors = []
  · rw [login_wrong_password env now req db u hv hfind hlock hcompare,
      login_absent env now req db0 hv habsent]
  · rw [login_invalid_request env now req db hv, login_invalid_request env now req db0 hv]

theorem login_wrong_password_no_existence_leak_witness :
    (login toyEnv 6000 wrongLogin [alice]).1 = (login toyEnv 6000 wrongLogin []).1 :=
  login_wrong_password_no_existence_leak toyEnv 6000 wrongLogin [] [alice] alice "guess"
    (by decide) (by decide) (by decide) rfl (by decide)

/-- A password that is not a string passes `notEmpty()`, `bcrypt.compare`
throws on it and the handler answers 500 for an account that exists and is not
locked, while the same request on a store without the account is answered 401:
whatever the environment, the two answers differ. -/
theorem login_password_not_a_string (env : Env) (now : Nat) (req : LoginRequest) (db0 db : Db)
    (u : User) (json : String) (hv : req.validationErrors = [])
    (habsent : findOne (byEmail req.email) db0 = none)
    (hfind : findOne (byEmail req.email) db = some u) (hlock : u.isLocked now = false)
    (hother : req.password = .other json) :
    login env now req db
      = ({ status := 500, success := false, message := some "Server error during login",
           error := some ("Error: " ++ env.bcryptCompareError json) }, db) ∧
    login env now req db0 = (invalidCredentials, db0) ∧
    (login env now req db).1 ≠ (login env now req db0).1 := by
  have h500 : login env now req db
      = ({ status := 500, success := false, message := some "Server error during login",
           error := some ("Error: " ++ env.bcryptCompareError json) }, db) := by
    simp [login, hv, hfind, hlock, hother, User.comparePassword]
  have h401 := login_absent env now req db0 hv habsent
  refine ⟨h500, h401, ?_⟩
  rw [h500, h401]
  intro h
  have hs := congrArg Response.status h
  simp [invalidCredentials] at hs

/-! ## Login: two-factor authentication -/

/-- C8: for every unlocked account with twoFactorEnabled = true, a login with
the correct password and no twoFactorCode (absent, or empty, which the handler
treats alike) answers with the requiresTwoFactor signal, without access token
and without refresh token, and leaves the store, hence the stored account,
unchanged. -/
theorem login_requires_two_factor_code (env : Env) (now : Nat) (req : LoginRequest) (db : Db)
    (u : User)
    (hfind : findOne (byEmail u.email) db = some u)
    (hreq : CorrectPassword env u req)
    (hlock : u.isLocked now = false) (h2fa : u.twoFactorEnabled = true)
    (hcode : truthy req.twoFactorCode = false) :
    (login env now req db).1 = requiresTwoFactorResponse ∧
    (login env now req db).1.requiresTwoFactor = some true ∧
    (login env now req db).1.accessToken = none ∧
    (login env now req db).1.refreshToken = none ∧
    (login env now req db).2 = db ∧
    findOne (byEmail u.email) (login env now req db).2 = some u := by
  obtain ⟨hv, hemail, hpw⟩ := hreq
  have hfind2 : findOne (byEmail req.email) db = some u := by rw [hemail]; exact hfind
  rw [login_requires_two_factor env now req db u hv hfind2 hlock hpw h2fa hcode]
  exact ⟨rfl, rfl, rfl, rfl, rfl, hfind⟩

theorem login_requires_two_factor_code_witness :
    login toyEnv 1000 aliceLogin [twoFactorAlice] = (requiresTwoFactorResponse, [twoFactorAlice]) :=
  have h := login_requires_two_factor_code toyEnv 1000 aliceLogin [twoFactorAlice] twoFactorAlice
    (by decide) (by decide) (by decide) rfl rfl
  Prod.ext h.1 h.2.2.2.2.1

/-- C9: for every unlocked account with 2FA enabled, a correct password and a
supplied twoFactorCode that fails TOTP verification, login succeeds if and
only if the code is an element of the stored twoFactorBackupCodes; on that
success the stored list afterwards is the previous list with the first
occurrence of the code removed, the other codes in their order; otherwise the
answer is 401 'Invalid 2FA code'. -/
theorem login_backup_code (env : Env) (now : Nat) (req : LoginRequest) (db : Db)
    (u : User) (code : String)
    (hdb : UniqueIds db) (hfind : findOne (byEmail u.email) db = some u)
    (hreq : CorrectPassword env u req)
    (hlock : u.isLocked now = false) (h2fa : u.twoFactorEnabled = true)
    (hcode : req.twoFactorCode = some code) (hne : code ≠ "")
    (htotp : env.totpVerify u.twoFactorSecret code now = false) :
    (loggedIn (login env now req db).1 = true
      ↔ ∃ codes, u.twoFactorBackupCodes = some codes ∧ code ∈ codes) ∧
    (∀ codes, u.twoFactorBackupCodes = some codes → code ∈ codes →
      ∃ u1, findOne (byEmail u.email) (login env now req db).2 = some u1 ∧
        u1.twoFactorBackupCodes = some (codes.erase code)) ∧
    ((∀ codes, u.twoFactorBackupCodes = some codes → code ∉ codes) →
      (login env now req db).1 = invalidTwoFactorCode) := by
  obtain ⟨hv, hemail, hpw⟩ := hreq
  have hfind2 : findOne (byEmail req.email) db = some u := by rw [hemail]; exact hfind
  have hrej : (∀ codes, u.twoFactorBackupCodes = some codes → code ∉ codes) →
      login env now req db = (invalidTwoFactorCode, u.incLoginAttempts now db) :=
    login_two_factor_rejected env now req db u code hv hfind2 hlock hpw h2fa hcode hne htotp
  have hacc : ∀ codes, u.twoFactorBackupCodes = some codes → code ∈ codes →
      login env now req db
        = (loginSuccessful env now u,
           updateOne u._id (fun s => loginSuccessWrite env now u._id
             { s with twoFactorBackupCodes := some (codes.erase code) }) db) := by
    intro codes hc hmem
    cases hidx : indexOf codes code with
    | none => exact absurd hmem ((indexOf_eq_none codes code).1 hidx)
    | some i =>
      rw [login_backup_code_accepted env now req db u code codes i hv hfind2 hlock hpw h2fa
        hcode hne htotp hc hidx, splice1_indexOf codes code i hidx]
  refine ⟨⟨?_, ?_⟩, ?_, ?_⟩
  · intro hin
    by_contra hnot
    have hall : ∀ codes, u.twoFactorBackupCodes = some codes → code ∉ codes :=
      fun codes hc hmem => hnot ⟨codes, hc, hmem⟩
    rw [hrej hall] at hin
    simp [loggedIn, invalidTwoFactorCode] at hin
  · rintro ⟨codes, hc, hmem⟩
    rw [hacc codes hc hmem]
    rfl
  · intro codes hc hmem
    rw [hacc codes hc hmem]
    exact ⟨_, findOne_updateOne (byEmail u.email)
      (fun s => loginSuccessWrite env now u._id
        { s with twoFactorBackupCodes := some (codes.erase code) })
      (fun s => rfl) db u hdb hfind, rfl⟩
  · intro hall
    rw [hrej hall]

theorem login_backup_code_witness :
    loggedIn (login toyEnv 1000
        { backupLogin with twoFactorCode := some "B" }
        [{ twoFactorAlice with twoFactorBackupCodes := some ["A", "B", "C", "B"] }]).1 = true ∧
    ∃ u1, findOne (byEmail "alice@x.com") (login toyEnv 1000
        { backupLogin with twoFactorCode := some "B" }
        [{ twoFactorAlice with twoFactorBackupCodes := some ["A", "B", "C", "B"] }]).2 = some u1 ∧
      u1.twoFactorBackupCodes = some ["A", "C", "B"] :=
  have h := login_backup_code toyEnv 1000 { backupLogin with twoFactorCode := some "B" }
    [{ twoFactorAlice with twoFactorBackupCodes := some ["A", "B", "C", "B"] }]
    { twoFactorAlice with twoFactorBackupCodes := some ["A", "B", "C", "B"] } "B"
    (by decide) (by decide) (by decide) (by decide) rfl rfl (by decide) rfl
  ⟨h.1.2 ⟨_, rfl, by decide⟩, h.2.1 _ rfl (by decide)⟩

/-- A backup code that occurs exactly once in the stored list is single-use:
the login that consumes it removes it from the stored codes, and a second
login that presents it again, TOTP verification failing, is rejected with
'Invalid 2FA code'. -/
theorem backup_code_single_use_of_count_one (env : Env) (t1 t2 : Nat) (r1 r2 : LoginRequest)
    (db : Db) (u : User) (c : String) (codes : List String)
    (hdb : UniqueIds db) (hfind : findOne (byEmail u.email) db = some u)
    (h1 : CorrectPassword env u r1) (h2 : CorrectPassword env u r2)
    (hlock : u.isLocked t1 = false) (h2fa : u.twoFactorEnabled = true)
    (hc1 : r1.twoFactorCode = some c) (hc2 : r2.twoFactorCode = some c) (hne : c ≠ "")
    (htotp1 : env.totpVerify u.twoFactorSecret c t1 = false)
    (htotp2 : env.totpVerify u.twoFactorSecret c t2 = false)
    (hcodes : u.twoFactorBackupCodes = some codes) (honce : codes.count c = 1) :
    loggedIn (login env t1 r1 db).1 = true ∧
    (∃ u1, findOne (byEmail u.email) (login env t1 r1 db).2 = some u1 ∧
      u1.twoFactorBackupCodes = some (codes.erase c) ∧ c ∉ codes.erase c) ∧
    (login env t2 r2 (login env t1 r1 db).2).1 = invalidTwoFactorCode := by
  obtain ⟨hv1, hemail1, hpw1⟩ := h1
  obtain ⟨hv2, hemail2, hpw2⟩ := h2
  have hmem : c ∈ codes := List.count_pos_iff.1 (by omega)
  have hgone : c ∉ codes.erase c := by
    have h0 : (codes.erase c).count c = 0 := by rw [List.count_erase_self]; omega
    exact List.count_eq_zero.1 h0
  have hfind1 : findOne (byEmail r1.email) db = some u := by rw [hemail1]; exact hfind
  cases hidx : indexOf codes c with
  | none => exact absurd hmem ((indexOf_eq_none codes c).1 hidx)
  | some i =>
    have hlogin := login_backup_code_accepted env t1 r1 db u c codes i hv1 hfind1 hlock hpw1
      h2fa hc1 hne htotp1 hcodes hidx
    rw [splice1_indexOf codes c i hidx] at hlogin
    have hstored : findOne (byEmail u.email) (login env t1 r1 db).2
        = some (loginSuccessWrite env t1 u._id
            { u with twoFactorBackupCodes := some (codes.erase c) }) := by
      rw [hlogin]
      exact findOne_updateOne (byEmail u.email)
        (fun s => loginSuccessWrite env t1 u._id
          { s with twoFactorBackupCodes := some (codes.erase c) })
        (fun s => rfl) db u hdb hfind
    refine ⟨by rw [hlogin]; rfl, ⟨_, hstored, rfl, hgone⟩, ?_⟩
    have hfind2 : findOne (byEmail r2.email) (login env t1 r1 db).2
        = some (loginSuccessWrite env t1 u._id
            { u with twoFactorBackupCodes := some (codes.erase c) }) := by
      rw [hemail2]; exact hstored
    rw [login_two_factor_rejected env t2 r2 _ _ c hv2 hfind2 rfl hpw2 h2fa hc2 hne htotp2]
    intro codes2 hc2eq
    have : codes2 = codes.erase c := by
      have : some (codes.erase c) = some codes2 := hc2eq
      exact (Option.some.inj this).symm
    rw [this]
    exact hgone

/-- C10, evaluated where it fails: 2fa/setup draws the backup codes with
generateBackupCodes, whose draws may collide.  With the code ABABABAB drawn
twice, a login that consumes it succeeds, the code is still among the stored
codes afterwards, and a second login presenting the same code (TOTP
verification failing) succeeds again instead of being rejected with
'Invalid 2FA code'. -/
theorem backup_code_accepted_twice :
    generateBackupCodes collidingSource
      = ["ABABABAB", "ABABABAB", "08090A0B", "0C0D0E0F", "10111213", "14151617", "18191A1B",
         "1C1D1E1F", "20212223", "24252627"] ∧
    toyEnv.totpVerify twoFactorAlice.twoFactorSecret "ABABABAB" 1000 = false ∧
    toyEnv.totpVerify twoFactorAlice.twoFactorSecret "ABABABAB" 2000 = false ∧
    loggedIn (login toyEnv 1000 backupLogin [twoFactorAlice]).1 = true ∧
    (findOne (byEmail "alice@x.com") (login toyEnv 1000 backupLogin [twoFactorAlice]).2).map
        (fun u => u.twoFactorBackupCodes)
      = some (some ["ABABABAB", "08090A0B", "0C0D0E0F", "10111213", "14151617", "18191A1B",
         "1C1D1E1F", "20212223", "24252627"]) ∧
    loggedIn (login toyEnv 2000 backupLogin
      (login toyEnv 1000 backupLogin [twoFactorAlice]).2).1 = true ∧
    (login toyEnv 2000 backupLogin (login toyEnv 1000 backupLogin [twoFactorAlice]).2).1
      ≠ invalidTwoFactorCode := by
  decide

/-! ## More lemmas on the store -/

theorem findOne_byId_of_mem (db : Db) (u : User) (hdb : UniqueIds db) (hmem : u ∈ db) :
    findOne (byId u._id) db = some u := by
  induction db with
  | nil => simp at hmem
  | cons x xs ih =>
    have hnd : x._id ∉ xs.map (fun u => u._id) ∧ UniqueIds xs := by
      simpa [UniqueIds] using hdb
    by_cases hx : x._id = u._id
    · have hxu : x = u := by
        rcases List.mem_cons.1 hmem with h | h
        · exact h.symm
        · exact absurd (hx ▸ List.mem_map_of_mem (fun u => u._id) h) hnd.1
      subst hxu
      simp [findOne, List.find?, byId]
    · have hmem2 : u ∈ xs := by
        rcases List.mem_cons.1 hmem with h | h
        · exact absurd (h ▸ rfl) hx
        · exact h
      have := ih hnd.2 hmem2
      simp only [findOne] at this
      have hb : (x._id == u._id) = false := by simpa using hx
      simp [findOne, List.find?, byId, hb, this]

theorem findOne_byId_id (db : Db) (id : Nat) (u : User) (h : findOne (byId id) db = some u) :
    u._id = id := by
  have := (findOne_mem (byId id) db u h).2
  simpa [byId] using this

/-- The documents of the store after a write to the account `u`: the written
document, and the documents of the other accounts. -/
theorem mem_updateOne (db : Db) (u : User) (f : User → User) (hdb : UniqueIds db)
    (hmem : u ∈ db) (v : User) (hv : v ∈ updateOne u._id f db) :
    v = f u ∨ (v ∈ db ∧ v._id ≠ u._id) := by
  induction db with
  | nil => simp at hmem
  | cons x xs ih =>
    have hnd : x._id ∉ xs.map (fun u => u._id) ∧ UniqueIds xs := by
      simpa [UniqueIds] using hdb
    by_cases hx : x._id = u._id
    · have hxu : x = u := by
        rcases List.mem_cons.1 hmem with h | h
        · exact h.symm
        · exact absurd (hx ▸ List.mem_map_of_mem (fun u => u._id) h) hnd.1
      subst hxu
      simp only [updateOne, if_true, List.mem_cons] at hv
      rcases hv with h | h
      · exact Or.inl h
      · refine Or.inr ⟨List.mem_cons_of_mem _ h, ?_⟩
        intro e
        exact hnd.1 (e ▸ List.mem_map_of_mem (fun u => u._id) h)
    · have hmem2 : u ∈ xs := by
        rcases List.mem_cons.1 hmem with h | h
        · exact absurd (h ▸ rfl) hx
        · exact h
      simp only [updateOne, hx, if_false, List.mem_cons] at hv
      rcases hv with h | h
      · exact Or.inr ⟨by rw [h]; exact List.mem_cons_self _ _, by rw [h]; exact hx⟩
      · rcases ih hnd.2 hmem2 h with h1 | ⟨h1, h2⟩
        · exact Or.inl h1
        · exact Or.inr ⟨List.mem_cons_of_mem _ h1, h2⟩

theorem findOne_eq_none (p : User → Bool) (db : Db) :
    findOne p db = none ↔ ∀ v ∈ db, p v = false := by
  simp [findOne, List.find?_eq_none]

theorem findOne_isSome (p : User → Bool) (db : Db) :
    (∃ u, findOne p db = some u) ↔ ∃ v ∈ db, p v = true := by
  constructor
  · rintro ⟨u, h⟩
    exact ⟨u, findOne_mem p db u h⟩
  · rintro ⟨v, hv, hp⟩
    cases h : findOne p db with
    | none => exact absurd hp (by simp [(findOne_eq_none p db).1 h v hv])
    | some u => exact ⟨u, rfl⟩

/-! ## Refresh, logout and the opaque tokens -/

theorem refreshTokenRoute_store (env : AuthEnv) (now : Nat) (req : RefreshRequest) (db : Db) :
    (refreshTokenRoute env now req db).2 = db := by
  unfold refreshTokenRoute
  split
  · rfl
  · simp only []
    split
    · rfl
    · split
      · rfl
      · split <;> rfl

/-- The refresh route on a presented token that passes verification. -/
theorem refreshTokenRoute_verified (env : AuthEnv) (now : Nat) (db : Db) (token : String)
    (id : Nat) (hpresented : token ≠ "")
    (hverify : env.jwtVerify token env.JWT_REFRESH_SECRET now = some id) :
    refreshTokenRoute env now { refreshToken := some token } db
      = match findOne (byId id) db with
        | none => (invalidRefreshToken, db)
        | some user =>
          if user.refreshToken = some token then
            ({ status := 200, success := true,
               accessToken := some (generateAccessToken env.toEnv now user._id) }, db)
          else (invalidRefreshToken, db) := by
  have htr : truthy (some token) = true := by simpa [truthy] using hpresented
  simp only [refreshTokenRoute, htr, verifyToken, hverify, Option.getD_some, Bool.not_true,
    Bool.false_eq_true, if_false]
  cases findOne (byId id) db with
  | none => rfl
  | some user =>
    by_cases h : user.refreshToken = some token
    · simp [h]
    · simp [h]

/-- The refresh route never answers 200 to a token that names an account
whose stored refreshToken is absent. -/
theorem refreshTokenRoute_revoked (env : AuthEnv) (now : Nat) (db : Db) (r : String) (u : User)
    (hname : NamesAccount env r u._id) (hfind : findOne (byId u._id) db = some u)
    (hnone : u.refreshToken = none) :
    (refreshTokenRoute env now { refreshToken := some r } db).1.status = 401 ∧
    (refreshTokenRoute env now { refreshToken := some r } db).1.accessToken = none := by
  by_cases hr : r = ""
  · subst hr
    simp [refreshTokenRoute, truthy, refreshTokenRequired]
  · cases hv : env.jwtVerify r env.JWT_REFRESH_SECRET now with
    | none =>
      have htr : truthy (some r) = true := by simpa [truthy] using hr
      simp [refreshTokenRoute, htr, verifyToken, hv]
    | some id =>
      have hid : id = u._id := hname now id hv
      subst hid
      rw [refreshTokenRoute_verified env now db r _ hr hv, hfind]
      simp [hnone, invalidRefreshToken]

/-- C11: for every presented refresh token that passes verification under
the refresh secret, refresh-token returns a new access token (status 200, no
new refresh token) if and only if the account named by the token exists and
its stored refreshToken is exactly the presented string; otherwise it
returns 401 without a token; in both cases the store is unchanged. -/
theorem refresh_token_iff_stored_token_matches (env : AuthEnv) (now : Nat) (db : Db)
    (token : String) (id : Nat) (hpresented : token ≠ "")
    (hverify : env.jwtVerify token env.JWT_REFRESH_SECRET now = some id) :
    ((refreshTokenRoute env now { refreshToken := some token } db).1.accessToken ≠ none
      ↔ ∃ u, findOne (byId id) db = some u ∧ u.refreshToken = some token) ∧
    (∀ u, findOne (byId id) db = some u → u.refreshToken = some token →
      (refreshTokenRoute env now { refreshToken := some token } db).1
        = { status := 200, success := true,
            accessToken := some (generateAccessToken env.toEnv now u._id) }) ∧
    ((¬ ∃ u, findOne (byId id) db = some u ∧ u.refreshToken = some token) →
      (refreshTokenRoute env now { refreshToken := some token } db).1 = invalidRefreshToken) ∧
    invalidRefreshToken.status = 401 ∧ invalidRefreshToken.accessToken = none ∧
    (refreshTokenRoute env now { refreshToken := some token } db).2 = db := by
  have key := refreshTokenRoute_verified env now db token id hpresented hverify
  refine ⟨?_, ?_, ?_, rfl, rfl, refreshTokenRoute_store env now _ db⟩
  · rw [key]
    cases hf : findOne (byId id) db with
    | none => simp [invalidRefreshToken]
    | some user =>
      by_cases h : user.refreshToken = some token
      · simp [h]
      · simp [h, invalidRefreshToken]
  · intro u hf hu
    rw [key, hf]
    simp [hu]
  · intro hnot
    rw [key]
    cases hf : findOne (byId id) db with
    | none => rfl
    | some user =>
      have h : ¬ user.refreshToken = some token := fun h => hnot ⟨user, hf ▸ rfl, h⟩
      simp [h]

theorem refresh_token_iff_stored_token_matches_witness :
    ((refreshTokenRoute toyAuthEnv 2000 { refreshToken := some "jwt-refresh" }
        [loggedInAlice]).1.accessToken ≠ none
      ↔ ∃ u, findOne (byId 1) [loggedInAlice] = some u ∧ u.refreshToken = some "jwt-refresh") ∧
    (refreshTokenRoute toyAuthEnv 2000 { refreshToken := some "jwt-refresh" } [loggedInAlice]).2
      = [loggedInAlice] :=
  have h := refresh_token_iff_stored_token_matches toyAuthEnv 2000 [loggedInAlice]
    "jwt-refresh" 1 (by decide) (by decide)
  ⟨h.1, h.2.2.2.2.2⟩

theorem logout_eq (env : AuthEnv) (now : Nat) (user : User) (db : Db) :
    logout env now user db
      = ({ status := 200, success := true, message := some "Logged out successfully" },
         updateOne user._id (fun s => { s with refreshToken := none }) db) := by
  simp only [logout, save, preSave, List.mem_singleton, reduceCtorEq, if_false]
  rfl

/-- What an accepted reset-password answers and writes. -/
theorem resetPassword_accepted (env : AuthEnv) (now : Nat) (req : ResetPasswordRequest)
    (db : Db) (u : User) (hv : req.validationErrors = [])
    (hfind : findOne (resetFilter (hashToken env req.token) now) db = some u) :
    resetPassword env now req db
      = ({ status := 200, success := true,
           message := some "Password reset successful. Please login with your new password." },
         updateOne u._id (resetWrite env now req.password u.password) db) := by
  by_cases hp : req.password = u.password
  · have hb : (u.password != u.password) = false := by simp
    simp only [resetPassword, hv, hfind, List.isEmpty_nil, Bool.not_true, Bool.false_eq_true,
      if_false, hb, List.nil_append, save, preSave, List.mem_cons, List.mem_singleton,
      reduceCtorEq, or_self, hp, if_true, List.not_mem_nil]
    unfold resetWrite
    simp only [if_true]
    rfl
  · have hb : (req.password != u.password) = true := by simp [hp]
    simp only [resetPassword, hv, hfind, List.isEmpty_nil, Bool.not_true, Bool.false_eq_true,
      if_false, hb, if_true, List.singleton_append, save, preSave, List.mem_cons, true_or]
    unfold resetWrite
    simp only [hp, if_false]
    rfl

theorem resetPassword_rejected (env : AuthEnv) (now : Nat) (req : ResetPasswordRequest)
    (db : Db) (hv : req.validationErrors = [])
    (hfind : findOne (resetFilter (hashToken env req.token) now) db = none) :
    resetPassword env now req db = (invalidResetToken, db) := by
  simp [resetPassword, hv, hfind]

/-- C12: for every stored account and every refresh token r of that account,
after a logout of the account, and likewise after a successful reset-password
for the account, the stored refreshToken is absent and a later refresh-token
request presenting r is answered 401 without an access token. -/
theorem refresh_token_revoked_by_logout_and_reset (env : AuthEnv) (db : Db) (u : User)
    (r : String) (hdb : UniqueIds db) (hfind : findOne (byId u._id) db = some u)
    (hname : NamesAccount env r u._id) :
    (∀ (t1 t2 : Nat) (user : User), LoadedFrom user u →
      findOne (byId u._id) (logout env t1 user db).2 = some { u with refreshToken := none } ∧
      (refreshTokenRoute env t2 { refreshToken := some r } (logout env t1 user db).2).1.status
        = 401 ∧
      (refreshTokenRoute env t2 { refreshToken := some r }
        (logout env t1 user db).2).1.accessToken = none) ∧
    (∀ (t1 t2 : Nat) (req : ResetPasswordRequest), req.validationErrors = [] →
      findOne (resetFilter (hashToken env req.token) t1) db = some u →
      (resetPassword env t1 req db).1.status = 200 ∧
      (∃ s1, findOne (byId u._id) (resetPassword env t1 req db).2 = some s1 ∧
        s1.refreshToken = none) ∧
      (refreshTokenRoute env t2 { refreshToken := some r }
        (resetPassword env t1 req db).2).1.status = 401 ∧
      (refreshTokenRoute env t2 { refreshToken := some r }
        (resetPassword env t1 req db).2).1.accessToken = none) := by
  constructor
  · intro t1 t2 user hloaded
    have hid : user._id = u._id := by rw [hloaded]
    rw [logout_eq, hid]
    have hstored : findOne (byId u._id)
        (updateOne u._id (fun s => { s with refreshToken := none }) db)
        = some ({ u with refreshToken := none } : User) :=
      findOne_updateOne (byId u._id) (fun s => { s with refreshToken := none })
        (fun s => rfl) db u hdb hfind
    have h401 := refreshTokenRoute_revoked env t2 _ r ({ u with refreshToken := none } : User)
      hname hstored rfl
    exact ⟨hstored, h401.1, h401.2⟩
  · intro t1 t2 req hv hreset
    rw [resetPassword_accepted env t1 req db u hv hreset]
    have hstored : findOne (byId u._id)
        (updateOne u._id (resetWrite env t1 req.password u.password) db)
        = some (resetWrite env t1 req.password u.password u) :=
      findOne_updateOne (byId u._id) (resetWrite env t1 req.password u.password)
        (fun s => rfl) db u hdb hfind
    have h401 := refreshTokenRoute_revoked env t2 _ r
      (resetWrite env t1 req.password u.password u) hname hstored rfl
    exact ⟨rfl, ⟨_, hstored, rfl⟩, h401.1, h401.2⟩

theorem toyAuthEnv_names_alice : NamesAccount toyAuthEnv "jwt-refresh" 1 := by
  intro now decoded h
  have h2 : (some 1 : Option Nat) = some decoded := h
  exact (Option.some.inj h2).symm

theorem refresh_token_revoked_by_logout_and_reset_witness :
    (refreshTokenRoute toyAuthEnv 3000 { refreshToken := some "jwt-refresh" }
      (logout toyAuthEnv 2000 pendingAlice [pendingAlice, bob]).2).1.status = 401 ∧
    (refreshTokenRoute toyAuthEnv 3000 { refreshToken := some "jwt-refresh" }
      (resetPassword toyAuthEnv 2000 resetRequest [pendingAlice, bob]).2).1.status = 401 :=
  have h := refresh_token_revoked_by_logout_and_reset toyAuthEnv [pendingAlice, bob]
    pendingAlice "jwt-refresh" (by decide) (by decide) toyAuthEnv_names_alice
  ⟨(h.1 2000 3000 pendingAlice (by decide)).2.1,
   (h.2 2000 3000 resetRequest rfl (by decide)).2.2.1⟩

theorem findOne_unique (p : User → Bool) (db : Db) (u : User) (hmem : u ∈ db) (hp : p u = true)
    (huniq : ∀ v ∈ db, p v = true → v = u) : findOne p db = some u := by
  cases h : findOne p db with
  | none => exact absurd hp (by simp [(findOne_eq_none p db).1 h u hmem])
  | some v =>
    have hv := findOne_mem p db v h
    rw [huniq v hv.1 hv.2]

theorem verificationFilter_iff (h : String) (now : Nat) (v : User) :
    verificationFilter h now v = true
      ↔ v.emailVerificationToken = some h ∧ ∃ e, v.emailVerificationExpire = some e ∧ now < e := by
  unfold verificationFilter
  cases he : v.emailVerificationExpire with
  | none => simp
  | some e => simp

theorem resetFilter_iff (h : String) (now : Nat) (v : User) :
    resetFilter h now v = true
      ↔ v.resetPasswordToken = some h ∧ ∃ e, v.resetPasswordExpire = some e ∧ now < e := by
  unfold resetFilter
  cases he : v.resetPasswordExpire with
  | none => simp
  | some e => simp

theorem verifyEmail_accepted (env : AuthEnv) (now : Nat) (token : String) (db : Db) (u : User)
    (hfind : findOne (verificationFilter (hashToken env token) now) db = some u) :
    verifyEmail env now token db
      = ({ status := 200, success := true, message := some "Email verified successfully" },
         updateOne u._id (fun s =>
           { s with isEmailVerified := true, emailVerificationToken := none,
                    emailVerificationExpire := none }) db) := by
  simp only [verifyEmail, hfind, save, preSave, List.mem_cons, List.mem_singleton, reduceCtorEq,
    or_self, if_false]
  rfl

theorem verifyEmail_rejected (env : AuthEnv) (now : Nat) (token : String) (db : Db)
    (hfind : findOne (verificationFilter (hashToken env token) now) db = none) :
    verifyEmail env now token db = (invalidVerificationToken, db) := by
  simp [verifyEmail, hfind]

/-- C13: verify-email, and reset-password with a valid new password, is
accepted if and only if some account stores hashToken of the presented token
as its verification (reset) token with an expiry strictly later than now;
every rejection is the same response, 400 with the one 'Invalid or expired'
message of the route, whether no account matched the hash or the expiry of
the matching account had passed, and it leaves the store unchanged. -/
theorem opaque_token_accepted_iff (env : AuthEnv) (now : Nat) (db : Db) (token : String)
    (req : ResetPasswordRequest) (hv : req.validationErrors = []) :
    ((verifyEmail env now token db).1.status = 200
      ↔ ∃ u ∈ db, u.emailVerificationToken = some (hashToken env token) ∧
          ∃ e, u.emailVerificationExpire = some e ∧ now < e) ∧
    ((verifyEmail env now token db).1.status ≠ 200 →
      verifyEmail env now token db = (invalidVerificationToken, db)) ∧
    ((resetPassword env now req db).1.status = 200
      ↔ ∃ u ∈ db, u.resetPasswordToken = some (hashToken env req.token) ∧
          ∃ e, u.resetPasswordExpire = some e ∧ now < e) ∧
    ((resetPassword env now req db).1.status ≠ 200 →
      resetPassword env now req db = (invalidResetToken, db)) ∧
    invalidVerificationToken
      = { status := 400, success := false,
          message := some "Invalid or expired verification token" } ∧
    invalidResetToken
      = { status := 400, success := false, message := some "Invalid or expired reset token" } := by
  refine ⟨?_, ?_, ?_, ?_, rfl, rfl⟩
  · cases hf : findOne (verificationFilter (hashToken env token) now) db with
    | none =>
      rw [verifyEmail_rejected env now token db hf]
      have hall := (findOne_eq_none _ db).1 hf
      constructor
      · intro h; simp [invalidVerificationToken] at h
      · rintro ⟨u, hu, htok, hexp⟩
        have := hall u hu
        rw [(verificationFilter_iff _ now u).2 ⟨htok, hexp⟩] at this
        exact absurd this (by decide)
    | some u =>
      rw [verifyEmail_accepted env now token db u hf]
      have hu := findOne_mem _ db u hf
      exact ⟨fun _ => ⟨u, hu.1, (verificationFilter_iff _ now u).1 hu.2⟩, fun _ => rfl⟩
  · intro hne
    cases hf : findOne (verificationFilter (hashToken env token) now) db with
    | none => exact verifyEmail_rejected env now token db hf
    | some u =>
      rw [verifyEmail_accepted env now token db u hf] at hne
      exact absurd rfl hne
  · cases hf : findOne (resetFilter (hashToken env req.token) now) db with
    | none =>
      rw [resetPassword_rejected env now req db hv hf]
      have hall := (findOne_eq_none _ db).1 hf
      constructor
      · intro h; simp [invalidResetToken] at h
      · rintro ⟨u, hu, htok, hexp⟩
        have := hall u hu
        rw [(resetFilter_iff _ now u).2 ⟨htok, hexp⟩] at this
        exact absurd this (by decide)
    | some u =>
      rw [resetPassword_accepted env now req db u hv hf]
      have hu := findOne_mem _ db u hf
      exact ⟨fun _ => ⟨u, hu.1, (resetFilter_iff _ now u).1 hu.2⟩, fun _ => rfl⟩
  · intro hne
    cases hf : findOne (resetFilter (hashToken env req.token) now) db with
    | none => exact resetPassword_rejected env now req db hv hf
    | some u =>
      rw [resetPassword_accepted env now req db u hv hf] at hne
      exact absurd rfl hne

theorem opaque_token_accepted_iff_witness :
    verifyEmail toyAuthEnv 95000000 "v" [pendingAlice, bob]
      = (invalidVerificationToken, [pendingAlice, bob]) ∧
    verifyEmail toyAuthEnv 2000 "w" [pendingAlice, bob]
      = (invalidVerificationToken, [pendingAlice, bob]) ∧
    resetPassword toyAuthEnv 5000000 resetRequest [pendingAlice, bob]
      = (invalidResetToken, [pendingAlice, bob]) :=
  ⟨(opaque_token_accepted_iff toyAuthEnv 95000000 [pendingAlice, bob] "v" resetRequest rfl).2.1
      (by decide),
   (opaque_token_accepted_iff toyAuthEnv 2000 [pendingAlice, bob] "w" resetRequest rfl).2.1
      (by decide),
   (opaque_token_accepted_iff toyAuthEnv 5000000 [pendingAlice, bob] "v" resetRequest
      rfl).2.2.2.1 (by decide)⟩

/-- C14: verification and reset tokens are single-use.  In a store where
exactly one account u holds hashToken(t) as its verification (reset) token
hash, a successful verify-email (reset-password) with t leaves the token and
expiry fields of u absent, and a second request with the same t, at any time,
is rejected with the 'Invalid or expired' error. -/
theorem opaque_token_single_use (env : AuthEnv) (db : Db) (u : User) (token : String)
    (hdb : UniqueIds db) (hmem : u ∈ db) :
    (∀ (t1 t2 e : Nat),
      u.emailVerificationToken = some (hashToken env token) →
      u.emailVerificationExpire = some e → t1 < e →
      (∀ v ∈ db, v.emailVerificationToken = some (hashToken env token) → v = u) →
      (verifyEmail env t1 token db).1.status = 200 ∧
      findOne (byId u._id) (verifyEmail env t1 token db).2
        = some { u with isEmailVerified := true, emailVerificationToken := none,
                        emailVerificationExpire := none } ∧
      verifyEmail env t2 token (verifyEmail env t1 token db).2
        = (invalidVerificationToken, (verifyEmail env t1 token db).2)) ∧
    (∀ (t1 t2 e : Nat) (req1 req2 : ResetPasswordRequest),
      req1.validationErrors = [] → req2.validationErrors = [] →
      req1.token = token → req2.token = token →
      u.resetPasswordToken = some (hashToken env token) →
      u.resetPasswordExpire = some e → t1 < e →
      (∀ v ∈ db, v.resetPasswordToken = some (hashToken env token) → v = u) →
      (resetPassword env t1 req1 db).1.status = 200 ∧
      (∃ s1, findOne (byId u._id) (resetPassword env t1 req1 db).2 = some s1 ∧
        s1.resetPasswordToken = none ∧ s1.resetPasswordExpire = none) ∧
      resetPassword env t2 req2 (resetPassword env t1 req1 db).2
        = (invalidResetToken, (resetPassword env t1 req1 db).2)) := by
  have hbyId : findOne (byId u._id) db = some u := findOne_byId_of_mem db u hdb hmem
  constructor
  · intro t1 t2 e htok hexp ht huniq
    have hfind : findOne (verificationFilter (hashToken env token) t1) db = some u :=
      findOne_unique _ db u hmem ((verificationFilter_iff _ t1 u).2 ⟨htok, e, hexp, ht⟩)
        (fun v hv hp => huniq v hv ((verificationFilter_iff _ t1 v).1 hp).1)
    rw [verifyEmail_accepted env t1 token db u hfind]
    refine ⟨rfl, ?_, ?_⟩
    · exact findOne_updateOne (byId u._id) (fun s =>
        { s with isEmailVerified := true, emailVerificationToken := none,
                 emailVerificationExpire := none }) (fun s => rfl) db u hdb hbyId
    · apply verifyEmail_rejected
      rw [findOne_eq_none]
      intro v hv
      rcases mem_updateOne db u _ hdb hmem v hv with h | ⟨h1, h2⟩
      · rw [h]; rfl
      · cases hf : verificationFilter (hashToken env token) t2 v with
        | false => rfl
        | true =>
          have := huniq v h1 ((verificationFilter_iff _ t2 v).1 hf).1
          exact absurd (this ▸ rfl) h2
  · intro t1 t2 e req1 req2 hv1 hv2 hr1 hr2 htok hexp ht huniq
    have hfind : findOne (resetFilter (hashToken env req1.token) t1) db = some u := by
      rw [hr1]
      exact findOne_unique _ db u hmem ((resetFilter_iff _ t1 u).2 ⟨htok, e, hexp, ht⟩)
        (fun v hv hp => huniq v hv ((resetFilter_iff _ t1 v).1 hp).1)
    rw [resetPassword_accepted env t1 req1 db u hv1 hfind]
    refine ⟨rfl, ⟨_, findOne_updateOne (byId u._id)
        (resetWrite env t1 req1.password u.password) (fun s => rfl) db u hdb hbyId,
      rfl, rfl⟩, ?_⟩
    apply resetPassword_rejected _ _ _ _ hv2
    rw [findOne_eq_none, hr2]
    intro v hv
    rcases mem_updateOne db u _ hdb hmem v hv with h | ⟨h1, h2⟩
    · rw [h]; rfl
    · cases hf : resetFilter (hashToken env token) t2 v with
      | false => rfl
      | true =>
        have := huniq v h1 ((resetFilter_iff _ t2 v).1 hf).1
        exact absurd (this ▸ rfl) h2

theorem opaque_token_single_use_witness :
    verifyEmail toyAuthEnv 3000 "v" (verifyEmail toyAuthEnv 2000 "v" [pendingAlice, bob]).2
      = (invalidVerificationToken, (verifyEmail toyAuthEnv 2000 "v" [pendingAlice, bob]).2) ∧
    resetPassword toyAuthEnv 3000 { resetRequest with token := "v" }
        (resetPassword toyAuthEnv 2000 { resetRequest with token := "v" }
          [{ pendingAlice with resetPasswordToken := some "sha256(v)" }, bob]).2
      = (invalidResetToken,
         (resetPassword toyAuthEnv 2000 { resetRequest with token := "v" }
          [{ pendingAlice with resetPasswordToken := some "sha256(v)" }, bob]).2) :=
  ⟨((opaque_token_single_use toyAuthEnv [pendingAlice, bob] pendingAlice "v"
      (by decide) (by decide)).1 2000 3000 90000000 rfl rfl (by decide) (by decide)).2.2,
   ((opaque_token_single_use toyAuthEnv
      [{ pendingAlice with resetPasswordToken := some "sha256(v)" }, bob]
      { pendingAlice with resetPasswordToken := some "sha256(v)" } "v"
      (by decide) (by decide)).2 2000 3000 4000000
      { resetRequest with token := "v" } { resetRequest with token := "v" }
      rfl rfl rfl rfl rfl rfl (by decide) (by decide)).2.2⟩

/-! ## Registration and forgot-password -/

theorem updateOne_append_fresh (id : Nat) (f : User → User) (db : Db) (x : User)
    (hfresh : ∀ v ∈ db, v._id ≠ id) :
    updateOne id f (db ++ [x]) = db ++ updateOne id f [x] := by
  induction db with
  | nil => rfl
  | cons y ys ih =>
    have hy : y._id ≠ id := hfresh y (List.mem_cons_self _ _)
    have := ih (fun v hv => hfresh v (List.mem_cons_of_mem _ hv))
    simp [updateOne, hy, this]

theorem findOne_append_of_none (p : User → Bool) (db l : Db) (h : findOne p db = none) :
    findOne p (db ++ l) = findOne p l := by
  unfold findOne at *
  rw [List.find?_append, h]
  rfl

/-- C15: for every store that already contains an account with the email of
the request, register (validation passed) is rejected with 400 'User already
exists with this email'; it creates no account, modifies none and issues no
tokens. -/
theorem register_existing_email_rejected (env : AuthEnv) (now : Nat) (rng : RandomSource)
    (newId : Nat) (req : RegisterRequest) (db : Db) (u : User)
    (hv : req.validationErrors = []) (hfind : findOne (byEmail req.email) db = some u) :
    register env now rng newId req db = (userAlreadyExists, db) ∧
    userAlreadyExists.status = 400 ∧
    userAlreadyExists.message = some "User already exists with this email" ∧
    userAlreadyExists.accessToken = none ∧ userAlreadyExists.refreshToken = none := by
  refine ⟨?_, rfl, rfl, rfl, rfl⟩
  simp [register, hv, hfind]

theorem register_existing_email_rejected_witness :
    register toyAuthEnv 1000 collidingSource 7 aliceRegistration [alice, bob]
      = (userAlreadyExists, [alice, bob]) :=
  (register_existing_email_rejected toyAuthEnv 1000 collidingSource 7 aliceRegistration
    [alice, bob] alice rfl (by decide)).1

theorem registerTokens_fresh (env : AuthEnv) (now : Nat) (user : User) (db : Db)
    (hfresh : ∀ v ∈ db, v._id ≠ user._id) :
    registerTokens env now user (db ++ [user])
      = ({ status := 201, success := true,
           message := some
             "User registered successfully. Please check your email to verify your account.",
           user := some { id := user._id, name := user.name, email := user.email,
                          avatar := user.avatar, role := user.role,
                          isEmailVerified := user.isEmailVerified, twoFactorEnabled := none },
           accessToken := some (generateAccessToken env.toEnv now user._id),
           refreshToken := some (generateRefreshToken env.toEnv now user._id) },
         db ++ [{ user with refreshToken := some (generateRefreshToken env.toEnv now user._id) }]) := by
  simp only [registerTokens, save, preSave, List.mem_singleton, reduceCtorEq, if_false]
  rw [updateOne_append_fresh _ _ db user hfresh]
  simp [updateOne, saveDelta, Path.write]

theorem save_append_fresh (env : Env) (now : Nat) (modified : List Path) (doc base : User)
    (db : Db) (hpw : Path.password ∉ modified) (hid : base._id = doc._id)
    (hfresh : ∀ v ∈ db, v._id ≠ doc._id) :
    save env now modified doc (db ++ [base]) = (doc, db ++ [saveDelta modified doc base]) := by
  simp only [save, preSave, hpw, if_false]
  rw [updateOne_append_fresh _ _ db base hfresh]
  simp [updateOne, hid]

theorem create_eq (env : AuthEnv) (now newId : Nat) (name email password avatar : String)
    (db : Db) :
    User.create env now newId name email password avatar db
      = (createdDocument env now newId name email password avatar,
         db ++ [createdDocument env now newId name email password avatar]) := by
  simp [User.create, preSave, createdDocument]

/-- A registration that passes both validations, whatever the mailer does. -/
theorem register_accepted (env : AuthEnv) (now : Nat) (rng : RandomSource) (newId : Nat)
    (req : RegisterRequest) (db : Db)
    (hv : req.validationErrors = []) (habsent : findOne (byEmail req.email) db = none)
    (hschema : schemaAccepts env req.name req.email req.password = true)
    (hfresh : ∀ v ∈ db, v._id ≠ newId) :
    register env now rng newId req db
      = (registered env now newId req, db ++ [registeredAccount env now rng newId req]) := by
  have hsave := save_append_fresh env.toEnv now
    [Path.emailVerificationToken, Path.emailVerificationExpire]
    { createdDocument env now newId req.name req.email req.password
        ("https://api.dicebear.com/7.x/avataaars/svg?seed=" ++ env.encodeURIComponent req.email)
      with emailVerificationToken := some (hashToken env (generateRandomToken rng)),
           emailVerificationExpire := some (now + 24 * 60 * 60 * 1000) }
    (createdDocument env now newId req.name req.email req.password
        ("https://api.dicebear.com/7.x/avataaars/svg?seed=" ++ env.encodeURIComponent req.email))
    db (by decide) rfl hfresh
  have htok := registerTokens_fresh env now
    { createdDocument env now newId req.name req.email req.password
        ("https://api.dicebear.com/7.x/avataaars/svg?seed=" ++ env.encodeURIComponent req.email)
      with emailVerificationToken := some (hashToken env (generateRandomToken rng)),
           emailVerificationExpire := some (now + 24 * 60 * 60 * 1000) } db hfresh
  simp only [register, hv, habsent, hschema, List.isEmpty_nil, Bool.not_true,
    Bool.false_eq_true, if_false, create_eq, hsave]
  have hdelta : saveDelta [Path.emailVerificationToken, Path.emailVerificationExpire]
      { createdDocument env now newId req.name req.email req.password
          ("https://api.dicebear.com/7.x/avataaars/svg?seed=" ++ env.encodeURIComponent req.email)
        with emailVerificationToken := some (hashToken env (generateRandomToken rng)),
             emailVerificationExpire := some (now + 24 * 60 * 60 * 1000) }
      (createdDocument env now newId req.name req.email req.password
          ("https://api.dicebear.com/7.x/avataaars/svg?seed=" ++ env.encodeURIComponent req.email))
      = { createdDocument env now newId req.name req.email req.password
          ("https://api.dicebear.com/7.x/avataaars/svg?seed=" ++ env.encodeURIComponent req.email)
        with emailVerificationToken := some (hashToken env (generateRandomToken rng)),
             emailVerificationExpire := some (now + 24 * 60 * 60 * 1000) } := rfl
  rw [hdelta]
  split <;> exact htok

/-- C16: for every registration that passes validation (the chain of the
route and the validators of the schema) and whose email is not yet present,
register answers 201 with both tokens whatever the mailer does, that is
whether or not sending the verification email throws, and the created account
is the same in both cases: isEmailVerified = false, emailVerificationExpire =
request time + 86,400,000 ms, stored refreshToken = the refresh token
returned. -/
theorem register_succeeds_whatever_the_mailer (env : AuthEnv) (mailer : Mailer) (now : Nat)
    (rng : RandomSource) (newId : Nat) (req : RegisterRequest) (db : Db)
    (hv : req.validationErrors = []) (habsent : findOne (byEmail req.email) db = none)
    (hschema : schemaAccepts env req.name req.email req.password = true)
    (hfresh : ∀ v ∈ db, v._id ≠ newId) :
    register { env with mail := mailer } now rng newId req db
      = (registered env now newId req, db ++ [registeredAccount env now rng newId req]) ∧
    (registered env now newId req).status = 201 ∧
    (registered env now newId req).accessToken ≠ none ∧
    (registered env now newId req).refreshToken ≠ none ∧
    findOne (byEmail req.email) (db ++ [registeredAccount env now rng newId req])
      = some (registeredAccount env now rng newId req) ∧
    (registeredAccount env now rng newId req).isEmailVerified = false ∧
    (registeredAccount env now rng newId req).emailVerificationExpire = some (now + 86400000) ∧
    (registeredAccount env now rng newId req).refreshToken
      = (registered env now newId req).refreshToken := by
  refine ⟨?_, rfl, by simp [registered], by simp [registered], ?_, rfl, rfl, rfl⟩
  · exact register_accepted { env with mail := mailer } now rng newId req db hv habsent
      hschema hfresh
  · rw [findOne_append_of_none _ db _ habsent]
    simp [findOne, List.find?, byEmail, registeredAccount]

theorem register_succeeds_whatever_the_mailer_witness :
    (sendVerificationEmail failingMailer "alice@x.com" "Alice"
      (generateRandomToken collidingSource)).toBool = false ∧
    (sendVerificationEmail silentMailer "alice@x.com" "Alice"
      (generateRandomToken collidingSource)).toBool = true ∧
    register failingAuthEnv 1000 collidingSource 1 aliceRegistration [bob]
      = (registered toyAuthEnv 1000 1 aliceRegistration,
         [bob, registeredAccount toyAuthEnv 1000 collidingSource 1 aliceRegistration]) ∧
    register toyAuthEnv 1000 collidingSource 1 aliceRegistration [bob]
      = (registered toyAuthEnv 1000 1 aliceRegistration,
         [bob, registeredAccount toyAuthEnv 1000 collidingSource 1 aliceRegistration]) :=
  ⟨by decide, by decide,
   (register_succeeds_whatever_the_mailer toyAuthEnv failingMailer 1000 collidingSource 1
      aliceRegistration [bob] rfl (by decide) (by decide) (by decide)).1,
   (register_succeeds_whatever_the_mailer toyAuthEnv silentMailer 1000 collidingSource 1
      aliceRegistration [bob] rfl (by decide) (by decide) (by decide)).1⟩

/-- When the sender does not throw, forgot-password answers the same 200
message whether or not the account exists. -/
theorem forgotPassword_delivered (env : AuthEnv) (now : Nat) (rng : RandomSource)
    (req : ForgotPasswordRequest) (db : Db) (hv : req.validationErrors = [])
    (hmail : ∀ email name token, sendPasswordResetEmail env.mail email name token = .ok ()) :
    (forgotPassword env now rng req db).1 = resetLinkSent := by
  simp only [forgotPassword, hv, List.isEmpty_nil, Bool.not_true, Bool.false_eq_true, if_false]
  cases findOne (byEmail req.email) db with
  | none => rfl
  | some u => simp [hmail]

/-- C17, evaluated where it fails: in production, with the mail settings
there and `sendMail` rejected, sendPasswordResetEmail throws; forgot-password
calls it outside any inner try, so for the existing account of Alice the
answer is 500 'Failed to process password reset request', while the same
request on a store without that account gets the 200 message.  The answer is
500 as well when the transporter cannot be created. -/
theorem forgot_password_mail_failure_answers_500 :
    aliceForgot.validationErrors = [] ∧
    findOne (byEmail aliceForgot.email) [alice] = some alice ∧
    (sendPasswordResetEmail failingMailer "alice@x.com" "Alice"
      (generateRandomToken collidingSource)).toBool = false ∧
    (forgotPassword failingAuthEnv 1000 collidingSource aliceForgot [alice]).1
      = { status := 500, success := false,
          message := some "Failed to process password reset request",
          error := some "Failed to send password reset email" } ∧
    (forgotPassword failingAuthEnv 1000 collidingSource aliceForgot []).1 = resetLinkSent ∧
    resetLinkSent.status = 200 ∧
    (forgotPassword { toyAuthEnv with mail := brokenTransportMailer } 1000 collidingSource
      aliceForgot [alice]).1.status = 500 := by
  decide

/-! ## Password reset and login -/

/-- One successful login without 2FA, for the account found under its own
address. -/
theorem login_success_step (env : Env) (now : Nat) (req : LoginRequest) (db : Db) (u : User)
    (hfind : findOne (byEmail u.email) db = some u) (hreq : CorrectPassword env u req)
    (hlock : u.isLocked now = false) (h2fa : u.twoFactorEnabled = false) :
    login env now req db
      = (loginSuccessful env now u, updateOne u._id (loginSuccessWrite env now u._id) db) := by
  obtain ⟨hv, hemail, hpw⟩ := hreq
  have hfind2 : findOne (byEmail req.email) db = some u := by rw [hemail]; exact hfind
  exact login_success_without_two_factor env now req db u hv hfind2 hlock hpw h2fa

/-- C18, counterexample.  (1) bcrypt reads the first 72 characters only: Alice
has the password `longPassword 'X'`, a reset-password sets the different
password `longPassword 'Y'`, and a login with the old password still succeeds.
(2) The new password is the stored hash string itself: the path is not
modified, the hook does not hash, the stored hash stays, so the old password
still logs in and the new one is rejected. -/
theorem reset_password_old_password_still_accepted :
    (longAlice.isLocked 3000 = false ∧ longAlice.twoFactorEnabled = false ∧
     longReset.password ≠ longPassword 'X' ∧
     longAlice.comparePassword truncatingEnv (.string (longPassword 'X')) = .ok true ∧
     (resetPassword truncatingAuthEnv 2000 longReset [longAlice, bob]).1.status = 200 ∧
     loggedIn (login truncatingEnv 3000
       { aliceLogin with password := .string (longPassword 'X') }
       (resetPassword truncatingAuthEnv 2000 longReset [longAlice, bob]).2).1 = true) ∧
    (pendingAlice.isLocked 3000 = false ∧ pendingAlice.twoFactorEnabled = false ∧
     hashReset.password ≠ "secret1" ∧
     pendingAlice.comparePassword toyEnv (.string "secret1") = .ok true ∧
     (resetPassword toyAuthEnv 2000 hashReset [pendingAlice, bob]).1.status = 200 ∧
     loggedIn (login toyEnv 3000 aliceLogin
       (resetPassword toyAuthEnv 2000 hashReset [pendingAlice, bob]).2).1 = true ∧
     (login toyEnv 3000 { aliceLogin with password := .string "hash(secret1)" }
       (resetPassword toyAuthEnv 2000 hashReset [pendingAlice, bob]).2).1
       = invalidCredentials) := by
  decide

/-- C18, amended: for every account that is not locked and has 2FA disabled,
after a successful reset-password that sets a new password p different from
the stored password hash, the stored resetPasswordToken, resetPasswordExpire
and refreshToken are absent, a login with p succeeds and issues tokens
(bcrypt accepting p against the hash it made of p), and a login with an old
password that bcrypt rejects against the hash of p is rejected with 401
Invalid credentials. -/
theorem reset_password_replaces_credentials (env : AuthEnv) (t1 t2 : Nat)
    (req : ResetPasswordRequest) (db : Db) (u : User) (oldPassword : String)
    (oldLogin newLogin : LoginRequest)
    (hdb : UniqueIds db) (hemail : findOne (byEmail u.email) db = some u)
    (hv : req.validationErrors = [])
    (hreset : findOne (resetFilter (hashToken env req.token) t1) db = some u)
    (hne : req.password ≠ u.password)
    (hlock : u.isLocked t2 = false) (h2fa : u.twoFactorEnabled = false)
    (hold : oldLogin.validationErrors = [] ∧ oldLogin.email = u.email ∧
      oldLogin.password = .string oldPassword)
    (hnew : newLogin.validationErrors = [] ∧ newLogin.email = u.email ∧
      newLogin.password = .string req.password)
    (hbnew : env.bcryptCompare req.password
      (env.bcryptHash req.password (env.bcryptGenSalt t1)) = true)
    (hbold : env.bcryptCompare oldPassword
      (env.bcryptHash req.password (env.bcryptGenSalt t1)) = false) :
    (resetPassword env t1 req db).1.status = 200 ∧
    findOne (byEmail u.email) (resetPassword env t1 req db).2
      = some { u with password := env.bcryptHash req.password (env.bcryptGenSalt t1),
                      resetPasswordToken := none, resetPasswordExpire := none,
                      refreshToken := none } ∧
    (login env.toEnv t2 oldLogin (resetPassword env t1 req db).2).1 = invalidCredentials ∧
    loggedIn (login env.toEnv t2 newLogin (resetPassword env t1 req db).2).1 = true := by
  rw [resetPassword_accepted env t1 req db u hv hreset]
  have hwrite : resetWrite env t1 req.password u.password u
      = { u with password := env.bcryptHash req.password (env.bcryptGenSalt t1),
                 resetPasswordToken := none, resetPasswordExpire := none,
                 refreshToken := none } := by
    simp [resetWrite, hne]
  have hstored : findOne (byEmail u.email)
      (updateOne u._id (resetWrite env t1 req.password u.password) db)
      = some ({ u with password := env.bcryptHash req.password (env.bcryptGenSalt t1),
                       resetPasswordToken := none, resetPasswordExpire := none,
                       refreshToken := none } : User) := by
    rw [← hwrite]
    exact findOne_updateOne (byEmail u.email) (resetWrite env t1 req.password u.password)
      (fun s => rfl) db u hdb hemail
  have hdb1 : UniqueIds (updateOne u._id (resetWrite env t1 req.password u.password) db) :=
    uniqueIds_updateOne u._id (resetWrite env t1 req.password u.password) (fun s => rfl) db hdb
  refine ⟨rfl, hstored, ?_, ?_⟩
  · have hpw : User.comparePassword env.toEnv
        ({ u with password := env.bcryptHash req.password (env.bcryptGenSalt t1),
                  resetPasswordToken := none, resetPasswordExpire := none,
                  refreshToken := none } : User) oldLogin.password = .ok false := by
      rw [hold.2.2]
      simp [User.comparePassword, hbold]
    exact (failed_login_step env.toEnv t2 oldLogin _
      ({ u with password := env.bcryptHash req.password (env.bcryptGenSalt t1),
                resetPasswordToken := none, resetPasswordExpire := none,
                refreshToken := none } : User) hdb1 hstored ⟨hold.1, hold.2.1, hpw⟩ hlock).1
  · have hpw : User.comparePassword env.toEnv
        ({ u with password := env.bcryptHash req.password (env.bcryptGenSalt t1),
                  resetPasswordToken := none, resetPasswordExpire := none,
                  refreshToken := none } : User) newLogin.password = .ok true := by
      rw [hnew.2.2]
      simp [User.comparePassword, hbnew]
    rw [login_success_step env.toEnv t2 newLogin _
      ({ u with password := env.bcryptHash req.password (env.bcryptGenSalt t1),
                resetPasswordToken := none, resetPasswordExpire := none,
                refreshToken := none } : User) hstored ⟨hnew.1, hnew.2.1, hpw⟩ hlock h2fa]
    rfl

theorem reset_password_replaces_credentials_witness :
    (login toyEnv 3000 aliceLogin
      (resetPassword toyAuthEnv 2000 resetRequest [pendingAlice, bob]).2).1
      = invalidCredentials ∧
    loggedIn (login toyEnv 3000 newPasswordLogin
      (resetPassword toyAuthEnv 2000 resetRequest [pendingAlice, bob]).2).1 = true :=
  have h := reset_password_replaces_credentials toyAuthEnv 2000 3000 resetRequest
    [pendingAlice, bob] pendingAlice "secret1" aliceLogin newPasswordLogin
    (by decide) (by decide) rfl (by decide) (by decide) (by decide) rfl
    ⟨rfl, rfl, rfl⟩ ⟨rfl, rfl, rfl⟩ (by decide) (by decide)
  ⟨h.2.2.1, h.2.2.2⟩

/-! ## Two-factor setup and verification -/

theorem generateBackupCodesLoop_length (rng : RandomSource) (remaining : Nat) :
    ∀ (i : Nat) (codes : List String),
      (generateBackupCodesLoop rng remaining i codes).length = codes.length + remaining := by
  induction remaining with
  | zero => intro i codes; rfl
  | succ n ih =>
    intro i codes
    simp only [generateBackupCodesLoop]
    rw [ih]
    simp
    omega

theorem generateBackupCodes_length (rng : RandomSource) (count : Nat) :
    (generateBackupCodes rng count).length = count := by
  unfold generateBackupCodes
  rw [generateBackupCodesLoop_length]
  simp

theorem loadedFrom_id (user stored : User) (h : LoadedFrom user stored) :
    user._id = stored._id := by
  rw [h]

theorem twoFactorSetup_accepted (env : AuthEnv) (now : Nat) (rng : RandomSource) (user : User)
    (db : Db) (h : user.twoFactorEnabled = false) :
    twoFactorSetup env now rng user db
      = ({ status := 200, success := true,
           message := some
             "2FA setup initiated. Please scan the QR code and verify with a code.",
           secret := some
             (env.speakeasyGenerateSecret ("Shiksha (" ++ user.email ++ ")") now).base32,
           qrCode := some (env.qrCodeToDataURL
             (env.speakeasyGenerateSecret ("Shiksha (" ++ user.email ++ ")") now).otpauth_url),
           backupCodes := some (generateBackupCodes rng) },
         updateOne user._id (fun s =>
           { s with twoFactorSecret := some
                      (env.speakeasyGenerateSecret ("Shiksha (" ++ user.email ++ ")") now).base32,
                    twoFactorBackupCodes := some (generateBackupCodes rng) }) db) := by
  simp only [twoFactorSetup, h, Bool.false_eq_true, if_false, save, preSave, List.mem_cons,
    List.mem_singleton, reduceCtorEq, or_self]
  rfl

/-- C19: 2fa/setup on an account with twoFactorEnabled = true is rejected
with '2FA is already enabled' and changes nothing; on an account with
twoFactorEnabled = false it stores a new twoFactorSecret and exactly 10 backup
codes, returns that same secret and those same codes, and leaves
twoFactorEnabled false. -/
theorem two_factor_setup (env : AuthEnv) (now : Nat) (rng : RandomSource) (user stored : User)
    (db : Db) (hdb : UniqueIds db) (hfind : findOne (byId stored._id) db = some stored)
    (hloaded : LoadedFrom user stored) :
    (user.twoFactorEnabled = true →
      twoFactorSetup env now rng user db = (twoFactorAlreadyEnabled, db)) ∧
    twoFactorAlreadyEnabled
      = { status := 400, success := false, message := some "2FA is already enabled" } ∧
    (user.twoFactorEnabled = false →
      ∃ secret codes,
        (twoFactorSetup env now rng user db).1.status = 200 ∧
        (twoFactorSetup env now rng user db).1.secret = some secret ∧
        (twoFactorSetup env now rng user db).1.backupCodes = some codes ∧
        codes.length = 10 ∧
        findOne (byId stored._id) (twoFactorSetup env now rng user db).2
          = some { stored with twoFactorSecret := some secret,
                               twoFactorBackupCodes := some codes } ∧
        stored.twoFactorEnabled = false) := by
  have hid : user._id = stored._id := loadedFrom_id user stored hloaded
  refine ⟨?_, rfl, ?_⟩
  · intro h
    simp [twoFactorSetup, h]
  · intro h
    have hst : stored.twoFactorEnabled = false := by
      rw [hloaded] at h; exact h
    rw [twoFactorSetup_accepted env now rng user db h, hid]
    refine ⟨_, _, rfl, rfl, rfl, generateBackupCodes_length rng 10, ?_, hst⟩
    exact findOne_updateOne (byId stored._id) (fun s =>
      { s with twoFactorSecret := some
                 (env.speakeasyGenerateSecret ("Shiksha (" ++ user.email ++ ")") now).base32,
               twoFactorBackupCodes := some (generateBackupCodes rng) })
      (fun s => rfl) db stored hdb hfind

theorem two_factor_setup_witness :
    twoFactorSetup toyAuthEnv 1000 collidingSource twoFactorAlice [twoFactorAlice, bob]
      = (twoFactorAlreadyEnabled, [twoFactorAlice, bob]) ∧
    ∃ secret codes,
      (twoFactorSetup toyAuthEnv 1000 collidingSource alice [alice, bob]).1.status = 200 ∧
      (twoFactorSetup toyAuthEnv 1000 collidingSource alice [alice, bob]).1.secret
        = some secret ∧
      (twoFactorSetup toyAuthEnv 1000 collidingSource alice [alice, bob]).1.backupCodes
        = some codes ∧
      codes.length = 10 ∧
      findOne (byId 1) (twoFactorSetup toyAuthEnv 1000 collidingSource alice [alice, bob]).2
        = some { alice with twoFactorSecret := some secret,
                            twoFactorBackupCodes := some codes } ∧
      alice.twoFactorEnabled = false :=
  ⟨(two_factor_setup toyAuthEnv 1000 collidingSource twoFactorAlice twoFactorAlice
      [twoFactorAlice, bob] (by decide) (by decide) (by decide)).1 rfl,
   (two_factor_setup toyAuthEnv 1000 collidingSource alice alice
      [alice, bob] (by decide) (by decide) (by decide)).2.2 rfl⟩

theorem twoFactorVerify_accepted (env : AuthEnv) (now : Nat) (req : TwoFactorVerifyRequest)
    (user : User) (db : Db) (hv : req.validationErrors = [])
    (hsecret : truthy user.twoFactorSecret = true)
    (htotp : env.totpVerify user.twoFactorSecret req.code now = true) :
    twoFactorVerify env now req user db
      = (twoFactorEnabledResponse,
         updateOne user._id (fun s => { s with twoFactorEnabled := true }) db) := by
  simp only [twoFactorVerify, hv, hsecret, htotp, List.isEmpty_nil, Bool.not_true,
    Bool.false_eq_true, if_false, save, preSave, List.mem_singleton, reduceCtorEq]
  split <;> rfl

/-- C20: 2fa/verify (validation passed) is rejected with 'Please setup 2FA
first' when the account has no twoFactorSecret and with 'Invalid 2FA code' when
the code fails TOTP verification against the stored secret; in both cases the
store, hence twoFactorEnabled and every other field, is unchanged.  So
twoFactorEnabled goes from false to true only when a secret is there and the
code passes TOTP verification. -/
theorem two_factor_verify_rejections (env : AuthEnv) (now : Nat) (req : TwoFactorVerifyRequest)
    (user stored : User) (db : Db) (hfind : findOne (byId stored._id) db = some stored)
    (hloaded : LoadedFrom user stored) (hv : req.validationErrors = []) :
    (truthy stored.twoFactorSecret = false →
      twoFactorVerify env now req user db = (setupTwoFactorFirst, db)) ∧
    (truthy stored.twoFactorSecret = true →
      env.totpVerify stored.twoFactorSecret req.code now = false →
      twoFactorVerify env now req user db = (invalidTwoFactorVerifyCode, db)) ∧
    setupTwoFactorFirst
      = { status := 400, success := false, message := some "Please setup 2FA first" } ∧
    invalidTwoFactorVerifyCode
      = { status := 400, success := false, message := some "Invalid 2FA code" } ∧
    (∀ s1, findOne (byId stored._id) (twoFactorVerify env now req user db).2 = some s1 →
      stored.twoFactorEnabled = false → s1.twoFactorEnabled = true →
      truthy stored.twoFactorSecret = true ∧
      env.totpVerify stored.twoFactorSecret req.code now = true) := by
  have hsec : user.twoFactorSecret = stored.twoFactorSecret := by rw [hloaded]
  have hrej1 : truthy stored.twoFactorSecret = false →
      twoFactorVerify env now req user db = (setupTwoFactorFirst, db) := by
    intro h
    simp [twoFactorVerify, hv, hsec, h]
  have hrej2 : truthy stored.twoFactorSecret = true →
      env.totpVerify stored.twoFactorSecret req.code now = false →
      twoFactorVerify env now req user db = (invalidTwoFactorVerifyCode, db) := by
    intro h1 h2
    simp [twoFactorVerify, hv, hsec, h1, h2]
  refine ⟨hrej1, hrej2, rfl, rfl, ?_⟩
  intro s1 hs1 hbefore hafter
  have hunchanged : (twoFactorVerify env now req user db).2 = db → False := by
    intro hsame
    rw [hsame, hfind] at hs1
    have : stored = s1 := Option.some.inj hs1
    rw [← this, hbefore] at hafter
    exact absurd hafter (by decide)
  cases h1 : truthy stored.twoFactorSecret with
  | false => exact absurd (by rw [hrej1 h1]) hunchanged
  | true =>
    cases h2 : env.totpVerify stored.twoFactorSecret req.code now with
    | false => exact absurd (by rw [hrej2 h1 h2]) hunchanged
    | true => exact ⟨rfl, rfl⟩

theorem two_factor_verify_rejections_witness :
    twoFactorVerify toyAuthEnv 1000 verifyRequest alice [alice, bob]
      = (setupTwoFactorFirst, [alice, bob]) ∧
    twoFactorVerify toyAuthEnv 1000 verifyRequest setupAlice [setupAlice, bob]
      = (invalidTwoFactorVerifyCode, [setupAlice, bob]) :=
  ⟨(two_factor_verify_rejections toyAuthEnv 1000 verifyRequest alice alice [alice, bob]
      (by decide) (by decide) rfl).1 (by decide),
   (two_factor_verify_rejections toyAuthEnv 1000 verifyRequest setupAlice setupAlice
      [setupAlice, bob] (by decide) (by decide) rfl).2.1 (by decide) (by decide)⟩

/-! ## The frame of the auth operations -/

theorem updateOne_of_not_found (id : Nat) (f : User → User) (db : Db)
    (h : findOne (byId id) db = none) : updateOne id f db = db := by
  induction db with
  | nil => rfl
  | cons x xs ih =>
    have hall := (findOne_eq_none (byId id) (x :: xs)).1 h
    have hx : x._id ≠ id := by
      have := hall x (List.mem_cons_self _ _)
      simpa [byId] using this
    have hxs : findOne (byId id) xs = none :=
      (findOne_eq_none (byId id) xs).2 (fun v hv => hall v (List.mem_cons_of_mem _ hv))
    simp [updateOne, hx, ih hxs]

/-- A write to the account `target` leaves a column of the store as it is when
it leaves that column of `target` as it is. -/
theorem map_updateOne_of_target {α : Type} (col : User → α) (f : User → User) (db : Db)
    (target : User) (hfind : findOne (byId target._id) db = some target)
    (hcol : col (f target) = col target) :
    (updateOne target._id f db).map col = db.map col := by
  induction db with
  | nil => rfl
  | cons x xs ih =>
    by_cases hx : x._id = target._id
    · have hb : byId target._id x = true := by simp [byId, hx]
      have hxt : x = target := by simpa [findOne, List.find?, hb] using hfind
      subst hxt
      simp [updateOne, hcol]
    · have hb : byId target._id x = false := by simp [byId, hx]
      have hxs : findOne (byId target._id) xs = some target := by
        simpa [findOne, List.find?, hb] using hfind
      simp [updateOne, hx, ih hxs]

theorem findOne_byId_target (db : Db) (id : Nat) (target : User)
    (hfind : findOne (byId id) db = some target) : target._id = id :=
  findOne_byId_id db id target hfind

theorem findOne_updateOne_target (f : User → User) (db : Db) (target : User)
    (hfind : findOne (byId target._id) db = some target) (hid : (f target)._id = target._id) :
    findOne (byId target._id) (updateOne target._id f db) = some (f target) := by
  induction db with
  | nil => simp [findOne] at hfind
  | cons x xs ih =>
    by_cases hx : x._id = target._id
    · have hb : byId target._id x = true := by simp [byId, hx]
      have hxt : x = target := by simpa [findOne, List.find?, hb] using hfind
      subst hxt
      simp [updateOne, findOne, List.find?, byId, hid]
    · have hb : byId target._id x = false := by simp [byId, hx]
      have hxs : findOne (byId target._id) xs = some target := by
        simpa [findOne, List.find?, hb] using hfind
      have := ih hxs
      simp only [findOne] at this
      simp [updateOne, hx, findOne, List.find?, hb, this]

theorem findOne_updateOne_other (f : User → User) (db : Db) (target : User)
    (hfind : findOne (byId target._id) db = some target) (hid : (f target)._id = target._id)
    (other : Nat) (hne : other ≠ target._id) :
    findOne (byId other) (updateOne target._id f db) = findOne (byId other) db := by
  induction db with
  | nil => rfl
  | cons x xs ih =>
    by_cases hx : x._id = target._id
    · have hb : byId target._id x = true := by simp [byId, hx]
      have hxt : x = target := by simpa [findOne, List.find?, hb] using hfind
      subst hxt
      have h1 : byId other x = false := by
        simp [byId]; exact fun e => hne e.symm
      have h2 : byId other (f x) = false := by
        simp [byId, hid]; exact fun e => hne e.symm
      simp [updateOne, findOne, List.find?, h1, h2]
    · have hbt : byId target._id x = false := by simp [byId, hx]
      have hxs : findOne (byId target._id) xs = some target := by
        simpa [findOne, List.find?, hbt] using hfind
      by_cases hb : byId other x = true
      · simp [updateOne, hx, findOne, List.find?, hb]
      · have hb2 : byId other x = false := by simpa using hb
        have := ih hxs
        simp only [findOne] at this
        simp [updateOne, hx, findOne, List.find?, hb2, this]

theorem findOne_append_of_some (p : User → Bool) (db l : Db) (u : User)
    (h : findOne p db = some u) : findOne p (db ++ l) = some u := by
  unfold findOne at *
  rw [List.find?_append, h]
  rfl

/-- The store keeps the 2FA invariant through every effect. -/
theorem effect_twoFactorInv (env : AuthEnv) (now : Nat) (op : AuthOp) (db db1 : Db)
    (hdb : UniqueIds db) (heff : Effect env now op db db1) (hinv : TwoFactorInv db) :
    TwoFactorInv db1 := by
  rcases heff with h | ⟨target, f, hfind, h, hframe⟩ | ⟨rng, newId, req, _, _, h⟩
  · rw [h]; exact hinv
  · rw [h]
    intro v hv
    have hmem := (findOne_mem _ db target hfind).1
    rcases mem_updateOne db target f hdb hmem v hv with h1 | ⟨h1, _⟩
    · rw [h1]; exact hframe.twoFactor (hinv target hmem)
    · exact hinv v h1
  · rw [h]
    intro v hv
    rcases List.mem_append.1 hv with h1 | h1
    · exact hinv v h1
    · have : v = registeredAccount env now rng newId req := by simpa using h1
      rw [this]
      intro hen
      simp [registeredAccount] at hen

/-- The stored password hashes stay through every effect of an operation that
sets no password. -/
theorem effect_password (env : AuthEnv) (now : Nat) (op : AuthOp) (db db1 : Db)
    (hop : op.setsPassword = false) (heff : Effect env now op db db1) :
    db1.map (fun u => (u._id, u.password)) = db.map (fun u => (u._id, u.password)) := by
  rcases heff with h | ⟨target, f, hfind, h, hframe⟩ | ⟨rng, newId, req, hreg, _, _⟩
  · rw [h]
  · rw [h]
    apply map_updateOne_of_target _ f db target hfind
    rw [hframe.id, hframe.password hop]
  · rw [hreg] at hop
    simp [AuthOp.setsPassword] at hop

/-- A lock that is still running is kept through every effect. -/
theorem effect_lock (env : AuthEnv) (now : Nat) (op : AuthOp) (db db1 : Db) (u : User) (t : Nat)
    (hdb : UniqueIds db) (heff : Effect env now op db db1) (hmem : u ∈ db)
    (hset : u.lockUntil = some t) (hfuture : now < t) :
    ∃ u1, findOne (byId u._id) db1 = some u1 ∧ u1.lockUntil = some t ∧
      u1.loginAttempts = u.loginAttempts := by
  have hu : findOne (byId u._id) db = some u := findOne_byId_of_mem db u hdb hmem
  rcases heff with h | ⟨target, f, hfind, h, hframe⟩ | ⟨rng, newId, req, _, _, h⟩
  · rw [h]; exact ⟨u, hu, hset, rfl⟩
  · rw [h]
    by_cases hid : u._id = target._id
    · have htu : target = u := by
        rw [← hid, hu] at hfind
        exact (Option.some.inj hfind).symm
      subst htu
      have hlocked : target.isLocked now = true := by simp [User.isLocked, hset, hfuture]
      have hkeep : (f target).lockUntil = target.lockUntil ∧
          (f target).loginAttempts = target.loginAttempts := by
        rcases hframe.lock with hl | ⟨_, hl⟩
        · exact hl
        · rw [hlocked] at hl; exact absurd hl (by decide)
      exact ⟨f target, findOne_updateOne_target f db target hfind hframe.id,
        by rw [hkeep.1, hset], hkeep.2⟩
    · rw [findOne_updateOne_other f db target hfind hframe.id u._id hid]
      exact ⟨u, hu, hset, rfl⟩
  · rw [h]
    exact ⟨u, findOne_append_of_some _ db _ u hu, hset, rfl⟩

theorem write_id (p : Path) (doc s : User) : (p.write doc s)._id = s._id := by
  cases p <;> rfl

theorem write_lock (p : Path) (doc s : User) :
    (p.write doc s).lockUntil = s.lockUntil ∧ (p.write doc s).loginAttempts = s.loginAttempts := by
  cases p <;> exact ⟨rfl, rfl⟩

theorem write_password (p : Path) (doc s : User) (hp : p ≠ Path.password) :
    (p.write doc s).password = s.password := by
  cases p <;> first | rfl | exact absurd rfl hp

theorem write_twoFactor (p : Path) (doc s : User) (h1 : p ≠ Path.twoFactorEnabled)
    (h2 : p ≠ Path.twoFactorSecret) :
    (p.write doc s).twoFactorEnabled = s.twoFactorEnabled ∧
    (p.write doc s).twoFactorSecret = s.twoFactorSecret := by
  cases p <;> first | exact ⟨rfl, rfl⟩ | exact absurd rfl h1 | exact absurd rfl h2

theorem saveDelta_id (modified : List Path) (doc : User) :
    ∀ s : User, (saveDelta modified doc s)._id = s._id := by
  induction modified with
  | nil => intro s; rfl
  | cons p ps ih =>
    intro s
    simp only [saveDelta, List.foldl] at ih ⊢
    rw [ih, write_id]

theorem saveDelta_lock (modified : List Path) (doc : User) :
    ∀ s : User, (saveDelta modified doc s).lockUntil = s.lockUntil ∧
      (saveDelta modified doc s).loginAttempts = s.loginAttempts := by
  induction modified with
  | nil => intro s; exact ⟨rfl, rfl⟩
  | cons p ps ih =>
    intro s
    simp only [saveDelta, List.foldl] at ih ⊢
    rw [(ih _).1, (ih _).2]
    exact write_lock p doc s

theorem saveDelta_password (modified : List Path) (doc : User)
    (hpw : Path.password ∉ modified) :
    ∀ s : User, (saveDelta modified doc s).password = s.password := by
  induction modified with
  | nil => intro s; rfl
  | cons p ps ih =>
    intro s
    have hp : p ≠ Path.password := fun e => hpw (e ▸ List.mem_cons_self _ _)
    have hps : Path.password ∉ ps := fun e => hpw (List.mem_cons_of_mem _ e)
    have ih2 := ih hps
    simp only [saveDelta, List.foldl] at ih2 ⊢
    rw [ih2, write_password p doc s hp]

theorem saveDelta_twoFactor (modified : List Path) (doc : User)
    (h1 : Path.twoFactorEnabled ∉ modified) (h2 : Path.twoFactorSecret ∉ modified) :
    ∀ s : User, (saveDelta modified doc s).twoFactorEnabled = s.twoFactorEnabled ∧
      (saveDelta modified doc s).twoFactorSecret = s.twoFactorSecret := by
  induction modified with
  | nil => intro s; exact ⟨rfl, rfl⟩
  | cons p ps ih =>
    intro s
    have hp1 : p ≠ Path.twoFactorEnabled := fun e => h1 (e ▸ List.mem_cons_self _ _)
    have hp2 : p ≠ Path.twoFactorSecret := fun e => h2 (e ▸ List.mem_cons_self _ _)
    have ih2 := ih (fun e => h1 (List.mem_cons_of_mem _ e)) (fun e => h2 (List.mem_cons_of_mem _ e))
    simp only [saveDelta, List.foldl] at ih2 ⊢
    rw [(ih2 _).1, (ih2 _).2]
    exact write_twoFactor p doc s hp1 hp2

theorem preSave_id (env : Env) (now : Nat) (modified : List Path) (doc : User) :
    (preSave env now modified doc)._id = doc._id := by
  unfold preSave
  split <;> rfl

/-- The effect of one `save` of a document loaded from the account `target`. -/
theorem effect_of_save (env : AuthEnv) (now : Nat) (op : AuthOp) (db : Db)
    (modified : List Path) (doc target : User)
    (hfind : findOne (byId target._id) db = some target) (hid : doc._id = target._id)
    (hpw : op.setsPassword = false → Path.password ∉ modified)
    (h2fa : TwoFactorOk target →
      TwoFactorOk (saveDelta modified (preSave env.toEnv now modified doc) target)) :
    Effect env now op db (save env.toEnv now modified doc db).2 := by
  refine Or.inr (Or.inl ⟨target, saveDelta modified (preSave env.toEnv now modified doc), hfind,
    ?_, ?_⟩)
  · simp only [save]
    rw [preSave_id, hid]
  · exact
      { id := saveDelta_id _ _ _
        password := fun h => saveDelta_password _ _ (hpw h) _
        lock := Or.inl (saveDelta_lock _ _ _)
        twoFactor := h2fa }

theorem twoFactorOk_of_untouched (s s1 : User) (h1 : s1.twoFactorEnabled = s.twoFactorEnabled)
    (h2 : s1.twoFactorSecret = s.twoFactorSecret) (h : TwoFactorOk s) : TwoFactorOk s1 := by
  unfold TwoFactorOk at *
  rw [h1, h2]; exact h

theorem logout_effect (env : AuthEnv) (now : Nat) (user : User) (db : Db)
    (hadm : (AuthOp.logout user).Admissible db) :
    Effect env now (AuthOp.logout user) db ((AuthOp.logout user).run env now db).2 := by
  obtain ⟨stored, hfind, hloaded⟩ := hadm
  have hid : user._id = stored._id := loadedFrom_id user stored hloaded
  exact effect_of_save env now _ db [Path.refreshToken] { user with refreshToken := none } stored
    hfind hid (fun _ => by decide)
    (twoFactorOk_of_untouched _ _ (saveDelta_twoFactor _ _ (by decide) (by decide) _).1
      (saveDelta_twoFactor _ _ (by decide) (by decide) _).2)

theorem findOne_byId_of_findOne (p : User → Bool) (db : Db) (u : User) (hdb : UniqueIds db)
    (h : findOne p db = some u) : findOne (byId u._id) db = some u :=
  findOne_byId_of_mem db u hdb (findOne_mem p db u h).1

theorem refreshToken_effect (env : AuthEnv) (now : Nat) (req : RefreshRequest) (db : Db) :
    Effect env now (AuthOp.refreshToken req) db ((AuthOp.refreshToken req).run env now db).2 :=
  Or.inl (refreshTokenRoute_store env now req db)

theorem verifyEmail_effect (env : AuthEnv) (now : Nat) (token : String) (db : Db)
    (hdb : UniqueIds db) :
    Effect env now (AuthOp.verifyEmail token) db ((AuthOp.verifyEmail token).run env now db).2 := by
  show Effect env now _ db (verifyEmail env now token db).2
  cases hf : findOne (verificationFilter (hashToken env token) now) db with
  | none => rw [verifyEmail_rejected env now token db hf]; exact Or.inl rfl
  | some u =>
    have hbyId := findOne_byId_of_findOne _ db u hdb hf
    have := effect_of_save env now (AuthOp.verifyEmail token) db
      [Path.isEmailVerified, Path.emailVerificationToken, Path.emailVerificationExpire]
      { u with isEmailVerified := true, emailVerificationToken := none,
               emailVerificationExpire := none } u hbyId rfl (fun _ => by decide)
      (twoFactorOk_of_untouched _ _ (saveDelta_twoFactor _ _ (by decide) (by decide) _).1
        (saveDelta_twoFactor _ _ (by decide) (by decide) _).2)
    simpa [verifyEmail, hf] using this

theorem resetPassword_effect (env : AuthEnv) (now : Nat) (req : ResetPasswordRequest) (db : Db)
    (hdb : UniqueIds db) :
    Effect env now (AuthOp.resetPassword req) db
      ((AuthOp.resetPassword req).run env now db).2 := by
  show Effect env now _ db (resetPassword env now req db).2
  by_cases hv : req.validationErrors = []
  · cases hf : findOne (resetFilter (hashToken env req.token) now) db with
    | none => rw [resetPassword_rejected env now req db hv hf]; exact Or.inl rfl
    | some u =>
      have hbyId := findOne_byId_of_findOne _ db u hdb hf
      rw [resetPassword_accepted env now req db u hv hf]
      refine Or.inr (Or.inl ⟨u, resetWrite env now req.password u.password, hbyId, rfl, ?_⟩)
      exact
        { id := rfl
          password := fun h => by simp [AuthOp.setsPassword] at h
          lock := Or.inl ⟨rfl, rfl⟩
          twoFactor := twoFactorOk_of_untouched _ _ rfl rfl }
  · have : (resetPassword env now req db).2 = db := by simp [resetPassword, hv]
    exact Or.inl this

theorem forgotPassword_effect (env : AuthEnv) (now : Nat) (rng : RandomSource)
    (req : ForgotPasswordRequest) (db : Db) (hdb : UniqueIds db) :
    Effect env now (AuthOp.forgotPassword rng req) db
      ((AuthOp.forgotPassword rng req).run env now db).2 := by
  show Effect env now _ db (forgotPassword env now rng req db).2
  by_cases hv : req.validationErrors = []
  · cases hf : findOne (byEmail req.email) db with
    | none =>
      have : (forgotPassword env now rng req db).2 = db := by simp [forgotPassword, hv, hf]
      exact Or.inl this
    | some u =>
      have hbyId := findOne_byId_of_findOne _ db u hdb hf
      have := effect_of_save env now (AuthOp.forgotPassword rng req) db
        [Path.resetPasswordToken, Path.resetPasswordExpire]
        { u with resetPasswordToken := some (hashToken env (generateRandomToken rng)),
                 resetPasswordExpire := some (now + 60 * 60 * 1000) } u hbyId rfl
        (fun _ => by decide)
        (twoFactorOk_of_untouched _ _ (saveDelta_twoFactor _ _ (by decide) (by decide) _).1
          (saveDelta_twoFactor _ _ (by decide) (by decide) _).2)
      have hstore : (forgotPassword env now rng req db).2
          = (save env.toEnv now [Path.resetPasswordToken, Path.resetPasswordExpire]
              { u with resetPasswordToken := some (hashToken env (generateRandomToken rng)),
                       resetPasswordExpire := some (now + 60 * 60 * 1000) } db).2 := by
        simp only [forgotPassword, hv, hf, List.isEmpty_nil, Bool.not_true, Bool.false_eq_true,
          if_false]
        split <;> rfl
      rw [hstore]; exact this
  · have : (forgotPassword env now rng req db).2 = db := by simp [forgotPassword, hv]
    exact Or.inl this

theorem resendVerification_effect (env : AuthEnv) (now : Nat) (rng : RandomSource) (user : User)
    (db : Db) (hadm : (AuthOp.resendVerification rng user).Admissible db) :
    Effect env now (AuthOp.resendVerification rng user) db
      ((AuthOp.resendVerification rng user).run env now db).2 := by
  show Effect env now _ db (resendVerificationTraced env now rng user db).1.2
  obtain ⟨stored, hfind, hloaded⟩ := hadm
  have hid : user._id = stored._id := loadedFrom_id user stored hloaded
  by_cases hver : user.isEmailVerified = true
  · have : (resendVerificationTraced env now rng user db).1.2 = db := by
      simp [resendVerificationTraced, hver]
    exact Or.inl this
  · have := effect_of_save env now (AuthOp.resendVerification rng user) db
      [Path.emailVerificationToken, Path.emailVerificationExpire]
      { user with emailVerificationToken := some (hashToken env (generateRandomToken rng)),
                  emailVerificationExpire := some (now + 24 * 60 * 60 * 1000) } stored hfind hid
      (fun _ => by decide)
      (twoFactorOk_of_untouched _ _ (saveDelta_twoFactor _ _ (by decide) (by decide) _).1
        (saveDelta_twoFactor _ _ (by decide) (by decide) _).2)
    have hstore : (resendVerificationTraced env now rng user db).1.2
        = (save env.toEnv now [Path.emailVerificationToken, Path.emailVerificationExpire]
            { user with
              emailVerificationToken := some (hashToken env (generateRandomToken rng)),
              emailVerificationExpire := some (now + 24 * 60 * 60 * 1000) } db).2 := by
      simp only [resendVerificationTraced, hver, Bool.false_eq_true, if_false]
      split <;> rfl
    rw [hstore]; exact this

/-- The store after `profileSave`: unchanged, or one `save` of paths among
those of the profile. -/
theorem profileSave_effect (env : AuthEnv) (now : Nat) (op : AuthOp) (name : Option String)
    (doc target : User) (modified : List Path) (db : Db)
    (hfind : findOne (byId target._id) db = some target) (hid : doc._id = target._id)
    (hmod : ∀ p ∈ modified, p ≠ Path.password ∧ p ≠ Path.twoFactorEnabled ∧
      p ≠ Path.twoFactorSecret) :
    Effect env now op db (profileSave env now name doc modified db).2 := by
  have hmod2 : ∀ p ∈ (if truthy name = true then Path.name :: modified else modified),
      p ≠ Path.password ∧ p ≠ Path.twoFactorEnabled ∧ p ≠ Path.twoFactorSecret := by
    intro p hp
    split at hp
    · rcases List.mem_cons.1 hp with e | e
      · rw [e]; exact ⟨by decide, by decide, by decide⟩
      · exact hmod p e
    · exact hmod p hp
  have hsave := effect_of_save env now op db
    (if truthy name = true then Path.name :: modified else modified)
    (if truthy name = true then { doc with name := name.getD "" } else doc) target hfind
    (by split <;> exact hid)
    (fun _ e => (hmod2 _ e).1 rfl)
    (twoFactorOk_of_untouched _ _
      (saveDelta_twoFactor _ _ (fun e => (hmod2 _ e).2.1 rfl) (fun e => (hmod2 _ e).2.2 rfl) _).1
      (saveDelta_twoFactor _ _ (fun e => (hmod2 _ e).2.1 rfl) (fun e => (hmod2 _ e).2.2 rfl) _).2)
  cases hn : truthy name with
  | false =>
    simp only [hn, Bool.false_eq_true, if_false] at hsave
    simp only [profileSave, hn, Bool.false_eq_true, if_false]
    split
    · exact Or.inl rfl
    · exact hsave
  | true =>
    simp only [hn, if_true] at hsave
    simp only [profileSave, hn, if_true]
    split
    · exact Or.inl rfl
    · exact hsave

theorem updateProfile_effect (env : AuthEnv) (now : Nat) (rng : RandomSource)
    (req : ProfileRequest) (user : User) (db : Db)
    (hadm : (AuthOp.updateProfile rng req user).Admissible db) :
    Effect env now (AuthOp.updateProfile rng req user) db
      ((AuthOp.updateProfile rng req user).run env now db).2 := by
  show Effect env now _ db (updateProfileTraced env now rng req user db).1.2
  obtain ⟨stored, hfind, hloaded⟩ := hadm
  have hid : user._id = stored._id := loadedFrom_id user stored hloaded
  unfold updateProfileTraced
  split
  · exact Or.inl rfl
  · split
    · simp only []
      split
      · exact Or.inl rfl
      · have := profileSave_effect env now (AuthOp.updateProfile rng req user) req.name
          { user with email := req.email.getD "", isEmailVerified := false,
                      emailVerificationToken := some (hashToken env (generateRandomToken rng)),
                      emailVerificationExpire := some (now + 24 * 60 * 60 * 1000) } stored
          [Path.email, Path.isEmailVerified, Path.emailVerificationToken,
           Path.emailVerificationExpire] db hfind hid (by decide)
        split <;> exact this
    · exact profileSave_effect env now _ req.name user stored [] db hfind hid
        (by intro p hp; simp at hp)

theorem twoFactorSetup_effect (env : AuthEnv) (now : Nat) (rng : RandomSource) (user : User)
    (db : Db) (hadm : (AuthOp.twoFactorSetup rng user).Admissible db) :
    Effect env now (AuthOp.twoFactorSetup rng user) db
      ((AuthOp.twoFactorSetup rng user).run env now db).2 := by
  show Effect env now _ db (twoFactorSetup env now rng user db).2
  obtain ⟨stored, hfind, hloaded⟩ := hadm
  have hid : user._id = stored._id := loadedFrom_id user stored hloaded
  by_cases hen : user.twoFactorEnabled = true
  · have : (twoFactorSetup env now rng user db).2 = db := by simp [twoFactorSetup, hen]
    exact Or.inl this
  · have hen2 : user.twoFactorEnabled = false := by simpa using hen
    rw [twoFactorSetup_accepted env now rng user db hen2]
    refine Or.inr (Or.inl ⟨stored, _, hfind, by rw [hid], ?_⟩)
    exact
      { id := rfl
        password := fun _ => rfl
        lock := Or.inl ⟨rfl, rfl⟩
        twoFactor := fun _ _ => by simp }

theorem twoFactorVerify_effect (env : AuthEnv) (now : Nat) (req : TwoFactorVerifyRequest)
    (user : User) (db : Db) (hadm : (AuthOp.twoFactorVerify req user).Admissible db) :
    Effect env now (AuthOp.twoFactorVerify req user) db
      ((AuthOp.twoFactorVerify req user).run env now db).2 := by
  show Effect env now _ db (twoFactorVerify env now req user db).2
  obtain ⟨stored, hfind, hloaded⟩ := hadm
  have hid : user._id = stored._id := loadedFrom_id user stored hloaded
  have hsec : user.twoFactorSecret = stored.twoFactorSecret := by rw [hloaded]
  by_cases hv : req.validationErrors = []
  · cases h1 : truthy user.twoFactorSecret with
    | false =>
      have : (twoFactorVerify env now req user db).2 = db := by
        simp [twoFactorVerify, hv, h1]
      exact Or.inl this
    | true =>
      cases h2 : env.totpVerify user.twoFactorSecret req.code now with
      | false =>
        have : (twoFactorVerify env now req user db).2 = db := by
          simp [twoFactorVerify, hv, h1, h2]
        exact Or.inl this
      | true =>
        rw [twoFactorVerify_accepted env now req user db hv h1 h2]
        refine Or.inr (Or.inl ⟨stored, _, hfind, by rw [hid], ?_⟩)
        have hpresent : stored.twoFactorSecret ≠ none := by
          rw [← hsec]
          intro hnone
          rw [hnone] at h1
          simp [truthy] at h1
        exact
          { id := rfl
            password := fun _ => rfl
            lock := Or.inl ⟨rfl, rfl⟩
            twoFactor := fun _ _ => hpresent }
  · have : (twoFactorVerify env now req user db).2 = db := by simp [twoFactorVerify, hv]
    exact Or.inl this

theorem twoFactorDisable_accepted (env : AuthEnv) (now : Nat) (req : TwoFactorDisableRequest)
    (reqUser : User) (db : Db) (u : User) (hv : req.validationErrors = [])
    (hfind : findOne (byId reqUser._id) db = some u)
    (hpw : u.comparePassword env.toEnv req.password = .ok true) :
    twoFactorDisable env now req reqUser db
      = (twoFactorDisabledResponse,
         updateOne u._id (fun s =>
           { s with twoFactorEnabled := false, twoFactorSecret := none,
                    twoFactorBackupCodes := none }) db) := by
  simp only [twoFactorDisable, hv, hfind, hpw, List.isEmpty_nil, Bool.not_true,
    Bool.false_eq_true, if_false, save, preSave, List.mem_cons, List.mem_singleton, reduceCtorEq,
    or_self]
  rfl

theorem twoFactorDisable_rejected (env : AuthEnv) (now : Nat) (req : TwoFactorDisableRequest)
    (reqUser : User) (db : Db) (u : User) (hv : req.validationErrors = [])
    (hfind : findOne (byId reqUser._id) db = some u)
    (hpw : u.comparePassword env.toEnv req.password = .ok false) :
    twoFactorDisable env now req reqUser db = (invalidPassword, db) := by
  simp [twoFactorDisable, hv, hfind, hpw]

theorem twoFactorDisable_effect (env : AuthEnv) (now : Nat) (req : TwoFactorDisableRequest)
    (user : User) (db : Db) :
    Effect env now (AuthOp.twoFactorDisable req user) db
      ((AuthOp.twoFactorDisable req user).run env now db).2 := by
  show Effect env now _ db (twoFactorDisable env now req user db).2
  by_cases hv : req.validationErrors = []
  · cases hf : findOne (byId user._id) db with
    | none =>
      have : (twoFactorDisable env now req user db).2 = db := by
        simp [twoFactorDisable, hv, hf]
      exact Or.inl this
    | some u =>
      have huid : u._id = user._id := findOne_byId_id db user._id u hf
      cases hpw : u.comparePassword env.toEnv req.password with
      | error message =>
        have : (twoFactorDisable env now req user db).2 = db := by
          simp [twoFactorDisable, hv, hf, hpw]
        exact Or.inl this
      | ok isMatch =>
        cases isMatch with
        | false =>
          rw [twoFactorDisable_rejected env now req user db u hv hf hpw]; exact Or.inl rfl
        | true =>
          rw [twoFactorDisable_accepted env now req user db u hv hf hpw]
          refine Or.inr (Or.inl ⟨u, _, by rw [huid]; exact hf, rfl, ?_⟩)
          exact
            { id := rfl
              password := fun _ => rfl
              lock := Or.inl ⟨rfl, rfl⟩
              twoFactor := fun _ h => by simp at h }
  · have : (twoFactorDisable env now req user db).2 = db := by simp [twoFactorDisable, hv]
    exact Or.inl this

theorem register_effect (env : AuthEnv) (now : Nat) (rng : RandomSource) (newId : Nat)
    (req : RegisterRequest) (db : Db)
    (hadm : (AuthOp.register rng newId req).Admissible db) :
    Effect env now (AuthOp.register rng newId req) db
      ((AuthOp.register rng newId req).run env now db).2 := by
  show Effect env now _ db (register env now rng newId req db).2
  by_cases hv : req.validationErrors = []
  · cases hf : findOne (byEmail req.email) db with
    | some u =>
      have : (register env now rng newId req db).2 = db := by simp [register, hv, hf]
      exact Or.inl this
    | none =>
      cases hs : schemaAccepts env req.name req.email req.password with
      | false =>
        have : (register env now rng newId req db).2 = db := by simp [register, hv, hf, hs]
        exact Or.inl this
      | true =>
        rw [register_accepted env now rng newId req db hv hf hs hadm]
        exact Or.inr (Or.inr ⟨rng, newId, req, rfl, hadm, rfl⟩)
  · have : (register env now rng newId req db).2 = db := by simp [register, hv]
    exact Or.inl this

theorem login_frame (now : Nat) (req : LoginRequest) (s s1 : User)
    (hlock : s.isLocked now = false) (hid : s1._id = s._id) (hpw : s1.password = s.password)
    (h1 : s1.twoFactorEnabled = s.twoFactorEnabled)
    (h2 : s1.twoFactorSecret = s.twoFactorSecret) :
    Frame now (AuthOp.login req) s s1 :=
  { id := hid
    password := fun _ => hpw
    lock := Or.inr ⟨rfl, hlock⟩
    twoFactor := twoFactorOk_of_untouched s s1 h1 h2 }

theorem login_effect (env : AuthEnv) (now : Nat) (req : LoginRequest) (db : Db)
    (hdb : UniqueIds db) :
    Effect env now (AuthOp.login req) db ((AuthOp.login req).run env now db).2 := by
  show Effect env now _ db (login env.toEnv now req db).2
  by_cases hv : req.validationErrors = []
  · cases hf : findOne (byEmail req.email) db with
    | none => rw [login_absent env.toEnv now req db hv hf]; exact Or.inl rfl
    | some u =>
      have hbyId := findOne_byId_of_findOne _ db u hdb hf
      cases hlock : u.isLocked now with
      | true => rw [login_locked env.toEnv now req db u hv hf hlock]; exact Or.inl rfl
      | false =>
        cases hpw : u.comparePassword env.toEnv req.password with
        | error message =>
          have : (login env.toEnv now req db).2 = db := by
            simp [login, hv, hf, hlock, hpw]
          exact Or.inl this
        | ok isMatch =>
          cases isMatch with
          | false =>
            rw [login_wrong_password env.toEnv now req db u hv hf hlock hpw]
            exact Or.inr (Or.inl ⟨u, (u.incLoginAttemptsUpdate now).apply, hbyId, rfl,
              login_frame now req u _ hlock rfl rfl rfl rfl⟩)
          | true =>
            cases h2fa : u.twoFactorEnabled with
            | false =>
              rw [login_success_without_two_factor env.toEnv now req db u hv hf hlock hpw h2fa]
              exact Or.inr (Or.inl ⟨u, loginSuccessWrite env.toEnv now u._id, hbyId, rfl,
                login_frame now req u _ hlock rfl rfl rfl rfl⟩)
            | true =>
              cases htr : truthy req.twoFactorCode with
              | false =>
                rw [login_requires_two_factor env.toEnv now req db u hv hf hlock hpw h2fa htr]
                exact Or.inl rfl
              | true =>
                obtain ⟨code, hcode, hne⟩ : ∃ code, req.twoFactorCode = some code ∧ code ≠ "" := by
                  cases hc : req.twoFactorCode with
                  | none => rw [hc] at htr; simp [truthy] at htr
                  | some code =>
                    rw [hc] at htr
                    exact ⟨code, rfl, by simpa [truthy] using htr⟩
                cases htotp : env.totpVerify u.twoFactorSecret code now with
                | true =>
                  rw [login_totp_accepted env.toEnv now req db u code hv hf hlock hpw h2fa hcode
                    hne htotp]
                  exact Or.inr (Or.inl ⟨u, loginSuccessWrite env.toEnv now u._id, hbyId, rfl,
                    login_frame now req u _ hlock rfl rfl rfl rfl⟩)
                | false =>
                  by_cases hin : ∃ codes, u.twoFactorBackupCodes = some codes ∧ code ∈ codes
                  · obtain ⟨codes, hcodes, hmem⟩ := hin
                    cases hidx : indexOf codes code with
                    | none => exact absurd hmem ((indexOf_eq_none codes code).1 hidx)
                    | some i =>
                      rw [login_backup_code_accepted env.toEnv now req db u code codes i hv hf
                        hlock hpw h2fa hcode hne htotp hcodes hidx]
                      exact Or.inr (Or.inl ⟨u, (fun s => loginSuccessWrite env.toEnv now u._id
                          { s with twoFactorBackupCodes := some (splice1 codes i) }), hbyId, rfl,
                        login_frame now req u _ hlock rfl rfl rfl rfl⟩)
                  · rw [login_two_factor_rejected env.toEnv now req db u code hv hf hlock hpw h2fa
                      hcode hne htotp (fun codes hc hmem => hin ⟨codes, hc, hmem⟩)]
                    exact Or.inr (Or.inl ⟨u, (u.incLoginAttemptsUpdate now).apply, hbyId, rfl,
                      login_frame now req u _ hlock rfl rfl rfl rfl⟩)
  · rw [login_invalid_request env.toEnv now req db hv]; exact Or.inl rfl

/-- Every operation has one of the three effects on the store. -/
theorem run_effect (env : AuthEnv) (now : Nat) (op : AuthOp) (db : Db) (hdb : UniqueIds db)
    (hadm : op.Admissible db) : Effect env now op db (op.run env now db).2 := by
  cases op with
  | register rng newId req => exact register_effect env now rng newId req db hadm
  | login req => exact login_effect env now req db hdb
  | refreshToken req => exact refreshToken_effect env now req db
  | updateProfile rng req user => exact updateProfile_effect env now rng req user db hadm
  | logout user => exact logout_effect env now user db hadm
  | verifyEmail token => exact verifyEmail_effect env now token db hdb
  | resendVerification rng user => exact resendVerification_effect env now rng user db hadm
  | forgotPassword rng req => exact forgotPassword_effect env now rng req db hdb
  | resetPassword req => exact resetPassword_effect env now req db hdb
  | twoFactorSetup rng user => exact twoFactorSetup_effect env now rng user db hadm
  | twoFactorVerify req user => exact twoFactorVerify_effect env now req user db hadm
  | twoFactorDisable req user => exact twoFactorDisable_effect env now req user db

/-! ## Invariants over all operations -/

/-- C21: the predicate 'twoFactorEnabled = true implies twoFactorSecret is
present' holds for every newly registered account and is preserved by every
auth operation (register, login, refresh-token, profile update, logout,
verify-email, resend-verification, forgot-password, reset-password, 2fa/setup,
2fa/verify, 2fa/disable). -/
theorem two_factor_invariant_preserved (env : AuthEnv) (now : Nat) (op : AuthOp) (db : Db)
    (hdb : UniqueIds db) (hadm : op.Admissible db) (hinv : TwoFactorInv db) :
    TwoFactorInv (op.run env now db).2 ∧
    (∀ rng newId req, TwoFactorOk (registeredAccount env now rng newId req)) := by
  refine ⟨effect_twoFactorInv env now op db _ hdb (run_effect env now op db hdb hadm) hinv, ?_⟩
  intro rng newId req hen
  simp [registeredAccount] at hen

theorem two_factor_invariant_preserved_witness :
    TwoFactorInv ((AuthOp.twoFactorDisable disableRequest twoFactorAlice).run toyAuthEnv 1000
      [twoFactorAlice, bob]).2 ∧
    TwoFactorInv ((AuthOp.twoFactorVerify verifyRequest setupAlice).run toyAuthEnv 1000
      [setupAlice, bob]).2 :=
  ⟨(two_factor_invariant_preserved toyAuthEnv 1000
      (AuthOp.twoFactorDisable disableRequest twoFactorAlice) [twoFactorAlice, bob]
      (by decide) ⟨twoFactorAlice, by decide, by decide⟩ (by decide)).1,
   (two_factor_invariant_preserved toyAuthEnv 1000
      (AuthOp.twoFactorVerify verifyRequest setupAlice) [setupAlice, bob]
      (by decide) ⟨setupAlice, by decide, by decide⟩ (by decide)).1⟩

/-- C26: the password hash is recomputed only when the password path is
modified: a save whose modified paths do not include `password` leaves the
document as the hook found it and the stored hash as it was; so every auth
operation other than register and reset-password (login, refresh-token,
logout, profile update, verify-email, resend-verification, forgot-password,
2fa/setup, 2fa/verify, 2fa/disable) leaves the stored password hash of every
account unchanged. -/
theorem password_hash_kept_unless_modified (env : AuthEnv) (now : Nat) (op : AuthOp) (db : Db)
    (hdb : UniqueIds db) (hadm : op.Admissible db) (hop : op.setsPassword = false) :
    (∀ (modified : List Path) (doc : User), Path.password ∉ modified →
      preSave env.toEnv now modified doc = doc) ∧
    (∀ (modified : List Path) (doc stored : User), Path.password ∉ modified →
      (saveDelta modified (preSave env.toEnv now modified doc) stored).password
        = stored.password) ∧
    (op.run env now db).2.map (fun u => (u._id, u.password))
      = db.map (fun u => (u._id, u.password)) := by
  refine ⟨?_, ?_, effect_password env now op db _ hop (run_effect env now op db hdb hadm)⟩
  · intro modified doc h
    simp [preSave, h]
  · intro modified doc stored h
    exact saveDelta_password modified _ h stored

theorem password_hash_kept_unless_modified_witness :
    ((AuthOp.login aliceLogin).run toyAuthEnv 1000 [alice, bob]).2.map
        (fun u => (u._id, u.password))
      = [(1, "hash(secret1)"), (2, "hash(hunter22)")] :=
  (password_hash_kept_unless_modified toyAuthEnv 1000 (AuthOp.login aliceLogin) [alice, bob]
    (by decide) trivial rfl).2.2

/-- C27: a lock cannot be lifted early.  For every stored account whose
lockUntil is in the future, no auth operation run before lockUntil (login
with any credentials, reset-password, logout, profile update, verify-email,
forgot-password, the 2FA operations, and register, refresh-token and
resend-verification as well) removes lockUntil, moves it, or changes
loginAttempts. -/
theorem lock_not_lifted_early (env : AuthEnv) (now : Nat) (op : AuthOp) (db : Db) (u : User)
    (t : Nat) (hdb : UniqueIds db) (hadm : op.Admissible db) (hmem : u ∈ db)
    (hset : u.lockUntil = some t) (hfuture : now < t) :
    ∃ u1, findOne (byId u._id) (op.run env now db).2 = some u1 ∧
      u1.lockUntil = some t ∧ u1.loginAttempts = u.loginAttempts :=
  effect_lock env now op db _ u t hdb (run_effect env now op db hdb hadm) hmem hset hfuture

theorem lock_not_lifted_early_witness :
    ∃ u1, findOne (byId 1) ((AuthOp.login aliceLogin).run toyAuthEnv 6000
        [lockedAlice, bob]).2 = some u1 ∧
      u1.lockUntil = some 7205000 ∧ u1.loginAttempts = 5 :=
  lock_not_lifted_early toyAuthEnv 6000 (AuthOp.login aliceLogin) [lockedAlice, bob]
    lockedAlice 7205000 (by decide) trivial (by decide) rfl (by decide)

/-! ## Disabling 2FA -/

/-- C22: 2fa/disable (validation passed) with a password that does not match
the current password of the account answers 401 'Invalid password' and leaves
the store unchanged; with the matching password it sets twoFactorEnabled to
false and removes twoFactorSecret and twoFactorBackupCodes, every other field
of the account, and every other account, staying as it was. -/
theorem two_factor_disable (env : AuthEnv) (now : Nat) (req : TwoFactorDisableRequest)
    (reqUser : User) (db : Db) (u : User) (hdb : UniqueIds db)
    (hv : req.validationErrors = []) (hfind : findOne (byId reqUser._id) db = some u) :
    (u.comparePassword env.toEnv req.password = .ok false →
      twoFactorDisable env now req reqUser db = (invalidPassword, db)) ∧
    invalidPassword = { status := 401, success := false, message := some "Invalid password" } ∧
    (u.comparePassword env.toEnv req.password = .ok true →
      (twoFactorDisable env now req reqUser db).1.status = 200 ∧
      findOne (byId u._id) (twoFactorDisable env now req reqUser db).2
        = some { u with twoFactorEnabled := false, twoFactorSecret := none,
                        twoFactorBackupCodes := none } ∧
      ∀ other, other ≠ u._id →
        findOne (byId other) (twoFactorDisable env now req reqUser db).2
          = findOne (byId other) db) := by
  have hbyId : findOne (byId u._id) db = some u := findOne_byId_of_findOne _ db u hdb hfind
  refine ⟨fun hpw => twoFactorDisable_rejected env now req reqUser db u hv hfind hpw, rfl, ?_⟩
  intro hpw
  rw [twoFactorDisable_accepted env now req reqUser db u hv hfind hpw]
  refine ⟨rfl, ?_, ?_⟩
  · exact findOne_updateOne_target (fun s =>
      { s with twoFactorEnabled := false, twoFactorSecret := none,
               twoFactorBackupCodes := none }) db u hbyId rfl
  · intro other hne
    exact findOne_updateOne_other (fun s =>
      { s with twoFactorEnabled := false, twoFactorSecret := none,
               twoFactorBackupCodes := none }) db u hbyId rfl other hne

theorem two_factor_disable_witness :
    twoFactorDisable toyAuthEnv 1000 { disableRequest with password := .string "guess" } twoFactorAlice
        [twoFactorAlice, bob] = (invalidPassword, [twoFactorAlice, bob]) ∧
    findOne (byId 1) (twoFactorDisable toyAuthEnv 1000 disableRequest twoFactorAlice
        [twoFactorAlice, bob]).2
      = some { twoFactorAlice with twoFactorEnabled := false, twoFactorSecret := none,
                                   twoFactorBackupCodes := none } :=
  ⟨(two_factor_disable toyAuthEnv 1000 { disableRequest with password := .string "guess" }
      twoFactorAlice [twoFactorAlice, bob] twoFactorAlice (by decide) rfl (by decide)).1
      (by decide),
   ((two_factor_disable toyAuthEnv 1000 disableRequest twoFactorAlice [twoFactorAlice, bob]
      twoFactorAlice (by decide) rfl (by decide)).2.2 (by decide)).2.1⟩

/-! ## The lockout counter -/

theorem lockCall_keeps_invariant (c : LockCall) (u : User)
    (h : u.lockUntil ≠ none ↔ 5 ≤ u.loginAttempts) :
    (c.apply u).lockUntil ≠ none ↔ 5 ≤ (c.apply u).loginAttempts := by
  cases c with
  | reset => simp [LockCall.apply, User.resetLoginAttemptsUpdate, Update.apply]
  | inc now =>
    cases hl : u.lockUntil with
    | none =>
      have hlt : ¬ 5 ≤ u.loginAttempts := by
        intro h5; exact (h.2 h5) hl
      by_cases h4 : 4 ≤ u.loginAttempts
      · simp [LockCall.apply, User.incLoginAttemptsUpdate, Update.apply, hl, maxAttempts,
          User.isLocked, h4]
      · simp [LockCall.apply, User.incLoginAttemptsUpdate, Update.apply, hl, maxAttempts,
          User.isLocked, h4]
    | some lockUntil =>
      have h5 : 5 ≤ u.loginAttempts := h.1 (by rw [hl]; simp)
      have h4 : 4 ≤ u.loginAttempts := by omega
      by_cases hexp : lockUntil < now
      · simp [LockCall.apply, User.incLoginAttemptsUpdate, Update.apply, hl, hexp]
      · by_cases hlocked : now < lockUntil
        · simp [LockCall.apply, User.incLoginAttemptsUpdate, Update.apply, hl, hexp, maxAttempts,
            User.isLocked, hlocked, h4]
        · simp [LockCall.apply, User.incLoginAttemptsUpdate, Update.apply, hl, hexp, maxAttempts,
            User.isLocked, hlocked, h4]

theorem runLockCalls_keeps_invariant (calls : List LockCall) :
    ∀ u : User, (u.lockUntil ≠ none ↔ 5 ≤ u.loginAttempts) →
      ((runLockCalls calls u).lockUntil ≠ none ↔ 5 ≤ (runLockCalls calls u).loginAttempts) := by
  induction calls with
  | nil => intro u h; exact h
  | cons c rest ih =>
    intro u h
    exact ih (c.apply u) (lockCall_keeps_invariant c u h)

/-- C28: in every state reached from a new account (loginAttempts = 0, no
lockUntil) by any sequence of incLoginAttempts and resetLoginAttempts calls,
applied one after another at arbitrary times, lockUntil is present if and only
if loginAttempts is at least 5. -/
theorem lock_present_iff_five_attempts (calls : List LockCall) (u : User)
    (hattempts : u.loginAttempts = 0) (hnolock : u.lockUntil = none) :
    (runLockCalls calls u).lockUntil ≠ none ↔ 5 ≤ (runLockCalls calls u).loginAttempts := by
  apply runLockCalls_keeps_invariant
  rw [hattempts, hnolock]
  simp

theorem lock_present_iff_five_attempts_witness :
    (runLockCalls [LockCall.inc 1, LockCall.inc 2, LockCall.inc 3, LockCall.inc 4,
        LockCall.inc 5, LockCall.inc 7200005, LockCall.inc 9000000] alice).lockUntil ≠ none
      ↔ 5 ≤ (runLockCalls [LockCall.inc 1, LockCall.inc 2, LockCall.inc 3, LockCall.inc 4,
        LockCall.inc 5, LockCall.inc 7200005, LockCall.inc 9000000] alice).loginAttempts :=
  lock_present_iff_five_attempts _ alice rfl rfl

/-- C29, evaluated where it fails: at the instant now = lockUntil the account
of Alice (loginAttempts 5, lockUntil 7,205,000) is not locked for isLocked,
yet incLoginAttempts does not take the lock for expired: instead of a fresh
window (loginAttempts 1, no lockUntil) it counts 6 attempts and locks the
account for two more hours, and so does a login with a wrong password at that
instant.  One millisecond later the window is fresh. -/
theorem expired_lock_boundary :
    lockedAlice.loginAttempts = 5 ∧ lockedAlice.lockUntil = some 7205000 ∧
    lockedAlice.isLocked 7205000 = false ∧
    (lockedAlice.incLoginAttemptsUpdate 7205000).apply lockedAlice
      = { lockedAlice with loginAttempts := 6, lockUntil := some 14405000 } ∧
    (lockedAlice.incLoginAttemptsUpdate 7205000).apply lockedAlice
      ≠ { lockedAlice with loginAttempts := 1, lockUntil := none } ∧
    login toyEnv 7205000 wrongLogin [lockedAlice]
      = (invalidCredentials,
         [{ lockedAlice with loginAttempts := 6, lockUntil := some 14405000 }]) ∧
    (lockedAlice.incLoginAttemptsUpdate 7205001).apply lockedAlice
      = { lockedAlice with loginAttempts := 1, lockUntil := none } := by
  decide

/-! ## Failed logins -/

/-- C30: a failed login on an existing account that is not locked (wrong
password, or correct password, 2FA enabled and a supplied twoFactorCode that
neither passes TOTP verification nor is a stored backup code) answers 401
without any token, applies incLoginAttempts exactly once, and changes no field
of the stored account other than loginAttempts and lockUntil. -/
theorem failed_login_changes_only_lockout (env : Env) (now : Nat) (req : LoginRequest) (db : Db)
    (u : User) (hdb : UniqueIds db) (hfind : findOne (byEmail u.email) db = some u)
    (hv : req.validationErrors = []) (hemail : req.email = u.email)
    (hlock : u.isLocked now = false)
    (hfail : u.comparePassword env req.password = .ok false ∨
      (u.comparePassword env req.password = .ok true ∧ u.twoFactorEnabled = true ∧
        ∃ code, req.twoFactorCode = some code ∧ code ≠ "" ∧
          env.totpVerify u.twoFactorSecret code now = false ∧
          ∀ codes, u.twoFactorBackupCodes = some codes → code ∉ codes)) :
    (login env now req db).1.status = 401 ∧
    (login env now req db).1.accessToken = none ∧
    (login env now req db).1.refreshToken = none ∧
    (login env now req db).2 = u.incLoginAttempts now db ∧
    findOne (byEmail u.email) (login env now req db).2
      = some { u with
               loginAttempts := ((u.incLoginAttemptsUpdate now).apply u).loginAttempts,
               lockUntil := ((u.incLoginAttemptsUpdate now).apply u).lockUntil } := by
  have hfind2 : findOne (byEmail req.email) db = some u := by rw [hemail]; exact hfind
  have hstored : findOne (byEmail u.email) (u.incLoginAttempts now db)
      = some ((u.incLoginAttemptsUpdate now).apply u) :=
    findOne_updateOne (byEmail u.email) (u.incLoginAttemptsUpdate now).apply
      (fun s => rfl) db u hdb hfind
  rcases hfail with hpw | ⟨hpw, h2fa, code, hcode, hne, htotp, hcodes⟩
  · rw [login_wrong_password env now req db u hv hfind2 hlock hpw]
    exact ⟨rfl, rfl, rfl, rfl, hstored⟩
  · rw [login_two_factor_rejected env now req db u code hv hfind2 hlock hpw h2fa hcode hne
      htotp hcodes]
    exact ⟨rfl, rfl, rfl, rfl, hstored⟩

theorem failed_login_changes_only_lockout_witness :
    login toyEnv 1000 { backupLogin with twoFactorCode := some "000000" } [twoFactorAlice, bob]
      = ({ status := 401, success := false, message := some "Invalid 2FA code" },
         [{ twoFactorAlice with loginAttempts := 1 }, bob]) :=
  have h := failed_login_changes_only_lockout toyEnv 1000
    { backupLogin with twoFactorCode := some "000000" } [twoFactorAlice, bob] twoFactorAlice
    (by decide) (by decide) rfl rfl (by decide)
    (Or.inr ⟨by decide, rfl, "000000", rfl, by decide, rfl, by decide⟩)
  Prod.ext (by decide) (h.2.2.2.1.trans (by decide))

/-! ## Backup codes -/

theorem hexDigit_upper : ∀ d, d < 16 → isUpperHex (hexDigit d).toUpper = true := by
  decide

theorem generateBackupCodesLoop_eq (rng : RandomSource) (remaining : Nat) :
    ∀ (i : Nat) (codes : List String),
      generateBackupCodesLoop rng remaining i codes
        = codes ++ (List.range' i remaining).map
            (fun k => toUpperCase (toHex (randomBytes rng (4 * k) 4))) := by
  induction remaining with
  | zero => intro i codes; simp [generateBackupCodesLoop]
  | succ n ih =>
    intro i codes
    simp only [generateBackupCodesLoop]
    rw [ih]
    simp [List.range'_succ]

theorem toUpperCase_toHex_shape (bytes : List Nat) (hb : ∀ b ∈ bytes, b < 256) :
    (toUpperCase (toHex bytes)).length = 2 * bytes.length ∧
    ∀ c ∈ (toUpperCase (toHex bytes)).data, isUpperHex c = true := by
  induction bytes with
  | nil => simp [toUpperCase, toHex, String.length]
  | cons b bs ih =>
    have hb0 : b < 256 := hb b (List.mem_cons_self _ _)
    obtain ⟨ih1, ih2⟩ := ih (fun x hx => hb x (List.mem_cons_of_mem _ hx))
    simp only [toUpperCase, toHex, String.length, List.flatMap_cons, List.map_append,
      List.map_cons, List.map_nil, List.length_append, List.length_cons, List.length_nil,
      List.length_map] at ih1 ih2 ⊢
    refine ⟨by omega, ?_⟩
    intro c hc
    rcases List.mem_append.1 hc with h | h
    · simp only [List.mem_cons, List.mem_singleton, List.not_mem_nil, or_false] at h
      rcases h with h | h
      · rw [h]; exact hexDigit_upper _ (by omega)
      · rw [h]; exact hexDigit_upper _ (by omega)
    · exact ih2 c h

theorem randomBytes_shape (rng : RandomSource) (pos n : Nat) :
    (randomBytes rng pos n).length = n ∧ ∀ b ∈ randomBytes rng pos n, b < 256 := by
  constructor
  · simp [randomBytes]
  · intro b hb
    simp only [randomBytes, List.mem_map] at hb
    obtain ⟨k, _, hk⟩ := hb
    rw [← hk]
    exact Nat.mod_lt _ (by decide)

/-- C23: for every count n and every outcome of the random byte source,
generateBackupCodes(n) returns exactly n codes, the i-th being the upper-case
hexadecimal encoding of the 4 random bytes of the i-th draw: each code has
exactly 8 characters, all among 0-9 and A-F; without argument it returns
exactly 10 codes. -/
theorem generateBackupCodes_shape (rng : RandomSource) (n : Nat) :
    (generateBackupCodes rng n).length = n ∧
    generateBackupCodes rng n
      = (List.range n).map (fun k => toUpperCase (toHex (randomBytes rng (4 * k) 4))) ∧
    (∀ code ∈ generateBackupCodes rng n,
      code.length = 8 ∧ ∀ c ∈ code.data, isUpperHex c = true) ∧
    (generateBackupCodes rng).length = 10 := by
  have heq : generateBackupCodes rng n
      = (List.range n).map (fun k => toUpperCase (toHex (randomBytes rng (4 * k) 4))) := by
    unfold generateBackupCodes
    rw [generateBackupCodesLoop_eq, List.range_eq_range']
    simp
  refine ⟨generateBackupCodes_length rng n, heq, ?_, generateBackupCodes_length rng 10⟩
  intro code hcode
  rw [heq, List.mem_map] at hcode
  obtain ⟨k, _, hk⟩ := hcode
  have hshape := toUpperCase_toHex_shape (randomBytes rng (4 * k) 4)
    (randomBytes_shape rng (4 * k) 4).2
  rw [(randomBytes_shape rng (4 * k) 4).1] at hshape
  rw [← hk]
  exact hshape

/-! ## Opaque tokens are stored hashed -/

theorem registerTraced_fst (env : AuthEnv) (now : Nat) (rng : RandomSource) (newId : Nat)
    (req : RegisterRequest) (db : Db) :
    (registerTraced env now rng newId req db).1 = register env now rng newId req db := by
  unfold registerTraced register
  split
  · rfl
  · split
    · rfl
    · split
      · rfl
      · simp only []
        split <;> rfl

theorem forgotPasswordTraced_fst (env : AuthEnv) (now : Nat) (rng : RandomSource)
    (req : ForgotPasswordRequest) (db : Db) :
    (forgotPasswordTraced env now rng req db).1 = forgotPassword env now rng req db := by
  unfold forgotPasswordTraced forgotPassword
  split
  · rfl
  · split
    · rfl
    · simp only []
      split <;> rfl

theorem registerTraced_mail (env : AuthEnv) (now : Nat) (rng : RandomSource) (newId : Nat)
    (req : RegisterRequest) (db : Db)
    (hv : req.validationErrors = []) (habsent : findOne (byEmail req.email) db = none)
    (hschema : schemaAccepts env req.name req.email req.password = true) :
    (registerTraced env now rng newId req db).2
      = [MailCall.verification req.email req.name (generateRandomToken rng)] := by
  simp only [registerTraced, hv, habsent, hschema, List.isEmpty_nil, Bool.not_true,
    Bool.false_eq_true, if_false, create_eq, save, preSave, List.mem_cons, List.mem_singleton,
    reduceCtorEq, or_self]
  split <;> rfl

theorem forgotPasswordTraced_found (env : AuthEnv) (now : Nat) (rng : RandomSource)
    (req : ForgotPasswordRequest) (db : Db) (u : User)
    (hv : req.validationErrors = []) (hfind : findOne (byEmail req.email) db = some u) :
    (forgotPasswordTraced env now rng req db).2
      = [MailCall.passwordReset u.email u.name (generateRandomToken rng)] ∧
    (forgotPasswordTraced env now rng req db).1.2
      = updateOne u._id (fun s =>
          { s with resetPasswordToken := some (hashToken env (generateRandomToken rng)),
                   resetPasswordExpire := some (now + 3600000) }) db := by
  simp only [forgotPasswordTraced, hv, hfind, List.isEmpty_nil, Bool.not_true,
    Bool.false_eq_true, if_false, save, preSave, List.mem_cons, List.mem_singleton,
    reduceCtorEq, or_self]
  constructor
  · split <;> rfl
  · split <;> rfl

theorem resendVerificationTraced_pending (env : AuthEnv) (now : Nat) (rng : RandomSource)
    (user : User) (db : Db) (hpending : user.isEmailVerified = false) :
    (resendVerificationTraced env now rng user db).2
      = [MailCall.verification user.email user.name (generateRandomToken rng)] ∧
    (resendVerificationTraced env now rng user db).1.2
      = updateOne user._id (fun s =>
          { s with emailVerificationToken := some (hashToken env (generateRandomToken rng)),
                   emailVerificationExpire := some (now + 86400000) }) db := by
  simp only [resendVerificationTraced, hpending, Bool.false_eq_true, if_false, save, preSave,
    List.mem_cons, List.mem_singleton, reduceCtorEq, or_self]
  constructor
  · split <;> rfl
  · split <;> rfl

theorem updateProfileTraced_emailChange (env : AuthEnv) (now : Nat) (rng : RandomSource)
    (req : ProfileRequest) (user : User) (db : Db) (e : String)
    (hv : req.validationErrors = []) (he : req.email = some e) (hne : e ≠ "")
    (hchg : e ≠ user.email) (habsent : findOne (byEmail e) db = none) :
    (updateProfileTraced env now rng req user db).2
      = [MailCall.verification e (if truthy req.name then req.name.getD "" else user.name)
          (generateRandomToken rng)] ∧
    (((updateProfileTraced env now rng req user db).1.1.status = 500 ∧
      (updateProfileTraced env now rng req user db).1.2 = db) ∨
     ((updateProfileTraced env now rng req user db).1.1.status = 200 ∧
      (updateProfileTraced env now rng req user db).1.2
        = updateOne user._id (fun s =>
            { s with name := if truthy req.name then req.name.getD "" else s.name,
                     email := e, isEmailVerified := false,
                     emailVerificationToken := some (hashToken env (generateRandomToken rng)),
                     emailVerificationExpire := some (now + 86400000) }) db)) := by
  have hcond : (truthy (some e) && some e != some user.email) = true := by
    simp [truthy, hne, hchg]
  simp only [updateProfileTraced, hv, List.isEmpty_nil, Bool.not_true, Bool.false_eq_true,
    if_false, hcond, if_true, he, Option.getD_some, habsent]
  constructor
  · split <;> rfl
  · have hout : ∀ (o : Response × Db),
        ((match sendVerificationEmail env.mail e
            (if truthy req.name = true then req.name.getD "" else user.name)
            (generateRandomToken rng) with
          | .ok () => (o, [MailCall.verification e
              (if truthy req.name = true then req.name.getD "" else user.name)
              (generateRandomToken rng)])
          | .error _emailError => (o, [MailCall.verification e
              (if truthy req.name = true then req.name.getD "" else user.name)
              (generateRandomToken rng)])) : (Response × Db) × List MailCall).1 = o := by
      intro o; split <;> rfl
    rw [hout]
    cases hn : truthy req.name
    · simp only [profileSave, hn, Bool.false_eq_true, if_false]
      split
      · exact Or.inl ⟨rfl, rfl⟩
      · refine Or.inr ⟨rfl, ?_⟩
        simp only [save, preSave, List.mem_cons, List.mem_singleton, reduceCtorEq, or_self,
          if_false, if_true, Bool.false_eq_true]
        rfl
    · simp only [profileSave, hn, if_true]
      split
      · exact Or.inl ⟨rfl, rfl⟩
      · refine Or.inr ⟨rfl, ?_⟩
        simp only [save, preSave, List.mem_cons, List.mem_singleton, reduceCtorEq, or_self,
          if_false, if_true, Bool.false_eq_true]
        rfl

/-- C24: in every flow that issues an opaque token (register, profile email
change, resend-verification, forgot-password), the mail sender is called once,
with the freshly generated token t = generateRandomToken, and the store
afterwards is the old store with one account appended (register) or rewritten
(the other three) as displayed: the value persisted in emailVerificationToken
or resetPasswordToken is hashToken(t), and no other field of the stored
account receives t.  A profile update whose save is refused by the validators
of the schema leaves the store as it was. -/
theorem opaque_token_stored_hashed (env : AuthEnv) (now : Nat) (rng : RandomSource) (db : Db)
    (hdb : UniqueIds db) :
    (∀ (newId : Nat) (req : RegisterRequest), req.validationErrors = [] →
      findOne (byEmail req.email) db = none →
      schemaAccepts env req.name req.email req.password = true →
      (∀ v ∈ db, v._id ≠ newId) →
      (registerTraced env now rng newId req db).1 = register env now rng newId req db ∧
      (registerTraced env now rng newId req db).2
        = [MailCall.verification req.email req.name (generateRandomToken rng)] ∧
      (register env now rng newId req db).2 = db ++ [registeredAccount env now rng newId req] ∧
      (registeredAccount env now rng newId req).emailVerificationToken
        = some (hashToken env (generateRandomToken rng))) ∧
    (∀ (req : ProfileRequest) (user stored : User) (e : String), req.validationErrors = [] →
      req.email = some e → e ≠ "" → e ≠ user.email → findOne (byEmail e) db = none →
      findOne (byId stored._id) db = some stored → LoadedFrom user stored →
      (updateProfileTraced env now rng req user db).2
        = [MailCall.verification e (if truthy req.name then req.name.getD "" else stored.name)
            (generateRandomToken rng)] ∧
      (((updateProfile env now rng req user db).1.status = 500 ∧
        (updateProfile env now rng req user db).2 = db) ∨
       ((updateProfile env now rng req user db).1.status = 200 ∧
        (updateProfile env now rng req user db).2
          = updateOne stored._id (fun s =>
              { s with name := if truthy req.name then req.name.getD "" else s.name,
                       email := e, isEmailVerified := false,
                       emailVerificationToken := some (hashToken env (generateRandomToken rng)),
                       emailVerificationExpire := some (now + 86400000) }) db ∧
        findOne (byId stored._id) (updateProfile env now rng req user db).2
          = some { stored with
                     name := if truthy req.name then req.name.getD "" else stored.name,
                     email := e, isEmailVerified := false,
                     emailVerificationToken := some (hashToken env (generateRandomToken rng)),
                     emailVerificationExpire := some (now + 86400000) }))) ∧
    (∀ (user stored : User), findOne (byId stored._id) db = some stored →
      LoadedFrom user stored → user.isEmailVerified = false →
      (resendVerificationTraced env now rng user db).2
        = [MailCall.verification stored.email stored.name (generateRandomToken rng)] ∧
      (resendVerification env now rng user db).2
        = updateOne stored._id (fun s =>
            { s with emailVerificationToken := some (hashToken env (generateRandomToken rng)),
                     emailVerificationExpire := some (now + 86400000) }) db ∧
      findOne (byId stored._id) (resendVerification env now rng user db).2
        = some { stored with
                   emailVerificationToken := some (hashToken env (generateRandomToken rng)),
                   emailVerificationExpire := some (now + 86400000) }) ∧
    (∀ (req : ForgotPasswordRequest) (u : User), req.validationErrors = [] →
      findOne (byEmail req.email) db = some u →
      (forgotPasswordTraced env now rng req db).1 = forgotPassword env now rng req db ∧
      (forgotPasswordTraced env now rng req db).2
        = [MailCall.passwordReset u.email u.name (generateRandomToken rng)] ∧
      (forgotPassword env now rng req db).2
        = updateOne u._id (fun s =>
            { s with resetPasswordToken := some (hashToken env (generateRandomToken rng)),
                     resetPasswordExpire := some (now + 3600000) }) db ∧
      findOne (byId u._id) (forgotPassword env now rng req db).2
        = some { u with resetPasswordToken := some (hashToken env (generateRandomToken rng)),
                        resetPasswordExpire := some (now + 3600000) }) := by
  refine ⟨?_, ?_, ?_, ?_⟩
  · intro newId req hv habsent hschema hfresh
    refine ⟨registerTraced_fst env now rng newId req db,
      registerTraced_mail env now rng newId req db hv habsent hschema, ?_, rfl⟩
    rw [register_accepted env now rng newId req db hv habsent hschema hfresh]
  · intro req user stored e hv he hne hchg habsent hfind hl
    have hid : user._id = stored._id := congrArg (fun u => u._id) hl
    have hname : user.name = stored.name := congrArg (fun u => u.name) hl
    have h := updateProfileTraced_emailChange env now rng req user db e hv he hne hchg habsent
    rw [hid, hname] at h
    refine ⟨h.1, ?_⟩
    rcases h.2 with ⟨hs, hstore⟩ | ⟨hs, hstore⟩
    · exact Or.inl ⟨hs, hstore⟩
    · refine Or.inr ⟨hs, hstore, ?_⟩
      unfold updateProfile
      rw [hstore]
      exact findOne_updateOne_target (fun s =>
        { s with name := if truthy req.name then req.name.getD "" else s.name,
                 email := e, isEmailVerified := false,
                 emailVerificationToken := some (hashToken env (generateRandomToken rng)),
                 emailVerificationExpire := some (now + 86400000) }) db stored hfind rfl
  · intro user stored hfind hl hpending
    have hid : user._id = stored._id := congrArg (fun u => u._id) hl
    have hname : user.name = stored.name := congrArg (fun u => u.name) hl
    have hemail : user.email = stored.email := congrArg (fun u => u.email) hl
    have h := resendVerificationTraced_pending env now rng user db hpending
    rw [hid, hname, hemail] at h
    refine ⟨h.1, h.2, ?_⟩
    unfold resendVerification
    rw [h.2]
    exact findOne_updateOne_target (fun s =>
      { s with emailVerificationToken := some (hashToken env (generateRandomToken rng)),
               emailVerificationExpire := some (now + 86400000) }) db stored hfind rfl
  · intro req u hv hfind
    have h := forgotPasswordTraced_found env now rng req db u hv hfind
    have hfst := forgotPasswordTraced_fst env now rng req db
    rw [hfst] at h
    refine ⟨hfst, h.1, h.2, ?_⟩
    rw [h.2]
    exact findOne_updateOne_target (fun s =>
      { s with resetPasswordToken := some (hashToken env (generateRandomToken rng)),
               resetPasswordExpire := some (now + 3600000) }) db u
      (findOne_byId_of_findOne (byEmail req.email) db u hdb hfind) rfl

theorem opaque_token_stored_hashed_witness :
    (registerTraced toyAuthEnv 1000 collidingSource 1 aliceRegistration [bob]).2
      = [MailCall.verification "alice@x.com" "Alice" (generateRandomToken collidingSource)] ∧
    (register toyAuthEnv 1000 collidingSource 1 aliceRegistration [bob]).2
      = [bob, registeredAccount toyAuthEnv 1000 collidingSource 1 aliceRegistration] ∧
    (updateProfileTraced toyAuthEnv 1000 collidingSource emailChange alice [alice, bob]).2
      = [MailCall.verification "alice@y.com" "Alice" (generateRandomToken collidingSource)] ∧
    (resendVerificationTraced toyAuthEnv 1000 collidingSource alice [alice, bob]).2
      = [MailCall.verification "alice@x.com" "Alice" (generateRandomToken collidingSource)] ∧
    findOne (byId 1) (resendVerification toyAuthEnv 1000 collidingSource alice [alice, bob]).2
      = some { alice with
                 emailVerificationToken :=
                   some (hashToken toyAuthEnv (generateRandomToken collidingSource)),
                 emailVerificationExpire := some 86401000 } ∧
    (forgotPasswordTraced toyAuthEnv 1000 collidingSource aliceForgot [alice, bob]).2
      = [MailCall.passwordReset "alice@x.com" "Alice" (generateRandomToken collidingSource)] ∧
    findOne (byId 1) (forgotPassword toyAuthEnv 1000 collidingSource aliceForgot [alice, bob]).2
      = some { alice with
                 resetPasswordToken :=
                   some (hashToken toyAuthEnv (generateRandomToken collidingSource)),
                 resetPasswordExpire := some 3601000 } :=
  have hr := (opaque_token_stored_hashed toyAuthEnv 1000 collidingSource [bob] (by decide)).1
    1 aliceRegistration rfl (by decide) (by decide) (by decide)
  have h := opaque_token_stored_hashed toyAuthEnv 1000 collidingSource [alice, bob] (by decide)
  have hp := h.2.1 emailChange alice alice "alice@y.com" rfl rfl (by decide) (by decide)
    (by decide) (by decide) (by decide)
  have hs := h.2.2.1 alice alice (by decide) (by decide) rfl
  have hf := h.2.2.2 aliceForgot alice rfl (by decide)
  ⟨hr.2.1, hr.2.2.1, hp.1, hs.1, hs.2.2, hf.2.1, hf.2.2.2⟩

/-! ## The stored password and the password that was set -/

/-- C25, counterexample.  (1) bcrypt reads the first 72 characters only: after
a registration with the password `longPassword 'X'` (73 characters) the stored
account accepts the different password `longPassword 'Y'`.  (2) A
reset-password whose new password is the stored hash string of the account
leaves the hash as it was, and comparePassword rejects that new password. -/
theorem stored_password_accepts_another_password :
    (6 ≤ jsLength (longPassword 'X') ∧ longPassword 'Y' ≠ longPassword 'X' ∧
     (register truncatingAuthEnv 1000 collidingSource 1 longRegistration [bob]).1.status = 201 ∧
     ∃ s, findOne (byEmail "alice@x.com")
         (register truncatingAuthEnv 1000 collidingSource 1 longRegistration [bob]).2 = some s ∧
       s.comparePassword truncatingEnv (.string (longPassword 'Y')) = .ok true) ∧
    (6 ≤ jsLength hashReset.password ∧
     (resetPassword toyAuthEnv 2000 hashReset [pendingAlice, bob]).1.status = 200 ∧
     ∃ s, findOne (byId 1) (resetPassword toyAuthEnv 2000 hashReset [pendingAlice, bob]).2
         = some s ∧
       s.comparePassword toyEnv (.string hashReset.password) = .ok false) := by
  refine ⟨⟨by decide, by decide, by decide, _, rfl, by decide⟩,
    by decide, by decide, _, rfl, by decide⟩

/-- C25, amended: for every password p set on an account, at registration
(where the schema requires length at least 6) or by an accepted reset-password
with p different from the stored hash string, the stored password is the hash
bcrypt made of p, and comparePassword(q) returns for every string q what
bcrypt.compare(q, that hash) returns: true for p itself (bcrypt accepting p
against the hash it made of p), false for every q that bcrypt rejects against
that hash. -/
theorem stored_password_is_hash_of_set_password (env : AuthEnv) (now : Nat) (p : String)
    (db : Db) (hdb : UniqueIds db)
    (hself : env.bcryptCompare p (env.bcryptHash p (env.bcryptGenSalt now)) = true) :
    (∀ (rng : RandomSource) (newId : Nat) (req : RegisterRequest), req.password = p →
      req.validationErrors = [] → findOne (byEmail req.email) db = none →
      schemaAccepts env req.name req.email req.password = true →
      (∀ v ∈ db, v._id ≠ newId) →
      6 ≤ jsLength p ∧
      ∃ s, findOne (byEmail req.email) (register env now rng newId req db).2 = some s ∧
        s.password = env.bcryptHash p (env.bcryptGenSalt now) ∧
        s.comparePassword env.toEnv (.string p) = .ok true ∧
        ∀ q, s.comparePassword env.toEnv (.string q)
          = .ok (env.bcryptCompare q (env.bcryptHash p (env.bcryptGenSalt now)))) ∧
    (∀ (req : ResetPasswordRequest) (u : User), req.password = p →
      req.validationErrors = [] →
      findOne (resetFilter (hashToken env req.token) now) db = some u →
      p ≠ u.password →
      ∃ s, findOne (byId u._id) (resetPassword env now req db).2 = some s ∧
        s.password = env.bcryptHash p (env.bcryptGenSalt now) ∧
        s.comparePassword env.toEnv (.string p) = .ok true ∧
        ∀ q, s.comparePassword env.toEnv (.string q)
          = .ok (env.bcryptCompare q (env.bcryptHash p (env.bcryptGenSalt now)))) := by
  constructor
  · intro rng newId req hp hv habsent hschema hfresh
    subst hp
    refine ⟨?_, registeredAccount env now rng newId req, ?_, rfl, ?_, fun q => rfl⟩
    · simp only [schemaAccepts, Bool.and_eq_true, decide_eq_true_eq] at hschema
      exact hschema.2
    · rw [register_accepted env now rng newId req db hv habsent hschema hfresh]
      show findOne (byEmail req.email) (db ++ [registeredAccount env now rng newId req]) = _
      rw [findOne_append_of_none _ db _ habsent]
      simp [findOne, List.find?, byEmail, registeredAccount]
    · show Except.ok (env.bcryptCompare req.password
        (env.bcryptHash req.password (env.bcryptGenSalt now))) = Except.ok true
      rw [hself]
  · intro req u hp hv hfind hne
    subst hp
    have hwrite : (resetWrite env now req.password u.password u).password
        = env.bcryptHash req.password (env.bcryptGenSalt now) := by
      simp [resetWrite, hne]
    refine ⟨resetWrite env now req.password u.password u, ?_, hwrite, ?_, ?_⟩
    · rw [resetPassword_accepted env now req db u hv hfind]
      exact findOne_updateOne_target (resetWrite env now req.password u.password) db u
        (findOne_byId_of_findOne (resetFilter (hashToken env req.token) now) db u hdb hfind) rfl
    · show Except.ok (env.bcryptCompare req.password
        (resetWrite env now req.password u.password u).password) = Except.ok true
      rw [hwrite, hself]
    · intro q
      show Except.ok (env.bcryptCompare q
        (resetWrite env now req.password u.password u).password) = _
      rw [hwrite]

theorem stored_password_is_hash_of_set_password_witness :
    (∃ s, findOne (byEmail "alice@x.com")
        (register toyAuthEnv 1000 collidingSource 1 aliceRegistration [bob]).2 = some s ∧
      s.password = "hash(secret1)" ∧
      s.comparePassword toyEnv (.string "secret1") = .ok true) ∧
    (∃ s, findOne (byId 1) (resetPassword toyAuthEnv 2000 resetRequest [pendingAlice, bob]).2
        = some s ∧
      s.password = "hash(newpass1)" ∧
      s.comparePassword toyEnv (.string "newpass1") = .ok true) :=
  have hr := ((stored_password_is_hash_of_set_password toyAuthEnv 1000 "secret1" [bob]
    (by decide) (by decide)).1 collidingSource 1 aliceRegistration
    rfl rfl (by decide) (by decide) (by decide)).2
  have hp := (stored_password_is_hash_of_set_password toyAuthEnv 2000 "newpass1"
    [pendingAlice, bob] (by decide) (by decide)).2 resetRequest pendingAlice
    rfl rfl (by decide) (by decide)
  ⟨hr.imp (fun _ h => ⟨h.1, h.2.1, h.2.2.1⟩), hp.imp (fun _ h => ⟨h.1, h.2.1, h.2.2.1⟩)⟩

end Shiksha
